import Mathlib

/-!
# Density physics simulator: a shallow embedding

The JavaScript sources `physics-engine.js`, `main.js` and `controls.js` are
embedded as pure functions over explicit state.

* JavaScript numbers are modelled by exact rationals `ℚ`; every decimal literal
  of the source appears with the same digits.
* The module-level variables of `main.js` and `controls.js` (`balls`,
  `platforms`, `particles`, `isRunning`, `animationId`, `sequenceStep`,
  `currentWeight`) are the fields of `Sim`.  Callbacks handed to
  `requestAnimationFrame` and `setTimeout` are kept in `Sim` as pending work.
* `Math.random()` is an oracle `Env.random`: draw number `i` of a run is
  `env.random i`, and `Sim.randomCalls` counts the draws made so far.
* `canvas.width` and `canvas.height` are the fields of `Env.canvas`.
* Rendering (`draw`, the texture tables built by `Ball.generateTexture`, the
  DOM button classes) only reads the simulation state and is left out.
* A weight is the string the source stores in `ball.weight`; the table lookup
  `WEIGHT_SETTINGS[weight]` yields `none` where JavaScript yields `undefined`.  The table
  is a plain object literal, so under a name inherited from `Object.prototype` the lookup
  finds a value that is truthy and is not an entry: the model has `some inheritedValue`
  there.  The source reads `undefined` from the fields of that value and computes `NaN`
  with them; rationals have no `NaN`, so the numbers of `inheritedValue` only fill the
  record, and what is stated about weights outside the table leaves these names out.
-/

namespace DensitySim

/-! ## Configuration tables -/

/-- One entry of `WEIGHT_SETTINGS`. -/
structure WeightConfig where
  mass : ℚ
  bounceMultiplier : ℚ
  gravityMultiplier : ℚ
  platformBreak : Bool
  color : String
  glow : String
  trailColor : String
deriving DecidableEq, Repr

/-- The record type of `PHYSICS_CONSTANTS`. -/
structure PhysicsConstants where
  gravity : ℚ
  friction : ℚ
  bounce : ℚ
deriving DecidableEq, Repr

/-- `const PHYSICS_CONSTANTS = { gravity: 0.25, friction: 0.98, bounce: 0.6 }`. -/
def PHYSICS_CONSTANTS : PhysicsConstants :=
  { gravity := 0.25, friction := 0.98, bounce := 0.6 }

/-- The property names that an object literal inherits from `Object.prototype`, in a page
that adds none of its own. -/
def inheritedKeys : List String :=
  ["constructor", "__defineGetter__", "__defineSetter__", "hasOwnProperty",
   "__lookupGetter__", "__lookupSetter__", "isPrototypeOf", "propertyIsEnumerable",
   "toString", "valueOf", "__proto__", "toLocaleString"]

/-- What a lookup in an object literal finds under an inherited name: a function or object
of `Object.prototype`, truthy and not a table entry.  Its `mass`, `gravityMultiplier` and
other fields are `undefined` in the source, and every product with them is `NaN`; the
values below only fill the record. -/
def inheritedValue : WeightConfig :=
  { mass := 0, bounceMultiplier := 0, gravityMultiplier := 0, platformBreak := false,
    color := "", glow := "", trailColor := "" }

/-- `const WEIGHT_SETTINGS = { light: ..., medium: ..., heavy: ... }`, as the lookup
`WEIGHT_SETTINGS[weight]`: an entry of the table, the value found under an inherited name,
or `none` for `undefined`. -/
def WEIGHT_SETTINGS (weight : String) : Option WeightConfig :=
  if weight = "light" then
    some { mass := 0.4, bounceMultiplier := 1.2, gravityMultiplier := 0.6,
           platformBreak := false,
           color := "#e8f4ff", glow := "#c8d8ff", trailColor := "#b8d0ff" }
  else if weight = "medium" then
    some { mass := 1.5, bounceMultiplier := 0.0, gravityMultiplier := 1.2,
           platformBreak := false,
           color := "#f0f6ff", glow := "#d0d8ff", trailColor := "#a8c0ff" }
  else if weight = "heavy" then
    some { mass := 2.2, bounceMultiplier := 0.05, gravityMultiplier := 1.8,
           platformBreak := true,
           color := "#f4f8ff", glow := "#d8e0ff", trailColor := "#98b0ff" }
  else if weight ∈ inheritedKeys then some inheritedValue
  else none

/-- The double `Math.PI`, exactly. -/
def Math.PI : ℚ := 884279719003555 / 281474976710656

/-! ## Data model -/

/-- The browser canvas: only its size matters to the simulation. -/
structure Canvas where
  width : ℚ
  height : ℚ
deriving DecidableEq, Repr

/-- What the simulation reads from outside: the canvas and the stream of `Math.random()` draws. -/
structure Env where
  canvas : Canvas
  random : Nat → ℚ

/-- An element of `ball.trail`. -/
structure TrailPoint where
  x : ℚ
  y : ℚ
  alpha : ℚ
deriving DecidableEq, Repr

/-- The simulation fields of `class Ball`. -/
structure Ball where
  x : ℚ
  y : ℚ
  vx : ℚ
  vy : ℚ
  radius : ℚ
  material : String
  weight : String
  weightConfig : Option WeightConfig
  active : Bool
  trail : List TrailPoint
deriving DecidableEq, Repr

/-- The fields of `class Platform`. -/
structure Platform where
  x : ℚ
  y : ℚ
  width : ℚ
  height : ℚ
  broken : Bool
deriving DecidableEq, Repr

/-- The fields of `class Particle`. -/
structure Particle where
  x : ℚ
  y : ℚ
  vx : ℚ
  vy : ℚ
  color : String
  life : ℚ
  maxLife : ℚ
  size : ℚ
  decay : ℚ
  rotation : ℚ
  angularVelocity : ℚ
deriving DecidableEq, Repr

/-- A callback waiting in a `setTimeout`. -/
inductive Continuation where
  /-- From `setWeight`: `() => { createScene(); startSequence(); }`, 100 ms. -/
  | rebuildAndStart
  /-- From the start button: `setTimeout(startSequence, 100)`. -/
  | start
  /-- From page load: `() => { if (!isRunning) startSequence(); }`, 2000 ms. -/
  | autoStart
deriving DecidableEq, Repr

/-- The module-level state of `main.js` and `controls.js`, with the pending callbacks. -/
structure Sim where
  balls : List Ball
  platforms : List Platform
  particles : List Particle
  isRunning : Bool
  animationId : Option Nat
  sequenceStep : ℚ
  currentWeight : String
  randomCalls : Nat
  nextFrameId : Nat
  pendingFrames : List Nat
  pendingTimeouts : List Continuation
deriving DecidableEq, Repr

/-! ## `class Particle` -/

/-- `new Particle(x, y, vx, vy, color, life)`; the four draws of the constructor are
`env.random k`, ..., `env.random (k + 3)`. -/
def Particle.new (env : Env) (k : Nat) (x y vx vy : ℚ) (color : String) (life : ℚ) : Particle :=
  { x := x, y := y, vx := vx, vy := vy, color := color,
    life := life, maxLife := life,
    size := env.random k * 4 + 2,
    decay := 0.008 + env.random (k + 1) * 0.007,
    rotation := env.random (k + 2) * Math.PI * 2,
    angularVelocity := (env.random (k + 3) - 0.5) * 0.2 }

/-- `Particle.update()`. -/
def Particle.update (c : Canvas) (p : Particle) : Particle :=
  let p := { p with x := p.x + p.vx }
  let p := { p with y := p.y + p.vy }
  let p := { p with vy := p.vy + PHYSICS_CONSTANTS.gravity * 0.15 }
  let p := { p with vx := p.vx * 0.98 }
  let p := { p with vy := p.vy * 0.98 }
  let p := { p with life := p.life - p.decay }
  let p := { p with size := p.size * 0.995 }
  let p := { p with rotation := p.rotation + p.angularVelocity }
  if p.y > c.height - 35 then
    { p with y := c.height - 35, vy := p.vy * -0.3, vx := p.vx * 0.8 }
  else p

/-- `Particle.isDead()`. -/
def Particle.isDead (p : Particle) : Bool :=
  decide (p.life ≤ 0) || decide (p.size < 0.5)

/-! ## `class Platform` -/

/-- `new Platform(x, y, width, height)`. -/
def Platform.new (x y width height : ℚ) : Platform :=
  { x := x, y := y, width := width, height := height, broken := false }

/-- `Platform.checkCollision(ball)`. -/
def Platform.checkCollision (p : Platform) (ball : Ball) : Bool :=
  !p.broken &&
  decide (ball.vy > 0) &&
  decide (ball.y + ball.radius ≥ p.y) &&
  decide (ball.y - ball.radius ≤ p.y + p.height) &&
  decide (ball.x + ball.radius ≥ p.x) &&
  decide (ball.x - ball.radius ≤ p.x + p.width)

/-- The value `ball.weightConfig ? ball.weightConfig.mass : 1.0`. -/
def Ball.mass (b : Ball) : ℚ :=
  match b.weightConfig with
  | some wc => wc.mass
  | none => 1.0

/-- `Platform.handleCollision(ball)`: the platform and the ball after the call. -/
def Platform.handleCollision (p : Platform) (ball : Ball) : Platform × Ball :=
  if p.broken then (p, ball) else
  let ball := { ball with y := p.y - ball.radius }
  let mass := ball.mass
  let impactForce := |ball.vy| * mass
  if ball.weight = "light" then
    let bounceVelocity := ball.vy * -0.7
    if |bounceVelocity| < 1.0 then
      (p, { ball with vy := 0, vx := ball.vx * 0.8 })
    else
      (p, { ball with vy := bounceVelocity, vx := ball.vx * 0.9 })
  else if ball.weight = "medium" then
    (p, { ball with vy := 0, vx := 0 })
  else if ball.weight = "heavy" then
    if impactForce > 3.0 then
      ({ p with broken := true }, { ball with vy := ball.vy * 0.6 })
    else
      (p, { ball with vy := ball.vy * -0.1, vx := ball.vx * 0.7 })
  else (p, ball)

/-! ## `class Ball` -/

/-- `new Ball(x, y, radius, material, weight)`. -/
def Ball.new (x y radius : ℚ) (material weight : String) : Ball :=
  { x := x, y := y, vx := 0, vy := 0, radius := radius,
    material := material, weight := weight,
    weightConfig := WEIGHT_SETTINGS weight,
    active := true, trail := [] }

/-- The constant `effectiveGravity` of `Ball.update`. -/
def Ball.effectiveGravity (b : Ball) : ℚ :=
  PHYSICS_CONSTANTS.gravity *
    (match b.weightConfig with
     | some wc => wc.gravityMultiplier
     | none => 1.0)

/-- `Ball.update`, the block "Physics with weight-specific gravity". -/
def Ball.integrate (b : Ball) : Ball :=
  let b := { b with vy := b.vy + b.effectiveGravity }
  let b := { b with x := b.x + b.vx }
  let b := { b with y := b.y + b.vy }
  let b := { b with vx := b.vx * PHYSICS_CONSTANTS.friction }
  { b with vy := b.vy * PHYSICS_CONSTANTS.friction }

/-- `Ball.update`, the block "Wall collisions". -/
def Ball.wallCollisions (c : Canvas) (b : Ball) : Ball :=
  let b := if b.x - b.radius < 0 then
      { b with x := b.radius, vx := b.vx * -PHYSICS_CONSTANTS.bounce }
    else b
  if b.x + b.radius > c.width then
    { b with x := c.width - b.radius, vx := b.vx * -PHYSICS_CONSTANTS.bounce }
  else b

/-- One pass of the loop body of `Ball.createImpactEffect`; its eight draws start at `k`. -/
def Ball.impactParticle (env : Env) (b : Ball) (k : Nat) : Particle :=
  let mass := b.mass
  let speed := (env.random k * 3 + 1) * mass
  Particle.new env (k + 4)
    (b.x + (env.random (k + 1) - 0.5) * b.radius)
    (b.y + b.radius)
    ((env.random (k + 2) - 0.5) * speed)
    (-env.random (k + 3) * speed * 0.7)
    "#666666"
    (1.5 * mass)

/-- `Ball.createImpactEffect()`: pushes `Math.floor(mass * 8) + 6` particles. -/
def Ball.createImpactEffect (env : Env) (b : Ball) (s : Sim) : Sim :=
  let mass := b.mass
  let particleCount := (⌊mass * 8⌋ + 6).toNat
  { s with
    particles := s.particles ++
      (List.range particleCount).map (fun i => b.impactParticle env (s.randomCalls + 8 * i)),
    randomCalls := s.randomCalls + 8 * particleCount }

/-- `Ball.update`, the block "Weight-specific floor bounce behavior". -/
def Ball.floorResponse (b : Ball) : Ball :=
  if b.weight = "heavy" then
    { b with vy := 0, vx := 0 }
  else if b.weight = "medium" then
    let b := { b with vy := b.vy * (-PHYSICS_CONSTANTS.bounce * 0.5), vx := b.vx * 0.6 }
    if |b.vy| < 1.0 then { b with vy := 0, vx := b.vx * 0.8 } else b
  else
    let b := { b with vy := b.vy * -PHYSICS_CONSTANTS.bounce, vx := b.vx * 0.8 }
    if |b.vy| < 0.5 then { b with vy := 0, vx := b.vx * 0.9 } else b

/-- `Ball.update`, the block "Floor collision with weight-specific bounce". -/
def Ball.floorCollision (env : Env) (b : Ball) (s : Sim) : Ball × Sim :=
  if b.y + b.radius > env.canvas.height - 35 then
    let b := { b with y := env.canvas.height - 35 - b.radius }
    let b := b.floorResponse
    if |b.vy| > 1.0 ∨ b.weight ≠ "heavy" then
      (b, b.createImpactEffect env s)
    else (b, s)
  else (b, s)

/-- The `forEach` that recomputes `alpha` as `(i + 1) / trail.length * 0.2`; `i` is the
index of the head of `t` and `n` is `trail.length`. -/
def Ball.fadeTrail (n : Nat) : Nat → List TrailPoint → List TrailPoint
  | _, [] => []
  | i, pt :: rest =>
    { pt with alpha := ((i : ℚ) + 1) / (n : ℚ) * 0.2 } :: Ball.fadeTrail n (i + 1) rest

/-- `Ball.update`, the block "Update trail". -/
def Ball.updateTrail (b : Ball) : Ball :=
  let trail := b.trail ++ [{ x := b.x, y := b.y, alpha := 1 }]
  let trail := if trail.length > 3 then trail.drop 1 else trail
  { b with trail := Ball.fadeTrail trail.length 0 trail }

/-- `Ball.checkPlatformCollisions()`: `platforms.forEach`, in order, on the ball as the
earlier platforms left it. -/
def Ball.checkPlatformCollisions (b : Ball) : List Platform → Ball × List Platform
  | [] => (b, [])
  | p :: ps =>
    if p.checkCollision b then
      let r := p.handleCollision b
      let rest := Ball.checkPlatformCollisions r.2 ps
      (rest.1, r.1 :: rest.2)
    else
      let rest := Ball.checkPlatformCollisions b ps
      (rest.1, p :: rest.2)

/-- `Ball.update` up to, and not including, the call of `checkPlatformCollisions`. -/
def Ball.beforePlatforms (env : Env) (b : Ball) (s : Sim) : Ball × Sim :=
  let b := b.integrate
  let b := b.wallCollisions env.canvas
  let r := b.floorCollision env s
  (r.1.updateTrail, r.2)

/-- `Ball.update()`: the ball after the call and the globals it wrote
(`platforms`, `particles`, the draws of `Math.random`). -/
def Ball.update (env : Env) (b : Ball) (s : Sim) : Ball × Sim :=
  if !b.active then (b, s) else
  let r := b.beforePlatforms env s
  let c := r.1.checkPlatformCollisions r.2.platforms
  (c.1, { r.2 with platforms := c.2 })

/-! ## `main.js` -/

/-- `createScene()`. -/
def createScene (env : Env) (s : Sim) : Sim :=
  let platformHeight : ℚ := 14
  { s with
    balls := [Ball.new (env.canvas.width * 0.5) 70 30 "granite" s.currentWeight],
    platforms := [Platform.new 0 200 env.canvas.width platformHeight,
                  Platform.new 0 400 env.canvas.width platformHeight],
    particles := [],
    sequenceStep := 0 }

/-- `balls.forEach(ball => ball.update())`. -/
def updateBalls (env : Env) : List Ball → Sim → List Ball × Sim
  | [], s => ([], s)
  | b :: bs, s =>
    let r := b.update env s
    let rest := updateBalls env bs r.2
    (r.1 :: rest.1, rest.2)

/-- `animationId = requestAnimationFrame(gameLoop)`: the request is queued under a fresh id. -/
def requestAnimationFrame (s : Sim) : Sim :=
  { s with
    animationId := some s.nextFrameId,
    pendingFrames := s.pendingFrames ++ [s.nextFrameId],
    nextFrameId := s.nextFrameId + 1 }

/-- `gameLoop()`. -/
def gameLoop (env : Env) (s : Sim) : Sim :=
  if !s.isRunning then s else
  let r := updateBalls env s.balls s
  let s := { r.2 with balls := r.1 }
  let s := { s with particles := s.particles.map (Particle.update env.canvas) }
  let s := { s with particles := s.particles.filter (fun p => !p.isDead) }
  requestAnimationFrame s

/-- `startSequence()`.  With `balls` empty, `balls[0].vy = 0.2` throws a `TypeError`:
the result is then `Except.error`, holding the globals as written so far. -/
def startSequence (env : Env) (s : Sim) : Except Sim Sim :=
  if s.isRunning then .ok s else
  let s := { s with isRunning := true }
  let s := { s with platforms := s.platforms.map (fun (p : Platform) => { p with broken := false }) }
  match s.balls with
  | [] => .error s
  | b :: bs =>
    let b := { b with vy := 0.2 }
    let b := { b with vx := 0 }
    .ok (gameLoop env { s with balls := b :: bs })

/-- The globals after a call that may have thrown. -/
def afterCall : Except Sim Sim → Sim
  | .ok s => s
  | .error s => s

/-- `resetSequence()`; `if (animationId)` holds for an id other than `null` and `0`. -/
def resetSequence (env : Env) (s : Sim) : Sim :=
  let s := { s with isRunning := false }
  let s := match s.animationId with
    | some id =>
      if id ≠ 0 then { s with pendingFrames := s.pendingFrames.filter (fun f => f ≠ id) } else s
    | none => s
  createScene env s

/-! ## `controls.js` -/

/-- `setWeight(weight)`. -/
def setWeight (env : Env) (weight : String) (s : Sim) : Sim :=
  let s := { s with currentWeight := weight }
  if s.isRunning then
    let s := resetSequence env s
    { s with pendingTimeouts := s.pendingTimeouts ++ [Continuation.rebuildAndStart] }
  else
    createScene env s

/-- The `onclick` of the start button. -/
def startButtonClick (env : Env) (s : Sim) : Sim :=
  let s := resetSequence env s
  { s with pendingTimeouts := s.pendingTimeouts ++ [Continuation.start] }

/-- The body of a `setTimeout` callback. -/
def Continuation.run (env : Env) (s : Sim) : Continuation → Sim
  | .rebuildAndStart => afterCall (startSequence env (createScene env s))
  | .start => afterCall (startSequence env s)
  | .autoStart => if !s.isRunning then afterCall (startSequence env s) else s

/-- The timer at position `i` of the queue fires. -/
def fireTimeout (env : Env) (i : Nat) (s : Sim) : Sim :=
  match s.pendingTimeouts.get? i with
  | some k => k.run env { s with pendingTimeouts := s.pendingTimeouts.eraseIdx i }
  | none => s

/-- The browser runs the animation-frame request `id`, if it is still queued. -/
def fireFrame (env : Env) (id : Nat) (s : Sim) : Sim :=
  if id ∈ s.pendingFrames then
    gameLoop env { s with pendingFrames := s.pendingFrames.filter (fun f => f ≠ id) }
  else s

/-- The globals as the three scripts leave them before `DOMContentLoaded`. -/
def Sim.initial : Sim :=
  { balls := [], platforms := [], particles := [],
    isRunning := false, animationId := none, sequenceStep := 0,
    currentWeight := "light", randomCalls := 0,
    nextFrameId := 1, pendingFrames := [], pendingTimeouts := [] }

/-- The `DOMContentLoaded` handler of `main.js`. -/
def pageLoad (env : Env) (s : Sim) : Sim :=
  let s := createScene env s
  { s with pendingTimeouts := s.pendingTimeouts ++ [Continuation.autoStart] }

/-- Running `n` ticks of `gameLoop` in a row. -/
def ticks (env : Env) : Nat → Sim → Sim
  | 0, s => s
  | n + 1, s => ticks env n (gameLoop env s)

/-! ## Observers and sample data used in the statements -/

/-- Whether some `platform.checkCollision(this)` inside `checkPlatformCollisions` returns
true.  Up to the first platform that answers true the ball is the one the loop started
with, so the test is made on `b` itself. -/
def Ball.collisionFires (b : Ball) : List Platform → Bool
  | [] => false
  | p :: ps => if p.checkCollision b then true else Ball.collisionFires b ps

/-- The upper platform of `createScene` on a canvas 800 wide. -/
def samplePlatform : Platform := Platform.new 0 200 800 14

/-- A ball built by the constructor and then given a velocity. -/
def sampleBall (weight : String) (vx vy : ℚ) : Ball :=
  { Ball.new 400 180 30 "granite" weight with vx := vx, vy := vy }

/-- A canvas of 800 by 600 and a `Math.random` that always answers one half. -/
def sampleEnv : Env :=
  { canvas := { width := 800, height := 600 }, random := fun _ => 0.5 }

/-- The globals of a page whose scene holds the sample platform only. -/
def sampleScene : Sim := { Sim.initial with platforms := [samplePlatform] }

/-- The sample platform after a heavy ball went through it. -/
def brokenPlatform : Platform := { samplePlatform with broken := true }

/-- A running page whose scene holds a heavy ball above the broken sample platform. -/
def brokenScene : Sim :=
  { Sim.initial with
    balls := [sampleBall "heavy" 0 5], platforms := [brokenPlatform], isRunning := true }

/-- A particle as `createImpactEffect` builds them, with the given `life` and `size`. -/
def sampleParticle (life size : ℚ) : Particle :=
  { Particle.new sampleEnv 0 400 565 1 (-1) "#666666" life with size := size }

/-- A running page without balls and with three particles: one alive, one whose life is
used up and one that has become too small. -/
def dustScene : Sim :=
  { Sim.initial with
    isRunning := true,
    particles := [sampleParticle 1 4, sampleParticle 0.01 4, sampleParticle 1 0.5] }

/-- The page after `createScene` and `startSequence` on a canvas of 800 by 600, with the
weight left at light. -/
def runningPage : Sim :=
  afterCall (startSequence sampleEnv (createScene sampleEnv Sim.initial))

/-- What the statements about a whole run read off a ball: `y`, `vy`, `vx`, `radius`,
`weight`, `weightConfig` and `active`. -/
def Ball.summary (b : Ball) : ℚ × ℚ × ℚ × ℚ × String × Option WeightConfig × Bool :=
  (b.y, b.vy, b.vx, b.radius, b.weight, b.weightConfig, b.active)

/-- The two platforms that `createScene` builds, with the given `broken` flags. -/
def scenePlatforms (env : Env) (b1 b2 : Bool) : List Platform :=
  [{ x := 0, y := 200, width := env.canvas.width, height := 14, broken := b1 },
   { x := 0, y := 400, width := env.canvas.width, height := 14, broken := b2 }]

/-- The running scene of `createScene` at some moment of a run: the two platforms with the
given `broken` flags and one active ball of radius 30 and weight `w`, built by the
constructor, at height `y` with vertical velocity `vy` and no horizontal velocity. -/
def Scene (env : Env) (w : String) (y vy : ℚ) (b1 b2 : Bool) (s : Sim) : Prop :=
  s.isRunning = true ∧ s.platforms = scenePlatforms env b1 b2 ∧
  s.balls.map Ball.summary = [(y, vy, 0, 30, w, WEIGHT_SETTINGS w, true)]

/-- Whether every `handleCollision` call made inside `checkPlatformCollisions` finds
`impactForce > 3.0`, the test of the heavy branch. -/
def Ball.collisionsBreak (b : Ball) : List Platform → Bool
  | [] => true
  | p :: ps =>
    if p.checkCollision b then
      decide (|b.vy| * b.mass > 3.0) && Ball.collisionsBreak (p.handleCollision b).2 ps
    else Ball.collisionsBreak b ps

/-- A canvas of 800 by 236: its floor line, at 201, is just below the top edge of the
first platform. -/
def lowEnv : Env :=
  { canvas := { width := 800, height := 236 }, random := fun _ => 0.5 }

/-- The numbers of a heavy ball falling through the scene of `createScene`: its velocity
is between the start value `0.2` and the limit `22.05` of one tick of gravity and friction;
above an unbroken platform it is above the contact height and either already as fast as
`1` or not yet far below the height at which it was last let go. -/
def heavyFalling (y v : ℚ) (b1 b2 : Bool) : Prop :=
  0.2 ≤ v ∧ v ≤ 22.05 ∧
  (b1 = false → b2 = false ∧ y < 170 ∧ (1 ≤ v ∨ y ≤ 70 + 5 * (v - 0.2))) ∧
  (b1 = true → b2 = false → y < 370 ∧ (1 ≤ v ∨ y ≤ 170 + 5 * (v - 0.2)))

/-- The numbers of a heavy ball at rest on the floor; a platform that is still unbroken
then lies below the floor line or across it. -/
def heavyResting (env : Env) (y v : ℚ) (b1 b2 : Bool) : Prop :=
  y = env.canvas.height - 35 - 30 ∧ v = 0 ∧
  (b1 = false → env.canvas.height - 35 - 30 < 192.5) ∧
  (b2 = false → env.canvas.height - 35 - 30 < 392.5)

/-- A moment of the run of the heavy ball in the scene of `createScene`. -/
def HeavyRun (env : Env) (s : Sim) : Prop :=
  ∃ (y v : ℚ) (b1 b2 : Bool), Scene env "heavy" y v b1 b2 s ∧
    (heavyFalling y v b1 b2 ∨ heavyResting env y v b1 b2)

/-- A moment of the run of a light or medium ball (gravity `g` per tick) in the scene of
`createScene`: both platforms unbroken, the ball not below the contact height of the first
platform, and its velocity bounded by the height it has lost since it was let go at
`y = 70` with `vy = 0.2`. -/
def GentleRun (env : Env) (w : String) (g : ℚ) (s : Sim) : Prop :=
  ∃ y v : ℚ, Scene env w y v false false s ∧ y ≤ 170 ∧ v ^ 2 ≤ 2 * g * (y - 70) + 0.04

/-- Whether in each of the next `n` ticks every ball arrives, after integration with the
gravity `g` per tick, with its lowest point at most at `bound`:
`y + (vy + g) + radius ≤ bound`. -/
def staysAbove (env : Env) (g bound : ℚ) : Nat → Sim → Bool
  | 0, _ => true
  | n + 1, s =>
    s.balls.all (fun b => decide (b.y + (b.vy + g) + b.radius ≤ bound)) &&
      staysAbove env g bound n (gameLoop env s)

/-- The scene of a fresh page with current weight `w` as `startSequence` has it right
before its call of `gameLoop`: running, the ball at `y = 70` with `vy = 0.2`. -/
def readyScene (env : Env) (w : String) : Sim :=
  { createScene env { Sim.initial with currentWeight := w } with
    isRunning := true,
    balls := [{ Ball.new (env.canvas.width * 0.5) 70 30 "granite" w with vy := 0.2 }] }

/-! ## Platform collision response (C1 to C4) -/

/-- C1. A heavy ball (its `weightConfig` being the table entry of its weight) hitting an
unbroken platform with vertical velocity `v`: when `|v| * 2.2 > 3.0` the platform breaks,
`vy` becomes `0.6 * v` and `vx` is kept; when `|v| * 2.2 ≤ 3.0` the platform stays
unbroken, `vy` becomes `-0.1 * v` and `vx` is multiplied by `0.7`. -/
theorem heavy_handleCollision (p : Platform) (b : Ball)
    (hw : b.weight = "heavy") (hcfg : b.weightConfig = WEIGHT_SETTINGS b.weight)
    (hp : p.broken = false) :
    (|b.vy| * 2.2 > 3.0 →
      (p.handleCollision b).1.broken = true ∧
      (p.handleCollision b).2.vy = 0.6 * b.vy ∧
      (p.handleCollision b).2.vx = b.vx) ∧
    (|b.vy| * 2.2 ≤ 3.0 →
      (p.handleCollision b).1.broken = false ∧
      (p.handleCollision b).2.vy = -0.1 * b.vy ∧
      (p.handleCollision b).2.vx = 0.7 * b.vx) := by
  have hm : b.weightConfig = WEIGHT_SETTINGS "heavy" := by rw [hcfg, hw]
  constructor
  · intro h
    simp [Platform.handleCollision, hp, hw, Ball.mass, hm, WEIGHT_SETTINGS, h, mul_comm]
  · intro h
    have h' : ¬ (3.0 < |b.vy| * 2.2) := not_lt.mpr h
    simp [Platform.handleCollision, hp, hw, Ball.mass, hm, WEIGHT_SETTINGS, h', mul_comm]

/-- Witness of C1: a heavy ball arriving with `vy = 5` breaks the sample platform. -/
theorem heavy_handleCollision_witness :
    (|(5 : ℚ)| * 2.2 > 3.0) ∧
    (samplePlatform.handleCollision (sampleBall "heavy" 2 5)).1.broken = true ∧
    (samplePlatform.handleCollision (sampleBall "heavy" 2 5)).2.vy = 0.6 * 5 ∧
    (samplePlatform.handleCollision (sampleBall "heavy" 2 5)).2.vx = 2 :=
  ⟨by norm_num,
   (heavy_handleCollision samplePlatform (sampleBall "heavy" 2 5) rfl rfl rfl).1
     (by norm_num [sampleBall])⟩

/-- A ball that is not moving down is left alone by every platform. -/
theorem checkCollision_of_vy_nonpos (p : Platform) (b : Ball) (h : b.vy ≤ 0) :
    p.checkCollision b = false := by
  have h' : ¬ (0 < b.vy) := not_lt.mpr h
  simp [Platform.checkCollision, h']

/-- A broken platform answers false. -/
theorem checkCollision_of_broken (p : Platform) (b : Ball) (h : p.broken = true) :
    p.checkCollision b = false := by
  simp [Platform.checkCollision, h]

/-- With a ball that is not moving down the loop over the platforms changes nothing. -/
theorem checkPlatformCollisions_of_vy_nonpos (b : Ball) (h : b.vy ≤ 0) (ps : List Platform) :
    b.checkPlatformCollisions ps = (b, ps) := by
  induction ps with
  | nil => rfl
  | cons p ps ih =>
    simp [Ball.checkPlatformCollisions, checkCollision_of_vy_nonpos p b h, ih]

/-- When no platform answers true the loop over the platforms changes nothing. -/
theorem checkPlatformCollisions_of_not_fires (b : Ball) (ps : List Platform)
    (h : b.collisionFires ps = false) : b.checkPlatformCollisions ps = (b, ps) := by
  induction ps with
  | nil => rfl
  | cons p ps ih =>
    by_cases hc : p.checkCollision b = true
    · simp [Ball.collisionFires, hc] at h
    · simp only [Bool.not_eq_true] at hc
      simp [Ball.collisionFires, hc] at h
      simp [Ball.checkPlatformCollisions, hc, ih h]

/-- The weight of a ball is not written by `handleCollision`. -/
theorem handleCollision_weight (p : Platform) (b : Ball) :
    (p.handleCollision b).2.weight = b.weight := by
  unfold Platform.handleCollision
  simp only
  split_ifs <;> rfl

/-- The medium branch of `handleCollision`. -/
theorem medium_handleCollision_eq (p : Platform) (b : Ball)
    (hw : b.weight = "medium") (hp : p.broken = false) :
    p.handleCollision b = (p, { b with y := p.y - b.radius, vy := 0, vx := 0 }) := by
  simp [Platform.handleCollision, hp, hw]

/-- The weight of a ball is not written by `update` before the platforms are visited. -/
theorem beforePlatforms_weight (env : Env) (b : Ball) (s : Sim) :
    (b.beforePlatforms env s).1.weight = b.weight := by
  have h1 : ∀ c : Ball, c.floorResponse.weight = c.weight := by
    intro c
    unfold Ball.floorResponse
    simp only
    split_ifs <;> rfl
  have h2 : ∀ c : Ball, (c.wallCollisions env.canvas).weight = c.weight := by
    intro c
    unfold Ball.wallCollisions
    simp only
    split_ifs <;> rfl
  have h3 : ∀ c : Ball, (c.floorCollision env s).1.weight = c.weight := by
    intro c
    unfold Ball.floorCollision
    simp only
    split_ifs <;> simp [h1]
  simp [Ball.beforePlatforms, Ball.updateTrail, h3, h2, Ball.integrate]

/-- For a medium ball, a loop over the platforms in which a collision fires ends at rest. -/
theorem medium_checkPlatformCollisions (b : Ball) (hw : b.weight = "medium")
    (ps : List Platform) (h : b.collisionFires ps = true) :
    (b.checkPlatformCollisions ps).1.vx = 0 ∧ (b.checkPlatformCollisions ps).1.vy = 0 := by
  induction ps with
  | nil => simp [Ball.collisionFires] at h
  | cons p ps ih =>
    by_cases hc : p.checkCollision b = true
    · have hp : p.broken = false := by
        cases hb : p.broken with
        | false => rfl
        | true => simp [checkCollision_of_broken p b hb] at hc
      have hrest := checkPlatformCollisions_of_vy_nonpos
        { b with y := p.y - b.radius, vy := 0, vx := 0 } (le_refl _) ps
      simp [Ball.checkPlatformCollisions, hc, medium_handleCollision_eq p b hw hp, hrest]
    · simp only [Bool.not_eq_true] at hc
      simp [Ball.collisionFires, hc] at h
      simpa [Ball.checkPlatformCollisions, hc] using ih h

/-- C2. A medium ball handled by an unbroken platform has `vx = 0`, `vy = 0` and sits at
`platform.y - radius`, and the platform stays unbroken; and an `update` of a medium ball in
which a platform collision fires ends with `vx = 0` and `vy = 0`. -/
theorem medium_handleCollision (p : Platform) (b : Ball)
    (hw : b.weight = "medium") (hp : p.broken = false) :
    ((p.handleCollision b).2.vx = 0 ∧
     (p.handleCollision b).2.vy = 0 ∧
     (p.handleCollision b).2.y = p.y - b.radius ∧
     (p.handleCollision b).1.broken = false) ∧
    (∀ (env : Env) (s : Sim), b.active = true →
      (b.beforePlatforms env s).1.collisionFires (b.beforePlatforms env s).2.platforms = true →
      (b.update env s).1.vx = 0 ∧ (b.update env s).1.vy = 0) := by
  constructor
  · simp [medium_handleCollision_eq p b hw hp, hp]
  · intro env s ha hf
    have hw' : (b.beforePlatforms env s).1.weight = "medium" := by
      rw [beforePlatforms_weight, hw]
    have := medium_checkPlatformCollisions _ hw' _ hf
    simpa [Ball.update, ha] using this

/-- The fields written by the integration block. -/
theorem integrate_eq (b : Ball) :
    b.integrate = { b with
      x := b.x + b.vx, y := b.y + (b.vy + b.effectiveGravity),
      vx := b.vx * PHYSICS_CONSTANTS.friction,
      vy := (b.vy + b.effectiveGravity) * PHYSICS_CONSTANTS.friction } := rfl

/-- Away from both walls the wall block changes nothing. -/
theorem wallCollisions_of_inside (c : Canvas) (b : Ball)
    (h1 : ¬ b.x - b.radius < 0) (h2 : ¬ b.x + b.radius > c.width) :
    b.wallCollisions c = b := by
  simp [Ball.wallCollisions, h1, h2]

/-- Above the floor line the floor block changes nothing. -/
theorem floorCollision_of_above (env : Env) (b : Ball) (s : Sim)
    (h : ¬ b.y + b.radius > env.canvas.height - 35) : b.floorCollision env s = (b, s) := by
  simp [Ball.floorCollision, h]

/-- An update step away from the walls and above the floor, up to the platform loop. -/
theorem beforePlatforms_of_free (env : Env) (b : Ball) (s : Sim)
    (h1 : ¬ b.integrate.x - b.integrate.radius < 0)
    (h2 : ¬ b.integrate.x + b.integrate.radius > env.canvas.width)
    (h3 : ¬ b.integrate.y + b.integrate.radius > env.canvas.height - 35) :
    b.beforePlatforms env s = (b.integrate.updateTrail, s) := by
  unfold Ball.beforePlatforms
  simp only [wallCollisions_of_inside env.canvas b.integrate h1 h2,
    floorCollision_of_above env b.integrate s h3]

/-- The effective gravity of a medium ball built by the constructor. -/
theorem sampleBall_medium_gravity (vx vy : ℚ) :
    (sampleBall "medium" vx vy).effectiveGravity = 0.25 * 1.2 := by
  simp [sampleBall, Ball.new, Ball.effectiveGravity, WEIGHT_SETTINGS, PHYSICS_CONSTANTS]

/-- The sample medium ball one step later, before the platform loop. -/
theorem sampleBall_medium_step :
    (sampleBall "medium" 2 5).beforePlatforms sampleEnv sampleScene
      = ((sampleBall "medium" 2 5).integrate.updateTrail, sampleScene) := by
  apply beforePlatforms_of_free
  · rw [integrate_eq]; simp only [sampleBall, Ball.new]; norm_num
  · rw [integrate_eq]; simp only [sampleBall, Ball.new, sampleEnv]; norm_num
  · rw [integrate_eq, sampleBall_medium_gravity]
    simp only [sampleBall, Ball.new, sampleEnv]; norm_num

/-- Witness of C2: a medium ball falling at `vy = 5` from `y = 180` onto the sample
platform; the collision fires in that `update` and the ball ends at rest. -/
theorem medium_handleCollision_witness :
    ((sampleBall "medium" 2 5).beforePlatforms sampleEnv sampleScene).1.collisionFires
      ((sampleBall "medium" 2 5).beforePlatforms sampleEnv sampleScene).2.platforms = true ∧
    ((sampleBall "medium" 2 5).update sampleEnv sampleScene).1.vx = 0 ∧
    ((sampleBall "medium" 2 5).update sampleEnv sampleScene).1.vy = 0 := by
  have hf : ((sampleBall "medium" 2 5).beforePlatforms sampleEnv sampleScene).1.collisionFires
      ((sampleBall "medium" 2 5).beforePlatforms sampleEnv sampleScene).2.platforms = true := by
    rw [sampleBall_medium_step]
    simp only [sampleScene, Sim.initial, Ball.collisionFires, Platform.checkCollision,
      Ball.updateTrail, integrate_eq, sampleBall_medium_gravity]
    simp only [sampleBall, Ball.new, samplePlatform, Platform.new, PHYSICS_CONSTANTS]
    norm_num
  exact ⟨hf, (medium_handleCollision samplePlatform (sampleBall "medium" 2 5) rfl rfl).2
    sampleEnv sampleScene rfl hf⟩

/-- C3. A light ball with vertical velocity `v` handled by an unbroken platform is put at
`platform.y - radius`; when `|-0.7 * v| < 1.0` its `vy` becomes `0` and `vx` is multiplied
by `0.8`, otherwise `vy` becomes `-0.7 * v` and `vx` is multiplied by `0.9`; the platform
stays unbroken. -/
theorem light_handleCollision (p : Platform) (b : Ball)
    (hw : b.weight = "light") (hp : p.broken = false) :
    (p.handleCollision b).2.y = p.y - b.radius ∧
    (p.handleCollision b).1.broken = false ∧
    (|-0.7 * b.vy| < 1.0 →
      (p.handleCollision b).2.vy = 0 ∧ (p.handleCollision b).2.vx = 0.8 * b.vx) ∧
    (¬ |-0.7 * b.vy| < 1.0 →
      (p.handleCollision b).2.vy = -0.7 * b.vy ∧ (p.handleCollision b).2.vx = 0.9 * b.vx) := by
  have e : b.vy * -0.7 = -0.7 * b.vy := mul_comm _ _
  have e8 : b.vx * 0.8 = 0.8 * b.vx := mul_comm _ _
  have e9 : b.vx * 0.9 = 0.9 * b.vx := mul_comm _ _
  by_cases h : |-0.7 * b.vy| < 1.0
  · simp only [Platform.handleCollision, hp, hw, e, h, e8, Bool.false_eq_true, if_false, if_true]
    simp
  · simp only [Platform.handleCollision, hp, hw, e, h, e9, Bool.false_eq_true, if_false, if_true]
    simp

/-- Witness of C3: a light ball arriving with `vy = 5` bounces back with `vy = -3.5`. -/
theorem light_handleCollision_witness :
    (samplePlatform.handleCollision (sampleBall "light" 2 5)).2.y = 200 - 30 ∧
    (samplePlatform.handleCollision (sampleBall "light" 2 5)).1.broken = false ∧
    (samplePlatform.handleCollision (sampleBall "light" 2 5)).2.vy = -0.7 * 5 ∧
    (samplePlatform.handleCollision (sampleBall "light" 2 5)).2.vx = 0.9 * 2 :=
  have h := light_handleCollision samplePlatform (sampleBall "light" 2 5) rfl rfl
  ⟨h.1, h.2.1, h.2.2.2 (by norm_num [sampleBall, abs_lt])⟩

/-- Two closed intervals with ordered endpoints meet exactly when each starts before the
other ends. -/
theorem Icc_inter_nonempty_iff (a b c d : ℚ) (hab : a ≤ b) (hcd : c ≤ d) :
    (Set.Icc a b ∩ Set.Icc c d).Nonempty ↔ c ≤ b ∧ a ≤ d := by
  rw [Set.Icc_inter_Icc, Set.nonempty_Icc, sup_le_iff, le_inf_iff, le_inf_iff]
  constructor
  · rintro ⟨⟨_, h1⟩, h2, _⟩
    exact ⟨h2, h1⟩
  · rintro ⟨h1, h2⟩
    exact ⟨⟨hab, h2⟩, h1, hcd⟩

/-- C4. For a ball of radius at least `0` and a platform of width and height at least `0`,
`checkCollision` answers true exactly when the platform is not broken, the ball moves down
(`vy > 0`), the interval `[y - radius, y + radius]` meets `[platform.y, platform.y + height]`
and the interval `[x - radius, x + radius]` meets `[platform.x, platform.x + width]`;
a common endpoint counts as meeting. -/
theorem checkCollision_iff (p : Platform) (b : Ball)
    (hr : 0 ≤ b.radius) (hwd : 0 ≤ p.width) (hh : 0 ≤ p.height) :
    p.checkCollision b = true ↔
      (p.broken = false ∧ b.vy > 0 ∧
       (Set.Icc (b.y - b.radius) (b.y + b.radius) ∩ Set.Icc p.y (p.y + p.height)).Nonempty ∧
       (Set.Icc (b.x - b.radius) (b.x + b.radius) ∩ Set.Icc p.x (p.x + p.width)).Nonempty) := by
  rw [Icc_inter_nonempty_iff _ _ _ _ (by linarith) (by linarith),
    Icc_inter_nonempty_iff _ _ _ _ (by linarith) (by linarith)]
  simp only [Platform.checkCollision, Bool.and_eq_true, Bool.not_eq_true', decide_eq_true_eq,
    ge_iff_le, gt_iff_lt]
  tauto

/-- Witness of C4: a ball whose lowest point is exactly on the top edge of the sample
platform (`170 + 30 = 200`) collides. -/
theorem checkCollision_iff_witness :
    (0 : ℚ) ≤ 30 ∧ (0 : ℚ) ≤ 800 ∧ (0 : ℚ) ≤ 14 ∧
    samplePlatform.checkCollision { sampleBall "light" 0 1 with y := 170 } = true :=
  ⟨by norm_num, by norm_num, by norm_num,
   (checkCollision_iff samplePlatform { sampleBall "light" 0 1 with y := 170 }
      (by norm_num [sampleBall, Ball.new])
      (by norm_num [samplePlatform, Platform.new])
      (by norm_num [samplePlatform, Platform.new])).mpr
     ⟨rfl, by norm_num [sampleBall],
      ⟨200, by norm_num [sampleBall, Ball.new, samplePlatform, Platform.new]⟩,
      ⟨400, by norm_num [sampleBall, Ball.new, samplePlatform, Platform.new]⟩⟩⟩

/-! ## Broken platforms and the break condition (C5, C6) -/

/-- The platforms are not written by `update` before they are visited. -/
theorem beforePlatforms_platforms (env : Env) (b : Ball) (s : Sim) :
    (b.beforePlatforms env s).2.platforms = s.platforms := by
  unfold Ball.beforePlatforms Ball.floorCollision
  simp only
  split_ifs <;> simp [Ball.createImpactEffect]

/-- The loop over the platforms leaves a broken platform as it is, at its position. -/
theorem checkPlatformCollisions_keeps_broken (p : Platform) (hp : p.broken = true) :
    ∀ (ps : List Platform) (b : Ball) (i : Nat), ps[i]? = some p →
      (b.checkPlatformCollisions ps).2[i]? = some p := by
  intro ps
  induction ps with
  | nil => intro b i h; simp at h
  | cons q qs ih =>
    intro b i h
    cases i with
    | zero =>
      have hq : q = p := by simpa using h
      subst hq
      simp [Ball.checkPlatformCollisions, checkCollision_of_broken q b hp]
    | succ k =>
      have hk : qs[k]? = some p := by simpa using h
      by_cases hc : q.checkCollision b = true
      · simpa [Ball.checkPlatformCollisions, hc] using ih _ k hk
      · simp only [Bool.not_eq_true] at hc
        simpa [Ball.checkPlatformCollisions, hc] using ih _ k hk

/-- One `Ball.update` leaves a broken platform as it is. -/
theorem update_keeps_broken (p : Platform) (hp : p.broken = true) (env : Env) (b : Ball)
    (s : Sim) (i : Nat) (h : s.platforms[i]? = some p) :
    (b.update env s).2.platforms[i]? = some p := by
  unfold Ball.update
  split_ifs
  · exact h
  · simp only
    apply checkPlatformCollisions_keeps_broken p hp
    rw [beforePlatforms_platforms]
    exact h

/-- Updating all balls leaves a broken platform as it is. -/
theorem updateBalls_keeps_broken (p : Platform) (hp : p.broken = true) (env : Env) (i : Nat) :
    ∀ (bs : List Ball) (s : Sim), s.platforms[i]? = some p →
      (updateBalls env bs s).2.platforms[i]? = some p := by
  intro bs
  induction bs with
  | nil => intro s h; exact h
  | cons b bs ih =>
    intro s h
    simp only [updateBalls]
    exact ih _ (update_keeps_broken p hp env b s i h)

/-- One `gameLoop` leaves a broken platform as it is. -/
theorem gameLoop_keeps_broken (p : Platform) (hp : p.broken = true) (env : Env) (s : Sim)
    (i : Nat) (h : s.platforms[i]? = some p) : (gameLoop env s).platforms[i]? = some p := by
  unfold gameLoop
  split_ifs
  · exact h
  · simp only [requestAnimationFrame]
    exact updateBalls_keeps_broken p hp env i s.balls s h

/-- Any number of `gameLoop` ticks leaves a broken platform as it is. -/
theorem ticks_keeps_broken (p : Platform) (hp : p.broken = true) (env : Env) (i : Nat) :
    ∀ (n : Nat) (s : Sim), s.platforms[i]? = some p → (ticks env n s).platforms[i]? = some p := by
  intro n
  induction n with
  | zero => intro s h; exact h
  | succ n ih =>
    intro s h
    simp only [ticks]
    exact ih _ (gameLoop_keeps_broken p hp env s i h)

/-- C5. A broken platform takes no part in collisions: `checkCollision` is false for every
ball, `handleCollision` returns the platform and the ball as they were, and neither a
`Ball.update` nor a `gameLoop` tick, nor any number of ticks, changes the platform, so its
`broken` flag is never put back to false by the simulation. -/
theorem broken_platform_inert (p : Platform) (hp : p.broken = true) :
    (∀ b : Ball, p.checkCollision b = false) ∧
    (∀ b : Ball, p.handleCollision b = (p, b)) ∧
    (∀ (env : Env) (s : Sim) (i : Nat), s.platforms[i]? = some p →
      (∀ b : Ball, (b.update env s).2.platforms[i]? = some p) ∧
      (gameLoop env s).platforms[i]? = some p ∧
      (∀ n : Nat, (ticks env n s).platforms[i]? = some p)) := by
  refine ⟨fun b => checkCollision_of_broken p b hp, fun b => ?_, fun env s i h => ?_⟩
  · simp [Platform.handleCollision, hp]
  · exact ⟨fun b => update_keeps_broken p hp env b s i h, gameLoop_keeps_broken p hp env s i h,
      fun n => ticks_keeps_broken p hp env i n s h⟩

/-- Witness of C5: the broken sample platform under a falling heavy ball. -/
theorem broken_platform_inert_witness :
    brokenPlatform.broken = true ∧
    brokenPlatform.checkCollision (sampleBall "heavy" 0 5) = false ∧
    brokenPlatform.handleCollision (sampleBall "heavy" 0 5)
      = (brokenPlatform, sampleBall "heavy" 0 5) ∧
    (gameLoop sampleEnv brokenScene).platforms[0]? = some brokenPlatform :=
  have h := broken_platform_inert brokenPlatform rfl
  ⟨rfl, h.1 _, h.2.1 _, (h.2.2 sampleEnv brokenScene 0 rfl).2.1⟩

/-- C6. For an unbroken platform and a ball whose `weightConfig` is the table entry of its
weight, `handleCollision` sets `broken` exactly when the weight is heavy and
`|vy| * mass > 3.0`; a ball whose entry has `platformBreak = false` never breaks it. -/
theorem handleCollision_breaks_iff (p : Platform) (b : Ball)
    (hp : p.broken = false) (hcfg : b.weightConfig = WEIGHT_SETTINGS b.weight) :
    ((p.handleCollision b).1.broken = true ↔ (b.weight = "heavy" ∧ |b.vy| * b.mass > 3.0)) ∧
    (∀ wc : WeightConfig, b.weightConfig = some wc → wc.platformBreak = false →
      (p.handleCollision b).1.broken = false) := by
  have key : (p.handleCollision b).1.broken = true ↔
      (b.weight = "heavy" ∧ |b.vy| * b.mass > 3.0) := by
    unfold Platform.handleCollision
    simp only [hp, Bool.false_eq_true, if_false, Ball.mass]
    split_ifs with h1 h2 h3 h4 <;> simp_all
  refine ⟨key, fun wc hwc hbr => ?_⟩
  have hnot : b.weight ≠ "heavy" := by
    intro hw
    rw [hcfg, hw] at hwc
    simp [WEIGHT_SETTINGS] at hwc
    rw [← hwc] at hbr
    simp at hbr
  cases hb : (p.handleCollision b).1.broken with
  | false => rfl
  | true => exact absurd (key.mp hb).1 hnot

/-- Witness of C6: a light ball arriving fast leaves the sample platform unbroken. -/
theorem handleCollision_breaks_iff_witness :
    samplePlatform.broken = false ∧
    (sampleBall "light" 0 50).weightConfig = WEIGHT_SETTINGS (sampleBall "light" 0 50).weight ∧
    (samplePlatform.handleCollision (sampleBall "light" 0 50)).1.broken = false :=
  ⟨rfl, rfl,
   (handleCollision_breaks_iff samplePlatform (sampleBall "light" 0 50) rfl rfl).2
     _ rfl rfl⟩

/-! ## The weight table and unknown weights (C7, C8) -/

/-- C7. `WEIGHT_SETTINGS` holds the calibration table: light is mass 0.4, gravity
multiplier 0.6, bounce multiplier 1.2, no platform break; medium is 1.5, 1.2, 0.0, no
break; heavy is 2.2, 1.8, 0.05, break; and the lookup finds an entry for each of the
three categories. -/
theorem WEIGHT_SETTINGS_table :
    (WEIGHT_SETTINGS "light").map
        (fun c => (c.mass, c.gravityMultiplier, c.bounceMultiplier, c.platformBreak))
      = some (0.4, 0.6, 1.2, false) ∧
    (WEIGHT_SETTINGS "medium").map
        (fun c => (c.mass, c.gravityMultiplier, c.bounceMultiplier, c.platformBreak))
      = some (1.5, 1.2, 0.0, false) ∧
    (WEIGHT_SETTINGS "heavy").map
        (fun c => (c.mass, c.gravityMultiplier, c.bounceMultiplier, c.platformBreak))
      = some (2.2, 1.8, 0.05, true) ∧
    (∀ w ∈ ["light", "medium", "heavy"], (WEIGHT_SETTINGS w).isSome = true) := by
  refine ⟨by simp [WEIGHT_SETTINGS], by simp [WEIGHT_SETTINGS], by simp [WEIGHT_SETTINGS], ?_⟩
  intro w hw
  simp only [List.mem_cons, List.mem_singleton, List.not_mem_nil, or_false] at hw
  rcases hw with rfl | rfl | rfl <;> simp [WEIGHT_SETTINGS]

/-- C8 fails as stated: `setWeight("titanium")` on a fresh page builds a scene with a ball
of that weight, no error is signalled, the ball has no table entry, and its `update` runs
with gravity multiplier 1.0 (`vy` goes from 0 to `(0 + 0.25 * 1.0) * 0.98`) and mass 1.0. -/
theorem unknown_weight_counterexample :
    (setWeight sampleEnv "titanium" Sim.initial).balls
      = [Ball.new 400 70 30 "granite" "titanium"] ∧
    (Ball.new 400 70 30 "granite" "titanium").weightConfig = none ∧
    (Ball.new 400 70 30 "granite" "titanium").active = true ∧
    (Ball.new 400 70 30 "granite" "titanium").mass = 1.0 ∧
    ((Ball.new 400 70 30 "granite" "titanium").update sampleEnv sampleScene).1.vy
      = (0 + 0.25 * 1.0) * 0.98 ∧
    ((Ball.new 400 70 30 "granite" "titanium").update sampleEnv sampleScene).1.y
      = 70 + (0 + 0.25 * 1.0) := by
  decide!

/-- C8, amended. A ball constructed with a weight other than light, medium and heavy is an
active ball, and `createScene` with such a current weight builds the scene with that ball.
Unless the weight is a name that the table inherits from `Object.prototype`, the ball has
no table entry, its effective gravity is `0.25 * 1.0` and the mass used for impacts is
`1.0`.  Under an inherited name the ball holds a value that is not `undefined`, so the
fallback `1.0` is not taken. -/
theorem unknown_weight_falls_back (x y radius : ℚ) (material weight : String)
    (hl : weight ≠ "light") (hm : weight ≠ "medium") (hh : weight ≠ "heavy") :
    (Ball.new x y radius material weight).active = true ∧
    (∀ (env : Env) (s : Sim), s.currentWeight = weight →
      (createScene env s).balls = [Ball.new (env.canvas.width * 0.5) 70 30 "granite" weight]) ∧
    (weight ∉ inheritedKeys →
      (Ball.new x y radius material weight).weightConfig = none ∧
      (Ball.new x y radius material weight).effectiveGravity = 0.25 * 1.0 ∧
      (Ball.new x y radius material weight).mass = 1.0 ∧
      (∀ (env : Env) (s : Sim), s.currentWeight = weight →
        ((createScene env s).balls.map Ball.weightConfig) = [none])) ∧
    (weight ∈ inheritedKeys →
      (Ball.new x y radius material weight).weightConfig ≠ none) := by
  refine ⟨rfl, fun env s hs => by simp [createScene, hs], fun hi => ?_, fun hi => ?_⟩
  · have hn : WEIGHT_SETTINGS weight = none := by simp [WEIGHT_SETTINGS, hl, hm, hh, hi]
    refine ⟨by simp [Ball.new, hn],
      by simp [Ball.new, hn, Ball.effectiveGravity, PHYSICS_CONSTANTS],
      by simp [Ball.new, hn, Ball.mass], ?_⟩
    intro env s hs
    simp [createScene, hs, Ball.new, hn]
  · have hn : WEIGHT_SETTINGS weight = some inheritedValue := by
      simp [WEIGHT_SETTINGS, hl, hm, hh, hi]
    simp [Ball.new, hn]

/-- Witness of C8 amended, at the weight `"titanium"`. -/
theorem unknown_weight_falls_back_witness :
    (Ball.new 400 70 30 "granite" "titanium").weightConfig = none ∧
    (Ball.new 400 70 30 "granite" "titanium").effectiveGravity = 0.25 * 1.0 :=
  have h := unknown_weight_falls_back 400 70 30 "granite" "titanium"
    (by decide) (by decide) (by decide)
  ⟨(h.2.2.1 (by decide)).1, (h.2.2.1 (by decide)).2.1⟩

/-! ## Scene construction and reset (C9, C10) -/

/-- C9. After `resetSequence`, from any state, `isRunning` is false and the scene holds
exactly one ball, exactly two platforms, both unbroken, and no particle. -/
theorem resetSequence_scene (env : Env) (s : Sim) :
    (resetSequence env s).isRunning = false ∧
    (resetSequence env s).balls.length = 1 ∧
    (resetSequence env s).platforms.length = 2 ∧
    (∀ p ∈ (resetSequence env s).platforms, p.broken = false) ∧
    (resetSequence env s).particles.length = 0 := by
  unfold resetSequence
  simp only
  split
  · split_ifs <;> simp [createScene, Platform.new]
  · simp [createScene, Platform.new]

/-- C10 fails as stated: `createScene` called while the loop is running leaves `isRunning`
true. -/
theorem createScene_counterexample :
    (createScene sampleEnv { Sim.initial with isRunning := true }).isRunning = true := rfl

/-- C10, amended. `createScene` leaves `isRunning` as it was; afterwards the scene holds one
ball at `(canvas.width * 0.5, 70)` with radius 30, zero velocity and the current weight,
the two unbroken platforms at `y = 200` and `y = 400`, no particle, and the step counter
is 0. -/
theorem createScene_scene (env : Env) (s : Sim) :
    (createScene env s).isRunning = s.isRunning ∧
    (createScene env s).balls =
      [{ x := env.canvas.width * 0.5, y := 70, vx := 0, vy := 0, radius := 30,
         material := "granite", weight := s.currentWeight,
         weightConfig := WEIGHT_SETTINGS s.currentWeight, active := true, trail := [] }] ∧
    (createScene env s).platforms =
      [{ x := 0, y := 200, width := env.canvas.width, height := 14, broken := false },
       { x := 0, y := 400, width := env.canvas.width, height := 14, broken := false }] ∧
    (createScene env s).particles = [] ∧
    (createScene env s).sequenceStep = 0 :=
  ⟨rfl, rfl, rfl, rfl, rfl⟩

/-! ## Fields that the blocks of `Ball.update` leave alone -/

/-- The horizontal position of a ball is not written by `handleCollision`. -/
theorem handleCollision_x (p : Platform) (b : Ball) : (p.handleCollision b).2.x = b.x := by
  unfold Platform.handleCollision
  simp only
  split_ifs <;> rfl

/-- The horizontal position of a ball is not written by the loop over the platforms. -/
theorem checkPlatformCollisions_x (ps : List Platform) :
    ∀ b : Ball, (b.checkPlatformCollisions ps).1.x = b.x := by
  induction ps with
  | nil => intro b; rfl
  | cons p ps ih =>
    intro b
    by_cases hc : p.checkCollision b = true
    · simp [Ball.checkPlatformCollisions, hc, ih, handleCollision_x]
    · simp only [Bool.not_eq_true] at hc
      simp [Ball.checkPlatformCollisions, hc, ih]

/-- The horizontal position of a ball is not written by the floor block. -/
theorem floorCollision_x (env : Env) (b : Ball) (s : Sim) : (b.floorCollision env s).1.x = b.x := by
  have h1 : ∀ c : Ball, c.floorResponse.x = c.x := by
    intro c
    unfold Ball.floorResponse
    simp only
    split_ifs <;> rfl
  unfold Ball.floorCollision
  simp only
  split_ifs <;> simp [h1]

/-- The wall block writes `x` and `vx` only. -/
theorem wallCollisions_eq (c : Canvas) (b : Ball) :
    b.wallCollisions c =
      { b with x := (b.wallCollisions c).x, vx := (b.wallCollisions c).vx } := by
  unfold Ball.wallCollisions
  simp only
  split_ifs <;> rfl

/-- The position left by the wall block. -/
theorem wallCollisions_x (c : Canvas) (b : Ball) :
    (b.wallCollisions c).x =
      if (if b.x - b.radius < 0 then b.radius else b.x) + b.radius > c.width then
        c.width - b.radius
      else (if b.x - b.radius < 0 then b.radius else b.x) := by
  unfold Ball.wallCollisions
  by_cases h1 : b.x - b.radius < 0 <;> simp only [h1, if_true, if_false] <;> split_ifs <;> rfl

/-- The position left by the wall block depends on the position and the radius only. -/
theorem wallCollisions_x_congr (c : Canvas) (a b : Ball) (hx : a.x = b.x)
    (hr : a.radius = b.radius) : (a.wallCollisions c).x = (b.wallCollisions c).x := by
  rw [wallCollisions_x, wallCollisions_x, hx, hr]

/-- A position left by the wall block is left as it is by the wall block. -/
theorem wallCollisions_x_idem (c : Canvas) (a b : Ball) (hx : b.x = (a.wallCollisions c).x)
    (hr : b.radius = a.radius) : (b.wallCollisions c).x = b.x := by
  rw [wallCollisions_x] at hx ⊢
  rw [hr]
  split_ifs at hx ⊢ <;> first | rfl | linarith

/-- A ball that does not move sideways leaves the wall block with `vx = 0`. -/
theorem wallCollisions_vx_zero (c : Canvas) (b : Ball) (h : b.vx = 0) :
    (b.wallCollisions c).vx = 0 := by
  unfold Ball.wallCollisions
  simp only
  split_ifs <;> simp [h]

/-- The `update` of an active ball, block by block. -/
theorem update_of_active (env : Env) (b : Ball) (s : Sim) (ha : b.active = true) :
    b.update env s =
      (((b.beforePlatforms env s).1.checkPlatformCollisions
          (b.beforePlatforms env s).2.platforms).1,
       { (b.beforePlatforms env s).2 with
         platforms := ((b.beforePlatforms env s).1.checkPlatformCollisions
           (b.beforePlatforms env s).2.platforms).2 }) := by
  simp only [Ball.update, ha, Bool.not_true, Bool.false_eq_true, if_false]

/-! ## Globals that a tick leaves alone -/

/-- The floor block writes `particles` and the count of random draws only. -/
theorem floorCollision_frame (env : Env) (w : Ball) (s : Sim) :
    (w.floorCollision env s).2 =
      { s with
        particles := (w.floorCollision env s).2.particles,
        randomCalls := (w.floorCollision env s).2.randomCalls } := by
  unfold Ball.floorCollision
  simp only
  split_ifs <;> rfl

/-- An `update` writes `platforms`, `particles` and the count of random draws only. -/
theorem update_frame (env : Env) (b : Ball) (s : Sim) :
    (b.update env s).2 =
      { s with
        platforms := (b.update env s).2.platforms,
        particles := (b.update env s).2.particles,
        randomCalls := (b.update env s).2.randomCalls } := by
  by_cases ha : b.active = true
  · rw [update_of_active env b s ha]
    simp only [Ball.beforePlatforms]
    rw [floorCollision_frame]
  · simp only [Bool.not_eq_true] at ha
    simp [Ball.update, ha]

/-- Updating all balls writes `platforms`, `particles` and the count of random draws only. -/
theorem updateBalls_frame (env : Env) :
    ∀ (bs : List Ball) (s : Sim),
      (updateBalls env bs s).2 =
        { s with
          platforms := (updateBalls env bs s).2.platforms,
          particles := (updateBalls env bs s).2.particles,
          randomCalls := (updateBalls env bs s).2.randomCalls } := by
  intro bs
  induction bs with
  | nil => intro s; rfl
  | cons b bs ih =>
    intro s
    simp only [updateBalls]
    rw [ih, update_frame]

/-- A tick leaves `isRunning`, the current weight and the pending timers as they were. -/
theorem gameLoop_frame (env : Env) (s : Sim) :
    (gameLoop env s).isRunning = s.isRunning ∧
    (gameLoop env s).currentWeight = s.currentWeight ∧
    (gameLoop env s).pendingTimeouts = s.pendingTimeouts := by
  unfold gameLoop
  split_ifs
  · exact ⟨rfl, rfl, rfl⟩
  · simp only [requestAnimationFrame]
    rw [updateBalls_frame]
    exact ⟨rfl, rfl, rfl⟩

/-! ## The branches of `handleCollision` as equations -/

/-- The heavy branch of `handleCollision` when the platform breaks. -/
theorem heavy_handleCollision_break (p : Platform) (c : Ball) (hw : c.weight = "heavy")
    (hcfg : c.weightConfig = WEIGHT_SETTINGS "heavy") (hp : p.broken = false)
    (hi : |c.vy| * 2.2 > 3.0) :
    p.handleCollision c =
      ({ p with broken := true }, { c with y := p.y - c.radius, vy := c.vy * 0.6 }) := by
  have hl : ¬ ("heavy" = "light") := by decide
  have hm : ¬ ("heavy" = "medium") := by decide
  have hmass : ∀ d : Ball, d.weightConfig = c.weightConfig → d.mass = 2.2 := by
    intro d hd
    simp only [Ball.mass, hd, hcfg, WEIGHT_SETTINGS]
    simp
  simp only [Platform.handleCollision, hp, hw, hl, hm, Bool.false_eq_true, if_false, if_true]
  rw [hmass _ (by rfl), if_pos hi]

/-- The light branch of `handleCollision`. -/
theorem light_handleCollision_eq (p : Platform) (c : Ball) (hw : c.weight = "light")
    (hp : p.broken = false) :
    p.handleCollision c =
      (p, if |c.vy * -0.7| < 1.0 then
            { c with y := p.y - c.radius, vy := 0, vx := c.vx * 0.8 }
          else { c with y := p.y - c.radius, vy := c.vy * -0.7, vx := c.vx * 0.9 }) := by
  simp only [Platform.handleCollision, hp, hw, Bool.false_eq_true, if_false, if_true]
  split_ifs <;> rfl

/-! ## Starting the sequence (C11) -/

/-- C11 fails as stated: `startSequence` ends with a call of `gameLoop`, so when it
returns on the fresh light scene the first tick has already moved the ball: `vy` is
`(0.2 + 0.25 * 0.6) * 0.98 = 0.343`, not `0.2`, and `y` is `70.35`. -/
theorem startSequence_counterexample :
    (createScene sampleEnv Sim.initial).isRunning = false ∧
    runningPage.isRunning = true ∧
    runningPage.balls.map (fun b => (b.y, b.vx, b.vy)) = [(70.35, 0, 0.343)] := by
  decide!

/-- C11, amended. `startSequence` changes nothing while `isRunning` is true.  Otherwise,
with a ball in the scene, it sets `isRunning`, sets `broken` to false on every platform,
gives the first ball `vy = 0.2` and `vx = 0`, and then runs the first `gameLoop` tick on
that state before it returns; `isRunning` is true on return. -/
theorem startSequence_eq (env : Env) (s : Sim) :
    (s.isRunning = true → startSequence env s = .ok s) ∧
    (s.isRunning = false → ∀ (b : Ball) (bs : List Ball), s.balls = b :: bs →
      startSequence env s =
        .ok (gameLoop env
          { s with
            isRunning := true,
            platforms := s.platforms.map (fun (p : Platform) => { p with broken := false }),
            balls := { b with vy := 0.2, vx := 0 } :: bs }) ∧
      (afterCall (startSequence env s)).isRunning = true) := by
  constructor
  · intro h
    simp [startSequence, h]
  · intro h b bs hb
    have e : startSequence env s =
        .ok (gameLoop env
          { s with
            isRunning := true,
            platforms := s.platforms.map (fun (p : Platform) => { p with broken := false }),
            balls := { b with vy := 0.2, vx := 0 } :: bs }) := by
      simp only [startSequence, h, Bool.false_eq_true, if_false, hb]
    refine ⟨e, ?_⟩
    rw [e]
    simp only [afterCall]
    rw [(gameLoop_frame env _).1]

/-- Witness of C11 amended, on the fresh light scene on a canvas of 800 by 600. -/
theorem startSequence_eq_witness :
    (createScene sampleEnv Sim.initial).isRunning = false ∧
    (afterCall (startSequence sampleEnv (createScene sampleEnv Sim.initial))).isRunning = true :=
  ⟨rfl, ((startSequence_eq sampleEnv (createScene sampleEnv Sim.initial)).2 rfl _ _ rfl).2⟩

/-! ## Free integration (C12) -/

/-- C12. An `update` of an active ball in which neither wall test, nor the floor test, nor
any platform test is true: with `gm` the gravity multiplier of the ball (that of its table
entry, `1.0` without one) and `vy1 = vy + 0.25 * gm`, the ball ends at `x + vx`,
`y + vy1` with velocity `0.98 * vx`, `0.98 * vy1`, its other fields apart from the trail are
kept, and the globals are not written.  An inactive ball is returned as it was. -/
theorem update_of_free (env : Env) (b : Ball) (s : Sim) (gm : ℚ)
    (hgm : gm = match b.weightConfig with
      | some wc => wc.gravityMultiplier
      | none => 1.0) :
    (b.active = true →
     ¬ b.integrate.x - b.integrate.radius < 0 →
     ¬ b.integrate.x + b.integrate.radius > env.canvas.width →
     ¬ b.integrate.y + b.integrate.radius > env.canvas.height - 35 →
     (b.beforePlatforms env s).1.collisionFires (b.beforePlatforms env s).2.platforms = false →
       b.update env s =
         ({ b with
            x := b.x + b.vx, y := b.y + (b.vy + 0.25 * gm),
            vx := 0.98 * b.vx, vy := 0.98 * (b.vy + 0.25 * gm),
            trail := (b.update env s).1.trail }, s)) ∧
    (b.active = false → b.update env s = (b, s)) := by
  constructor
  · intro ha h1 h2 h3 hf
    have hg : b.effectiveGravity = 0.25 * gm := by
      subst hgm
      unfold Ball.effectiveGravity
      cases b.weightConfig <;> simp [PHYSICS_CONSTANTS]
    have hb := beforePlatforms_of_free env b s h1 h2 h3
    have hc := checkPlatformCollisions_of_not_fires _ _ hf
    have hu : b.update env s = (b.integrate.updateTrail, s) := by
      simp only [Ball.update, ha, Bool.not_true, Bool.false_eq_true, if_false, hc]
      rw [hb]
    rw [hu]
    simp only [Ball.updateTrail, integrate_eq, hg, PHYSICS_CONSTANTS, mul_comm]
  · intro ha
    simp [Ball.update, ha]

/-- Witness of C12: a light ball at `(400, 180)` with velocity `(2, 5)` in a scene without
platforms moves to `(402, 185.15)` with velocity `(1.96, 5.0470)`. -/
theorem update_of_free_witness :
    ((sampleBall "light" 2 5).update sampleEnv Sim.initial).1.x = 400 + 2 ∧
    ((sampleBall "light" 2 5).update sampleEnv Sim.initial).1.y = 180 + (5 + 0.25 * 0.6) ∧
    ((sampleBall "light" 2 5).update sampleEnv Sim.initial).1.vx = 0.98 * 2 ∧
    ((sampleBall "light" 2 5).update sampleEnv Sim.initial).1.vy = 0.98 * (5 + 0.25 * 0.6) ∧
    ((sampleBall "light" 2 5).update sampleEnv Sim.initial).2 = Sim.initial := by
  have hg : (sampleBall "light" 2 5).effectiveGravity = 0.25 * 0.6 := by
    simp [sampleBall, Ball.new, Ball.effectiveGravity, WEIGHT_SETTINGS, PHYSICS_CONSTANTS]
  have h := (update_of_free sampleEnv (sampleBall "light" 2 5) Sim.initial 0.6
      (by simp [sampleBall, Ball.new, WEIGHT_SETTINGS])).1 rfl
    (by rw [integrate_eq]; simp only [sampleBall, Ball.new]; norm_num)
    (by rw [integrate_eq]; simp only [sampleBall, Ball.new, sampleEnv]; norm_num)
    (by rw [integrate_eq, hg]; simp only [sampleBall, Ball.new, sampleEnv]; norm_num)
    (by rw [beforePlatforms_platforms]; rfl)
  rw [h]
  exact ⟨rfl, rfl, rfl, rfl, rfl⟩

/-! ## The heavy ball on the floor (C13) -/

/-- The effective gravity of a heavy ball built by the constructor. -/
theorem effectiveGravity_heavy (b : Ball) (hw : b.weight = "heavy")
    (hcfg : b.weightConfig = WEIGHT_SETTINGS b.weight) : b.effectiveGravity = 0.45 := by
  rw [hw] at hcfg
  simp only [Ball.effectiveGravity, hcfg, WEIGHT_SETTINGS, PHYSICS_CONSTANTS]
  simp
  norm_num

/-- The floor block on a heavy ball for which the floor test is true. -/
theorem floorCollision_heavy (env : Env) (w : Ball) (s : Sim) (hw : w.weight = "heavy")
    (hf : w.y + w.radius > env.canvas.height - 35) :
    w.floorCollision env s =
      ({ w with y := env.canvas.height - 35 - w.radius, vy := 0, vx := 0 }, s) := by
  have hc : ¬ (|(0 : ℚ)| > 1.0 ∨ "heavy" ≠ "heavy") := by norm_num
  simp only [Ball.floorCollision, hf, if_true, Ball.floorResponse, hw, hc, if_false]

/-- An `update` of a heavy ball in which the floor test is true. -/
theorem heavy_update_of_floor (env : Env) (b : Ball) (s : Sim) (hw : b.weight = "heavy")
    (ha : b.active = true)
    (hf : b.integrate.y + b.integrate.radius > env.canvas.height - 35) :
    b.update env s =
      ({ b.integrate with
         x := (b.integrate.wallCollisions env.canvas).x,
         y := env.canvas.height - 35 - b.radius, vx := 0, vy := 0 }.updateTrail, s) := by
  have hbp : b.beforePlatforms env s =
      ({ b.integrate with
         x := (b.integrate.wallCollisions env.canvas).x,
         y := env.canvas.height - 35 - b.radius, vx := 0, vy := 0 }.updateTrail, s) := by
    have key := floorCollision_heavy env
      { b.integrate with
        x := (b.integrate.wallCollisions env.canvas).x,
        vx := (b.integrate.wallCollisions env.canvas).vx } s hw hf
    unfold Ball.beforePlatforms
    simp only
    rw [wallCollisions_eq, key]
    rfl
  rw [update_of_active env b s ha, hbp]
  simp only
  rw [checkPlatformCollisions_of_vy_nonpos _ (le_refl _)]

/-- A heavy ball at rest on the floor, at a position the wall block accepts, is left by an
`update` as it was, up to its trail. -/
theorem heavy_rest_update (env : Env) (c : Ball) (s : Sim) (hw : c.weight = "heavy")
    (ha : c.active = true) (hcfg : c.weightConfig = WEIGHT_SETTINGS c.weight)
    (hvx : c.vx = 0) (hvy : c.vy = 0) (hy : c.y = env.canvas.height - 35 - c.radius)
    (hx : (c.wallCollisions env.canvas).x = c.x) :
    c.update env s = ({ c with trail := (c.update env s).1.trail }, s) := by
  have hg := effectiveGravity_heavy c hw hcfg
  have hf : c.integrate.y + c.integrate.radius > env.canvas.height - 35 := by
    rw [integrate_eq]
    simp only [hg, hvy, hy]
    linarith
  have hxi : (c.integrate.wallCollisions env.canvas).x = c.x := by
    rw [wallCollisions_x_congr env.canvas c.integrate c (by rw [integrate_eq]; simp [hvx]) rfl]
    exact hx
  have hu := heavy_update_of_floor env c s hw ha hf
  rw [hxi] at hu
  rw [hu]
  clear hu hxi hf hg hx hcfg hw ha
  cases c
  simp only at hvx hvy hy
  subst hvx hvy hy
  rfl

/-- Repeating `update` on a heavy ball at rest on the floor changes its trail only. -/
theorem heavy_rest_iterate (env : Env) (s : Sim) (n : Nat) :
    ∀ c : Ball, c.weight = "heavy" → c.active = true →
      c.weightConfig = WEIGHT_SETTINGS c.weight → c.vx = 0 → c.vy = 0 →
      c.y = env.canvas.height - 35 - c.radius → (c.wallCollisions env.canvas).x = c.x →
      ∃ tr, (fun r : Ball × Sim => r.1.update env r.2)^[n] (c, s) = ({ c with trail := tr }, s) := by
  induction n with
  | zero => intro c _ _ _ _ _ _ _; exact ⟨c.trail, rfl⟩
  | succ n ih =>
    intro c hw ha hcfg hvx hvy hy hx
    rw [Function.iterate_succ_apply]
    simp only
    rw [heavy_rest_update env c s hw ha hcfg hvx hvy hy hx]
    obtain ⟨tr, htr⟩ := ih { c with trail := (c.update env s).1.trail } hw ha hcfg hvx hvy hy
      ((wallCollisions_x_congr env.canvas
        { c with trail := (c.update env s).1.trail } c rfl rfl).trans hx)
    exact ⟨tr, htr⟩

/-- C13. An `update` of an active heavy ball in which the floor test is true after
integration ends with `y = canvas.height - 35 - radius`, `vx = 0` and `vy = 0`, and writes
none of the globals: no platform answers and no particle is pushed.  From then on every
further `update` leaves the ball where it is with zero velocity (only its trail changes);
the same holds for any heavy ball at rest on the floor at a position between the walls. -/
theorem heavy_floor_stop (env : Env) (b : Ball) (s : Sim) (hw : b.weight = "heavy")
    (ha : b.active = true)
    (hf : b.integrate.y + b.integrate.radius > env.canvas.height - 35) :
    (b.update env s).1.y = env.canvas.height - 35 - b.radius ∧
    (b.update env s).1.vx = 0 ∧
    (b.update env s).1.vy = 0 ∧
    (b.update env s).2 = s ∧
    (b.weightConfig = WEIGHT_SETTINGS b.weight → ∀ n : Nat, ∃ tr,
      (fun r : Ball × Sim => r.1.update env r.2)^[n] (b.update env s)
        = ({ (b.update env s).1 with trail := tr }, s)) ∧
    (∀ c : Ball, c.weight = "heavy" → c.active = true →
      c.weightConfig = WEIGHT_SETTINGS c.weight → c.vx = 0 → c.vy = 0 →
      c.y = env.canvas.height - 35 - c.radius →
      ¬ c.x - c.radius < 0 → ¬ c.x + c.radius > env.canvas.width →
      ∀ n : Nat, ∃ tr,
        (fun r : Ball × Sim => r.1.update env r.2)^[n] (c, s) = ({ c with trail := tr }, s)) := by
  have hu := heavy_update_of_floor env b s hw ha hf
  refine ⟨by rw [hu]; rfl, by rw [hu]; rfl, by rw [hu]; rfl, by rw [hu], fun hcfg n => ?_,
    fun c hw ha hcfg hvx hvy hy h1 h2 n => ?_⟩
  · have h := heavy_rest_iterate env s n (b.update env s).1
      (by rw [hu]; exact hw) (by rw [hu]; exact ha) (by rw [hu]; exact hcfg)
      (by rw [hu]; rfl) (by rw [hu]; rfl) (by rw [hu]; rfl)
      (wallCollisions_x_idem env.canvas b.integrate _ (by rw [hu]; rfl) (by rw [hu]; rfl))
    have e : b.update env s = ((b.update env s).1, s) := by rw [hu]
    rw [e]
    exact h
  · exact heavy_rest_iterate env s n c hw ha hcfg hvx hvy hy
      (by rw [wallCollisions_of_inside env.canvas c h1 h2])

/-- Witness of C13: a heavy ball falling at `vy = 10` from `y = 530` on a canvas 600 high
stops at `y = 535`, and is still there, at rest, three updates later. -/
theorem heavy_floor_stop_witness :
    ({ sampleBall "heavy" 0 10 with y := 530 }.update sampleEnv Sim.initial).1.y
      = 600 - 35 - 30 ∧
    ({ sampleBall "heavy" 0 10 with y := 530 }.update sampleEnv Sim.initial).1.vx = 0 ∧
    ({ sampleBall "heavy" 0 10 with y := 530 }.update sampleEnv Sim.initial).1.vy = 0 ∧
    (∃ tr, (fun r : Ball × Sim => r.1.update sampleEnv r.2)^[3]
        ({ sampleBall "heavy" 0 10 with y := 530 }.update sampleEnv Sim.initial)
      = ({ ({ sampleBall "heavy" 0 10 with y := 530 }.update sampleEnv Sim.initial).1 with
           trail := tr }, Sim.initial)) :=
  have h := heavy_floor_stop sampleEnv { sampleBall "heavy" 0 10 with y := 530 } Sim.initial
    rfl rfl
    (by rw [integrate_eq, effectiveGravity_heavy _ rfl rfl]
        simp only [sampleBall, Ball.new, sampleEnv]; norm_num)
  ⟨h.1, h.2.1, h.2.2.1, h.2.2.2.2.1 rfl 3⟩

/-! ## Floor response of light and medium balls (C14) -/

/-- The floor response of a light ball. -/
theorem floorResponse_light (w : Ball) (hw : w.weight = "light") :
    w.floorResponse =
      if |0.6 * w.vy| < 0.5 then { w with vy := 0, vx := 0.9 * (0.8 * w.vx) }
      else { w with vy := -0.6 * w.vy, vx := 0.8 * w.vx } := by
  have e1 : w.vy * -0.6 = -(0.6 * w.vy) := by ring
  have e2 : w.vx * 0.8 * 0.9 = 0.9 * (0.8 * w.vx) := by ring
  have e3 : w.vx * 0.8 = 0.8 * w.vx := by ring
  have hl : ¬ ("light" = "heavy") := by decide
  have hm : ¬ ("light" = "medium") := by decide
  simp only [Ball.floorResponse, hw, hl, hm, if_false, PHYSICS_CONSTANTS, e1, abs_neg, e2, e3]
  split_ifs <;> (congr 1; ring)

/-- The floor response of a medium ball. -/
theorem floorResponse_medium (w : Ball) (hw : w.weight = "medium") :
    w.floorResponse =
      if |0.3 * w.vy| < 1.0 then { w with vy := 0, vx := 0.8 * (0.6 * w.vx) }
      else { w with vy := -0.3 * w.vy, vx := 0.6 * w.vx } := by
  have e1 : w.vy * (-0.6 * 0.5) = -(0.3 * w.vy) := by ring
  have e2 : w.vx * 0.6 * 0.8 = 0.8 * (0.6 * w.vx) := by ring
  have e3 : w.vx * 0.6 = 0.6 * w.vx := by ring
  have hm : ¬ ("medium" = "heavy") := by decide
  simp only [Ball.floorResponse, hw, hm, if_false, if_true, PHYSICS_CONSTANTS, e1, abs_neg, e2,
    e3]
  split_ifs <;> (congr 1; ring)

/-- C14. The floor block of `Ball.update`, entered by a ball `w` (the ball as integration
and the wall block left it, with velocity `vx_old`, `vy_old`) for which the floor test
`y + radius > canvas.height - 35` is true: `y` becomes `canvas.height - 35 - radius`; for a
light ball `vy` becomes `-0.6 * vy_old` and `vx` becomes `0.8 * vx_old`, and with
`|0.6 * vy_old| < 0.5` the ball settles, `vy = 0` and `vx` multiplied by `0.9` once more;
for a medium ball the numbers are `-0.3`, `0.6`, the threshold `1.0` and `0.8`.  When the
ball was not moving up (`vy_old ≥ 0`) no platform answers afterwards, so the `update` ends
with the ball the floor block left (and the trail extended). -/
theorem floorCollision_bounce (env : Env) (w : Ball) (s : Sim)
    (hf : w.y + w.radius > env.canvas.height - 35) :
    (w.weight = "light" →
      (w.floorCollision env s).1.y = env.canvas.height - 35 - w.radius ∧
      (¬ |0.6 * w.vy| < 0.5 →
        (w.floorCollision env s).1.vy = -0.6 * w.vy ∧
        (w.floorCollision env s).1.vx = 0.8 * w.vx) ∧
      (|0.6 * w.vy| < 0.5 →
        (w.floorCollision env s).1.vy = 0 ∧
        (w.floorCollision env s).1.vx = 0.9 * (0.8 * w.vx))) ∧
    (w.weight = "medium" →
      (w.floorCollision env s).1.y = env.canvas.height - 35 - w.radius ∧
      (¬ |0.3 * w.vy| < 1.0 →
        (w.floorCollision env s).1.vy = -0.3 * w.vy ∧
        (w.floorCollision env s).1.vx = 0.6 * w.vx) ∧
      (|0.3 * w.vy| < 1.0 →
        (w.floorCollision env s).1.vy = 0 ∧
        (w.floorCollision env s).1.vx = 0.8 * (0.6 * w.vx))) ∧
    (∀ b : Ball, b.active = true → b.integrate.wallCollisions env.canvas = w →
      (w.weight = "light" ∨ w.weight = "medium") → 0 ≤ w.vy →
      (b.update env s).1 = (w.floorCollision env s).1.updateTrail) := by
  have hfl : w.weight = "light" → (w.floorCollision env s).1 =
      if |0.6 * w.vy| < 0.5 then
        { w with y := env.canvas.height - 35 - w.radius, vy := 0, vx := 0.9 * (0.8 * w.vx) }
      else
        { w with y := env.canvas.height - 35 - w.radius, vy := -0.6 * w.vy, vx := 0.8 * w.vx } := by
    intro hw
    have hh : w.weight ≠ "heavy" := by rw [hw]; decide
    simp only [Ball.floorCollision, hf, if_true,
      floorResponse_light { w with y := env.canvas.height - 35 - w.radius } hw]
    split_ifs <;> simp_all
  have hfm : w.weight = "medium" → (w.floorCollision env s).1 =
      if |0.3 * w.vy| < 1.0 then
        { w with y := env.canvas.height - 35 - w.radius, vy := 0, vx := 0.8 * (0.6 * w.vx) }
      else
        { w with y := env.canvas.height - 35 - w.radius, vy := -0.3 * w.vy, vx := 0.6 * w.vx } := by
    intro hw
    have hh : w.weight ≠ "heavy" := by rw [hw]; decide
    simp only [Ball.floorCollision, hf, if_true,
      floorResponse_medium { w with y := env.canvas.height - 35 - w.radius } hw]
    split_ifs <;> simp_all
  refine ⟨fun hw => ?_, fun hw => ?_, fun b ha hb hw hv => ?_⟩
  · rw [hfl hw]
    refine ⟨by split_ifs <;> rfl, fun h => ?_, fun h => ?_⟩
    · rw [if_neg h]; exact ⟨rfl, rfl⟩
    · rw [if_pos h]; exact ⟨rfl, rfl⟩
  · rw [hfm hw]
    refine ⟨by split_ifs <;> rfl, fun h => ?_, fun h => ?_⟩
    · rw [if_neg h]; exact ⟨rfl, rfl⟩
    · rw [if_pos h]; exact ⟨rfl, rfl⟩
  · have hvy : (w.floorCollision env s).1.updateTrail.vy ≤ 0 := by
      change (w.floorCollision env s).1.vy ≤ 0
      rcases hw with hw | hw
      · rw [hfl hw]
        split_ifs
        · exact le_refl _
        · change -0.6 * w.vy ≤ 0
          nlinarith
      · rw [hfm hw]
        split_ifs
        · exact le_refl _
        · change -0.3 * w.vy ≤ 0
          nlinarith
    have hu : b.update env s =
        (((w.floorCollision env s).1.updateTrail.checkPlatformCollisions
            (w.floorCollision env s).2.platforms).1,
         { (w.floorCollision env s).2 with
           platforms := ((w.floorCollision env s).1.updateTrail.checkPlatformCollisions
             (w.floorCollision env s).2.platforms).2 }) := by
      simp only [Ball.update, ha, Bool.not_true, Bool.false_eq_true, if_false,
        Ball.beforePlatforms, hb]
    rw [hu, checkPlatformCollisions_of_vy_nonpos _ hvy]

/-- Witness of C14: a light ball entering the floor block at `y = 540` with velocity
`(2, 10)` on a canvas 600 high leaves it at `y = 535` with `vy = -6` and `vx = 1.6`. -/
theorem floorCollision_bounce_witness :
    ({ sampleBall "light" 2 10 with y := 540 }.floorCollision sampleEnv Sim.initial).1.y
      = 600 - 35 - 30 ∧
    ({ sampleBall "light" 2 10 with y := 540 }.floorCollision sampleEnv Sim.initial).1.vy
      = -0.6 * 10 ∧
    ({ sampleBall "light" 2 10 with y := 540 }.floorCollision sampleEnv Sim.initial).1.vx
      = 0.8 * 2 :=
  have h := (floorCollision_bounce sampleEnv { sampleBall "light" 2 10 with y := 540 }
    Sim.initial (by simp only [sampleBall, Ball.new, sampleEnv]; norm_num)).1 rfl
  ⟨h.1, h.2.1 (by simp only [sampleBall]; norm_num [abs_lt])⟩

/-! ## Impact particles (C15) -/

/-- The floor response writes `vx` and `vy` only. -/
theorem floorResponse_eq (c : Ball) :
    c.floorResponse = { c with vx := c.floorResponse.vx, vy := c.floorResponse.vy } := by
  unfold Ball.floorResponse
  simp only
  split_ifs <;> rfl

/-- The floor block when the floor test is true: the ball after the response, and the
globals after the test that guards `createImpactEffect`. -/
theorem floorCollision_of_floor (env : Env) (w : Ball) (s : Sim)
    (hf : w.y + w.radius > env.canvas.height - 35) :
    w.floorCollision env s =
      ({ w with y := env.canvas.height - 35 - w.radius }.floorResponse,
       if |({ w with y := env.canvas.height - 35 - w.radius }.floorResponse).vy| > 1.0 ∨
            w.weight ≠ "heavy" then
         ({ w with y := env.canvas.height - 35 - w.radius }.floorResponse).createImpactEffect env s
       else s) := by
  have hwt : ({ w with y := env.canvas.height - 35 - w.radius }.floorResponse).weight
      = w.weight := by
    rw [floorResponse_eq]
  simp only [Ball.floorCollision, hf, if_true, hwt]
  split_ifs <;> rfl

/-- The particles pushed by `createImpactEffect`. -/
theorem createImpactEffect_particles (env : Env) (c : Ball) (s : Sim) :
    ∃ new : List Particle,
      (c.createImpactEffect env s).particles = s.particles ++ new ∧
      new.length = (⌊c.mass * 8⌋ + 6).toNat ∧
      ∀ p ∈ new, p.color = "#666666" ∧ p.life = 1.5 * c.mass ∧ p.maxLife = 1.5 * c.mass ∧
        p.y = c.y + c.radius := by
  refine ⟨(List.range (⌊c.mass * 8⌋ + 6).toNat).map
    (fun i => c.impactParticle env (s.randomCalls + 8 * i)), rfl, by simp, ?_⟩
  intro p hp
  simp only [List.mem_map, List.mem_range] at hp
  obtain ⟨i, _, rfl⟩ := hp
  exact ⟨rfl, rfl, rfl, rfl⟩

/-- The particle list after an `update` is the one the floor block left. -/
theorem update_particles (env : Env) (b : Ball) (s : Sim) (ha : b.active = true) :
    (b.update env s).2.particles
      = ((b.integrate.wallCollisions env.canvas).floorCollision env s).2.particles := by
  rw [update_of_active env b s ha]
  rfl

/-- C15. The floor block of `Ball.update`, entered by a ball `w` for which the floor test is
true: `createImpactEffect` runs exactly when `|vy| > 1.0` for the `vy` left by the floor
response or the weight is not heavy.  A ball that is not heavy always emits: the particle
list grows at its end by `floor(mass * 8) + 6` particles, which is 9 for a light and 18 for
a medium ball, each with color `#666666`, `life = maxLife = 1.5 * mass` and
`y = ball.y + radius` for the clamped `ball.y`.  A heavy ball never emits: the globals are
left as they were.  The particle list at the end of the `update` is the one the floor block
left. -/
theorem floorCollision_particles (env : Env) (w : Ball) (s : Sim)
    (hf : w.y + w.radius > env.canvas.height - 35) :
    ((w.floorCollision env s).2 =
      if |(w.floorCollision env s).1.vy| > 1.0 ∨ w.weight ≠ "heavy" then
        (w.floorCollision env s).1.createImpactEffect env s
      else s) ∧
    (w.weight ≠ "heavy" → ∃ new : List Particle,
      (w.floorCollision env s).2.particles = s.particles ++ new ∧
      new.length = (⌊w.mass * 8⌋ + 6).toNat ∧
      ∀ p ∈ new, p.color = "#666666" ∧ p.life = 1.5 * w.mass ∧ p.maxLife = 1.5 * w.mass ∧
        p.y = (w.floorCollision env s).1.y + w.radius ∧
        p.y = env.canvas.height - 35) ∧
    (w.weightConfig = WEIGHT_SETTINGS w.weight →
      (w.weight = "light" → (⌊w.mass * 8⌋ + 6).toNat = 9) ∧
      (w.weight = "medium" → (⌊w.mass * 8⌋ + 6).toNat = 18)) ∧
    (w.weight = "heavy" → (w.floorCollision env s).2 = s) ∧
    (∀ b : Ball, b.active = true → b.integrate.wallCollisions env.canvas = w →
      (b.update env s).2.particles = (w.floorCollision env s).2.particles) := by
  have hfc := floorCollision_of_floor env w s hf
  refine ⟨by rw [hfc], fun hw => ?_, fun hcfg => ⟨fun hw => ?_, fun hw => ?_⟩, fun hw => ?_,
    fun b ha hb => ?_⟩
  · obtain ⟨new, h1, h2, h3⟩ := createImpactEffect_particles env
      ({ w with y := env.canvas.height - 35 - w.radius }.floorResponse) s
    have hm : ({ w with y := env.canvas.height - 35 - w.radius }.floorResponse).mass = w.mass := by
      rw [floorResponse_eq]; rfl
    have hy : ({ w with y := env.canvas.height - 35 - w.radius }.floorResponse).y
        = env.canvas.height - 35 - w.radius := by
      rw [floorResponse_eq]
    have hr : ({ w with y := env.canvas.height - 35 - w.radius }.floorResponse).radius
        = w.radius := by
      rw [floorResponse_eq]
    rw [hm] at h2 h3
    rw [hy, hr] at h3
    refine ⟨new, ?_, h2, fun p hp => ?_⟩
    · rw [hfc]
      simp only [hw, ne_eq, not_false_eq_true, or_true, if_true]
      exact h1
    · obtain ⟨a1, a2, a3, a4⟩ := h3 p hp
      refine ⟨a1, a2, a3, ?_, ?_⟩
      · rw [hfc]
        simp only
        rw [hy]
        exact a4
      · rw [a4]; ring
  · rw [hw] at hcfg
    simp only [Ball.mass, hcfg, WEIGHT_SETTINGS]
    norm_num
    rfl
  · rw [hw] at hcfg
    simp only [Ball.mass, hcfg, WEIGHT_SETTINGS]
    simp
    norm_num
    rfl
  · rw [floorCollision_heavy env w s hw hf]
  · rw [update_particles env b s ha, hb]

/-- Witness of C15: a light ball entering the floor block at `y = 540` on a canvas 600 high
pushes 9 particles onto an empty list. -/
theorem floorCollision_particles_witness :
    ({ sampleBall "light" 2 10 with y := 540 }.floorCollision sampleEnv
        Sim.initial).2.particles.length = 9 := by
  have h := floorCollision_particles sampleEnv { sampleBall "light" 2 10 with y := 540 }
    Sim.initial (by simp only [sampleBall, Ball.new, sampleEnv]; norm_num)
  obtain ⟨new, h1, h2, _⟩ := h.2.1 (by decide)
  rw [h1, (h.2.2.1 rfl).1 rfl] at *
  simp only [Sim.initial, List.nil_append]
  exact h2

/-! ## Pruning of particles in a tick (C16) -/

/-- The floor block only adds particles, at the end of the list. -/
theorem floorCollision_appends (env : Env) (w : Ball) (s : Sim) :
    ∃ emitted : List Particle, (w.floorCollision env s).2.particles = s.particles ++ emitted := by
  unfold Ball.floorCollision
  simp only
  split_ifs
  · exact ⟨_, rfl⟩
  · exact ⟨[], by simp⟩
  · exact ⟨[], by simp⟩

/-- An `update` only adds particles, at the end of the list. -/
theorem update_appends (env : Env) (b : Ball) (s : Sim) :
    ∃ emitted : List Particle, (b.update env s).2.particles = s.particles ++ emitted := by
  by_cases ha : b.active = true
  · rw [update_of_active env b s ha]
    exact floorCollision_appends env _ s
  · simp only [Bool.not_eq_true] at ha
    exact ⟨[], by simp [Ball.update, ha]⟩

/-- Updating all balls only adds particles, at the end of the list. -/
theorem updateBalls_appends (env : Env) :
    ∀ (bs : List Ball) (s : Sim),
      ∃ emitted : List Particle, (updateBalls env bs s).2.particles = s.particles ++ emitted := by
  intro bs
  induction bs with
  | nil => intro s; exact ⟨[], by simp [updateBalls]⟩
  | cons b bs ih =>
    intro s
    obtain ⟨e1, h1⟩ := update_appends env b s
    obtain ⟨e2, h2⟩ := ih (b.update env s).2
    exact ⟨e1 ++ e2, by simp only [updateBalls]; rw [h2, h1, List.append_assoc]⟩

/-- C16. `isDead` answers true exactly when `life ≤ 0` or `size < 0.5`.  While running, a
`gameLoop` tick leaves as particles the list present after the ball updates (the old
particles followed by those emitted in the tick), each advanced by one `Particle.update`,
without those for which `isDead` is true, in the same order; no particle with `life ≤ 0`
or `size < 0.5` is left, and when the ball updates emitted nothing the list is not longer
than before.  While not running `gameLoop` changes nothing. -/
theorem gameLoop_particles (env : Env) (s : Sim) :
    (∀ p : Particle, p.isDead = true ↔ (p.life ≤ 0 ∨ p.size < 0.5)) ∧
    (s.isRunning = true →
      (∃ emitted : List Particle,
        (updateBalls env s.balls s).2.particles = s.particles ++ emitted) ∧
      (gameLoop env s).particles =
        (((updateBalls env s.balls s).2.particles).map (Particle.update env.canvas)).filter
          (fun p => !p.isDead) ∧
      (∀ p ∈ (gameLoop env s).particles, ¬ (p.life ≤ 0 ∨ p.size < 0.5)) ∧
      ((updateBalls env s.balls s).2.particles = s.particles →
        (gameLoop env s).particles.length ≤ s.particles.length)) ∧
    (s.isRunning = false → gameLoop env s = s) := by
  have hd : ∀ p : Particle, p.isDead = true ↔ (p.life ≤ 0 ∨ p.size < 0.5) := by
    intro p
    simp [Particle.isDead]
  refine ⟨hd, fun hr => ?_, fun hr => by simp [gameLoop, hr]⟩
  have hg : (gameLoop env s).particles =
      (((updateBalls env s.balls s).2.particles).map (Particle.update env.canvas)).filter
        (fun p => !p.isDead) := by
    simp only [gameLoop, hr, Bool.not_true, Bool.false_eq_true, if_false, requestAnimationFrame]
  refine ⟨updateBalls_appends env s.balls s, hg, fun p hp => ?_, fun he => ?_⟩
  · rw [hg, List.mem_filter] at hp
    intro h
    have := (hd p).mpr h
    simp [this] at hp
  · rw [hg, he]
    exact (List.length_filter_le _ _).trans (by simp)

/-- Witness of C16: in the running scene of three particles, a tick leaves no particle with
`life ≤ 0` or `size < 0.5`, and not more particles than before. -/
theorem gameLoop_particles_witness :
    dustScene.isRunning = true ∧
    (∀ p ∈ (gameLoop sampleEnv dustScene).particles, ¬ (p.life ≤ 0 ∨ p.size < 0.5)) ∧
    (gameLoop sampleEnv dustScene).particles.length ≤ dustScene.particles.length :=
  have h := (gameLoop_particles sampleEnv dustScene).2.1 rfl
  ⟨rfl, h.2.2.1, h.2.2.2 rfl⟩

/-! ## Particles fade and shrink (C17) -/

/-- What `Particle.update` does to `life`, `size` and `decay`. -/
theorem Particle.update_life_size (c : Canvas) (q : Particle) :
    (Particle.update c q).life = q.life - q.decay ∧
    (Particle.update c q).size = 0.995 * q.size ∧
    (Particle.update c q).decay = q.decay := by
  unfold Particle.update
  simp only
  split_ifs <;> exact ⟨rfl, mul_comm _ _, rfl⟩

/-- Along repeated updates `decay` is kept and `size` stays at least `0`. -/
theorem Particle.iterate_decay_size (c : Canvas) (p : Particle) (hs : 0 ≤ p.size) (n : Nat) :
    ((Particle.update c)^[n] p).decay = p.decay ∧ 0 ≤ ((Particle.update c)^[n] p).size := by
  induction n with
  | zero => exact ⟨rfl, hs⟩
  | succ n ih =>
    rw [Function.iterate_succ_apply']
    obtain ⟨_, h2, h3⟩ := Particle.update_life_size c ((Particle.update c)^[n] p)
    rw [h2, h3]
    exact ⟨ih.1, by linarith [ih.2]⟩

/-- C17. With every `Math.random()` draw in `[0, 1)`, a particle built by the constructor
has `size` in `[2, 6)` and `decay` in `[0.008, 0.015)`.  After any number of updates of such
a particle one more `Particle.update` gives `life' = life - decay` and
`size' = 0.995 * size`, hence `life' ≤ life` and `size' ≤ size`; so `life` and `size` after
`n` updates are at most those after `m ≤ n` updates. -/
theorem particle_life_size_antitone (env : Env)
    (hrand : ∀ i : Nat, 0 ≤ env.random i ∧ env.random i < 1)
    (k : Nat) (x y vx vy : ℚ) (color : String) (life : ℚ) (c : Canvas) :
    (2 ≤ (Particle.new env k x y vx vy color life).size ∧
     (Particle.new env k x y vx vy color life).size < 6 ∧
     0.008 ≤ (Particle.new env k x y vx vy color life).decay ∧
     (Particle.new env k x y vx vy color life).decay < 0.015) ∧
    (∀ n : Nat,
      (Particle.update c ((Particle.update c)^[n] (Particle.new env k x y vx vy color life))).life
        = ((Particle.update c)^[n] (Particle.new env k x y vx vy color life)).life
          - ((Particle.update c)^[n] (Particle.new env k x y vx vy color life)).decay ∧
      (Particle.update c ((Particle.update c)^[n] (Particle.new env k x y vx vy color life))).size
        = 0.995 * ((Particle.update c)^[n] (Particle.new env k x y vx vy color life)).size ∧
      (Particle.update c ((Particle.update c)^[n] (Particle.new env k x y vx vy color life))).life
        ≤ ((Particle.update c)^[n] (Particle.new env k x y vx vy color life)).life ∧
      (Particle.update c ((Particle.update c)^[n] (Particle.new env k x y vx vy color life))).size
        ≤ ((Particle.update c)^[n] (Particle.new env k x y vx vy color life)).size) ∧
    (∀ m n : Nat, m ≤ n →
      ((Particle.update c)^[n] (Particle.new env k x y vx vy color life)).life
        ≤ ((Particle.update c)^[m] (Particle.new env k x y vx vy color life)).life ∧
      ((Particle.update c)^[n] (Particle.new env k x y vx vy color life)).size
        ≤ ((Particle.update c)^[m] (Particle.new env k x y vx vy color life)).size) := by
  have hk := hrand k
  have hk1 := hrand (k + 1)
  have hsize : 2 ≤ (Particle.new env k x y vx vy color life).size ∧
      (Particle.new env k x y vx vy color life).size < 6 := by
    simp only [Particle.new]
    constructor <;> linarith [hk.1, hk.2]
  have hdecay : 0.008 ≤ (Particle.new env k x y vx vy color life).decay ∧
      (Particle.new env k x y vx vy color life).decay < 0.015 := by
    simp only [Particle.new]
    constructor
    · have : 0 ≤ env.random (k + 1) * 0.007 := mul_nonneg hk1.1 (by norm_num)
      linarith
    · have : env.random (k + 1) * 0.007 < 1 * 0.007 :=
        mul_lt_mul_of_pos_right hk1.2 (by norm_num)
      norm_num at this ⊢
      linarith
  have hstep : ∀ n : Nat,
      (Particle.update c ((Particle.update c)^[n] (Particle.new env k x y vx vy color life))).life
        = ((Particle.update c)^[n] (Particle.new env k x y vx vy color life)).life
          - ((Particle.update c)^[n] (Particle.new env k x y vx vy color life)).decay ∧
      (Particle.update c ((Particle.update c)^[n] (Particle.new env k x y vx vy color life))).size
        = 0.995 * ((Particle.update c)^[n] (Particle.new env k x y vx vy color life)).size ∧
      (Particle.update c ((Particle.update c)^[n] (Particle.new env k x y vx vy color life))).life
        ≤ ((Particle.update c)^[n] (Particle.new env k x y vx vy color life)).life ∧
      (Particle.update c ((Particle.update c)^[n] (Particle.new env k x y vx vy color life))).size
        ≤ ((Particle.update c)^[n] (Particle.new env k x y vx vy color life)).size := by
    intro n
    obtain ⟨h1, h2, _⟩ := Particle.update_life_size c
      ((Particle.update c)^[n] (Particle.new env k x y vx vy color life))
    obtain ⟨h4, h5⟩ := Particle.iterate_decay_size c (Particle.new env k x y vx vy color life)
      (by linarith [hsize.1]) n
    refine ⟨h1, h2, ?_, ?_⟩
    · rw [h1, h4]; linarith [hdecay.1]
    · rw [h2]; linarith
  refine ⟨⟨hsize.1, hsize.2, hdecay.1, hdecay.2⟩, hstep, ?_⟩
  intro m n hmn
  induction n, hmn using Nat.le_induction with
  | base => exact ⟨le_refl _, le_refl _⟩
  | succ n _ ih =>
    rw [Function.iterate_succ_apply']
    exact ⟨(hstep n).2.2.1.trans ih.1, (hstep n).2.2.2.trans ih.2⟩

/-- Witness of C17: with every draw equal to one half, the constructor gives a particle
of size 4 and decay 0.0115 in the stated ranges, and its life after five updates is at most
its life after two. -/
theorem particle_life_size_antitone_witness :
    (∀ i : Nat, 0 ≤ sampleEnv.random i ∧ sampleEnv.random i < 1) ∧
    (2 ≤ (Particle.new sampleEnv 0 400 565 1 (-1) "#666666" 0.6).size ∧
     (Particle.new sampleEnv 0 400 565 1 (-1) "#666666" 0.6).size < 6 ∧
     0.008 ≤ (Particle.new sampleEnv 0 400 565 1 (-1) "#666666" 0.6).decay ∧
     (Particle.new sampleEnv 0 400 565 1 (-1) "#666666" 0.6).decay < 0.015) ∧
    ((Particle.update sampleEnv.canvas)^[5]
        (Particle.new sampleEnv 0 400 565 1 (-1) "#666666" 0.6)).life
      ≤ ((Particle.update sampleEnv.canvas)^[2]
        (Particle.new sampleEnv 0 400 565 1 (-1) "#666666" 0.6)).life :=
  have hr : ∀ i : Nat, 0 ≤ sampleEnv.random i ∧ sampleEnv.random i < 1 := by
    intro i
    simp only [sampleEnv]
    norm_num
  have h := particle_life_size_antitone sampleEnv hr 0 400 565 1 (-1) "#666666" 0.6
    sampleEnv.canvas
  ⟨hr, h.1, (h.2.2 2 5 (by decide)).1⟩

/-! ## What `resetSequence` cancels (C19) -/

/-- C19 fails as stated: on the running page a click on the heavy button calls
`resetSequence` and leaves its 100 ms continuation pending; a further `resetSequence`
before the 100 ms are over (the start button) rebuilds the scene and leaves that
continuation pending still, and when it fires it rebuilds and starts the scene: the page
is running again and the ball has moved from `y = 70` to `70.65`. -/
theorem resetSequence_counterexample :
    (setWeight sampleEnv "heavy" runningPage).pendingTimeouts
      = [Continuation.rebuildAndStart] ∧
    (resetSequence sampleEnv (setWeight sampleEnv "heavy" runningPage)).pendingTimeouts
      = [Continuation.rebuildAndStart] ∧
    (resetSequence sampleEnv (setWeight sampleEnv "heavy" runningPage)).isRunning = false ∧
    (resetSequence sampleEnv (setWeight sampleEnv "heavy" runningPage)).balls.map
      (fun b => (b.y, b.vy)) = [(70, 0)] ∧
    (fireTimeout sampleEnv 0
      (resetSequence sampleEnv (setWeight sampleEnv "heavy" runningPage))).isRunning = true ∧
    (fireTimeout sampleEnv 0
      (resetSequence sampleEnv (setWeight sampleEnv "heavy" runningPage))).balls.map
      (fun b => (b.y, b.vy)) = [(70.65, 0.637)] := by
  decide!

/-- C19, amended. `resetSequence` cancels the animation frame whose id is stored in
`animationId` and nothing else: the pending `setTimeout` continuations are all kept, and
the pending frames are the old ones without that id.  Since `isRunning` is false after the
reset, a frame that fires right after it finds `gameLoop` returning at once: only the
queue entry of the frame goes. -/
theorem resetSequence_pending (env : Env) (s : Sim) :
    (resetSequence env s).pendingTimeouts = s.pendingTimeouts ∧
    (∀ id : Nat, s.animationId = some id → id ≠ 0 →
      (resetSequence env s).pendingFrames = s.pendingFrames.filter (fun f => f ≠ id)) ∧
    ((s.animationId = none ∨ s.animationId = some 0) →
      (resetSequence env s).pendingFrames = s.pendingFrames) ∧
    (∀ id : Nat, fireFrame env id (resetSequence env s) =
      { resetSequence env s with
        pendingFrames := (resetSequence env s).pendingFrames.filter (fun f => f ≠ id) }) := by
  refine ⟨?_, fun id h hid => ?_, fun h => ?_, fun id => ?_⟩
  · unfold resetSequence
    simp only
    split
    · split_ifs <;> rfl
    · rfl
  · simp [resetSequence, h, hid, createScene]
  · rcases h with h | h <;> simp [resetSequence, h, createScene]
  · have hr : (resetSequence env s).isRunning = false := by
      unfold resetSequence
      simp only
      split
      · split_ifs <;> rfl
      · rfl
    unfold fireFrame
    split_ifs with hm
    · simp [gameLoop, hr]
    · have : (resetSequence env s).pendingFrames.filter (fun f => f ≠ id)
          = (resetSequence env s).pendingFrames := by
        rw [List.filter_eq_self]
        intro a ha
        have : a ≠ id := fun e => hm (e ▸ ha)
        simpa using this
      rw [this]

/-- Witness of C19 amended: on the running page the frame requested by the first tick
(id 1) is pending and is cancelled by `resetSequence`. -/
theorem resetSequence_pending_witness :
    runningPage.animationId = some 1 ∧ (1 : Nat) ≠ 0 ∧
    runningPage.pendingFrames = [1] ∧
    (resetSequence sampleEnv runningPage).pendingFrames
      = runningPage.pendingFrames.filter (fun f => f ≠ 1) :=
  ⟨by decide!, by decide, by decide!,
   (resetSequence_pending sampleEnv runningPage).2.1 1 (by decide!) (by decide)⟩

/-! ## Wall collisions (C20) -/

/-- C20. The wall block of `Ball.update`, run on the ball as integration and friction left
it (`w` below, with position `x` and velocity `vx`): with neither test true the ball is
left as integrated; with `x - radius < 0` the position becomes `radius` and `vx` is
multiplied by `-0.6`; then, on the ball so far, with `x + radius > canvas.width` the
position becomes `canvas.width - radius` and `vx` is multiplied by `-0.6` (so both tests in
one update give `-0.6 * (-0.6 * vx)`); no other field is written, and the position left by
the wall block is the position at the end of the update. -/
theorem wallCollisions_cases (env : Env) (b : Ball) :
    (¬ b.integrate.x - b.integrate.radius < 0 →
     ¬ b.integrate.x + b.integrate.radius > env.canvas.width →
       b.integrate.wallCollisions env.canvas = b.integrate) ∧
    (b.integrate.x - b.integrate.radius < 0 →
     ¬ b.integrate.radius + b.integrate.radius > env.canvas.width →
       (b.integrate.wallCollisions env.canvas).x = b.integrate.radius ∧
       (b.integrate.wallCollisions env.canvas).vx = -0.6 * b.integrate.vx) ∧
    (b.integrate.x - b.integrate.radius < 0 →
     b.integrate.radius + b.integrate.radius > env.canvas.width →
       (b.integrate.wallCollisions env.canvas).x = env.canvas.width - b.integrate.radius ∧
       (b.integrate.wallCollisions env.canvas).vx = -0.6 * (-0.6 * b.integrate.vx)) ∧
    (¬ b.integrate.x - b.integrate.radius < 0 →
     b.integrate.x + b.integrate.radius > env.canvas.width →
       (b.integrate.wallCollisions env.canvas).x = env.canvas.width - b.integrate.radius ∧
       (b.integrate.wallCollisions env.canvas).vx = -0.6 * b.integrate.vx) ∧
    b.integrate.wallCollisions env.canvas =
      { b.integrate with
        x := (b.integrate.wallCollisions env.canvas).x,
        vx := (b.integrate.wallCollisions env.canvas).vx } ∧
    (∀ s : Sim, b.active = true →
      (b.update env s).1.x = (b.integrate.wallCollisions env.canvas).x) := by
  refine ⟨fun h1 h2 => wallCollisions_of_inside _ _ h1 h2, fun h1 h2 => ?_, fun h1 h2 => ?_,
    fun h1 h2 => ?_, ?_, fun s ha => ?_⟩
  · simp only [Ball.wallCollisions, h1, h2, if_true, if_false, PHYSICS_CONSTANTS]
    exact ⟨trivial, by ring⟩
  · simp only [Ball.wallCollisions, h1, h2, if_true, PHYSICS_CONSTANTS]
    exact ⟨trivial, by ring⟩
  · simp only [Ball.wallCollisions, h1, h2, if_true, if_false, PHYSICS_CONSTANTS]
    exact ⟨trivial, by ring⟩
  · unfold Ball.wallCollisions
    simp only
    split_ifs <;> rfl
  · simp only [Ball.update, ha, Bool.not_true, Bool.false_eq_true, if_false,
      checkPlatformCollisions_x, Ball.beforePlatforms, Ball.updateTrail, floorCollision_x]

/-- Witness of C20: a ball at `x = 20` moving left at `vx = -4` on a canvas 800 wide is put
back at `x = 30` and leaves with `vx = -0.6 * (0.98 * -4)`. -/
theorem wallCollisions_cases_witness :
    ({ sampleBall "light" (-4) 0 with x := 20 }.integrate.wallCollisions sampleEnv.canvas).x
      = { sampleBall "light" (-4) 0 with x := 20 }.integrate.radius ∧
    ({ sampleBall "light" (-4) 0 with x := 20 }.integrate.wallCollisions sampleEnv.canvas).vx
      = -0.6 * { sampleBall "light" (-4) 0 with x := 20 }.integrate.vx :=
  (wallCollisions_cases sampleEnv { sampleBall "light" (-4) 0 with x := 20 }).2.1
    (by rw [integrate_eq]; simp only [sampleBall, Ball.new]; norm_num)
    (by rw [integrate_eq]; simp only [sampleBall, Ball.new, sampleEnv]; norm_num)

/-! ## One step of a particle (C21) -/

/-- C21. `Particle.update` moves the particle by its old velocity (`x + vx`, `y + vy`),
then sets `vy1 = (vy + 0.25 * 0.15) * 0.98` and `vx1 = 0.98 * vx`, takes `decay` from
`life`, multiplies `size` by `0.995` and adds `angularVelocity` to `rotation`; with
`y + vy > canvas.height - 35` it puts `y` on `canvas.height - 35` and leaves with
`vy = -0.3 * vy1` and `vx = 0.8 * vx1`, otherwise with `vy1` and `vx1`.  After the update
`y` is at most `canvas.height - 35`. -/
theorem Particle.update_eq (c : Canvas) (p : Particle) :
    Particle.update c p =
      (if p.y + p.vy > c.height - 35 then
        { p with
          x := p.x + p.vx, y := c.height - 35,
          vx := 0.8 * (0.98 * p.vx), vy := -0.3 * ((p.vy + 0.25 * 0.15) * 0.98),
          life := p.life - p.decay, size := 0.995 * p.size,
          rotation := p.rotation + p.angularVelocity }
      else
        { p with
          x := p.x + p.vx, y := p.y + p.vy,
          vx := 0.98 * p.vx, vy := (p.vy + 0.25 * 0.15) * 0.98,
          life := p.life - p.decay, size := 0.995 * p.size,
          rotation := p.rotation + p.angularVelocity }) ∧
    (Particle.update c p).y ≤ c.height - 35 := by
  have h : Particle.update c p =
      (if p.y + p.vy > c.height - 35 then
        { p with
          x := p.x + p.vx, y := c.height - 35,
          vx := 0.8 * (0.98 * p.vx), vy := -0.3 * ((p.vy + 0.25 * 0.15) * 0.98),
          life := p.life - p.decay, size := 0.995 * p.size,
          rotation := p.rotation + p.angularVelocity }
      else
        { p with
          x := p.x + p.vx, y := p.y + p.vy,
          vx := 0.98 * p.vx, vy := (p.vy + 0.25 * 0.15) * 0.98,
          life := p.life - p.decay, size := 0.995 * p.size,
          rotation := p.rotation + p.angularVelocity }) := by
    simp only [Particle.update, PHYSICS_CONSTANTS]
    split_ifs <;> congr 1 <;> ring
  refine ⟨h, ?_⟩
  rw [h]
  split_ifs with hf
  · exact le_refl _
  · exact not_lt.mp hf

/-! ## Resolving a collision ends it (C24) -/

/-- C24. For a ball of weight light, medium or heavy and a platform whose `checkCollision`
answers true, after `handleCollision` the ball has `vy ≤ 0` or the platform is broken, so
`checkCollision` of the platform as left, on the ball as left, answers false. -/
theorem handleCollision_ends (p : Platform) (b : Ball)
    (hw : b.weight = "light" ∨ b.weight = "medium" ∨ b.weight = "heavy")
    (hc : p.checkCollision b = true) :
    ((p.handleCollision b).2.vy ≤ 0 ∨ (p.handleCollision b).1.broken = true) ∧
    (p.handleCollision b).1.checkCollision (p.handleCollision b).2 = false := by
  have hp : p.broken = false := by
    cases hb : p.broken with
    | false => rfl
    | true => simp [checkCollision_of_broken p b hb] at hc
  have hv : 0 < b.vy := by
    simp only [Platform.checkCollision, Bool.and_eq_true, decide_eq_true_eq] at hc
    exact hc.1.1.1.1.2
  have key : (p.handleCollision b).2.vy ≤ 0 ∨ (p.handleCollision b).1.broken = true := by
    rcases hw with hw | hw | hw
    · left
      rw [light_handleCollision_eq p b hw hp]
      simp only
      split_ifs
      · exact le_refl _
      · change b.vy * -0.7 ≤ 0
        linarith
    · left; rw [medium_handleCollision_eq p b hw hp]
    · have hl : ¬ ("heavy" = "light") := by decide
      have hm : ¬ ("heavy" = "medium") := by decide
      by_cases h : |b.vy| * b.mass > 3.0
      · right
        simp only [Ball.mass] at h
        simp only [Platform.handleCollision, hp, hw, hl, hm, h, Bool.false_eq_true, if_false,
          if_true, Ball.mass]
      · left
        simp only [Ball.mass] at h
        simp only [Platform.handleCollision, hp, hw, hl, hm, h, Bool.false_eq_true, if_false,
          if_true, Ball.mass]
        linarith
  refine ⟨key, ?_⟩
  rcases key with h | h
  · exact checkCollision_of_vy_nonpos _ _ h
  · exact checkCollision_of_broken _ _ h

/-- Witness of C24: the sample platform and a heavy ball arriving with `vy = 5`: the
platform breaks, and does not answer again. -/
theorem handleCollision_ends_witness :
    samplePlatform.checkCollision (sampleBall "heavy" 0 5) = true ∧
    (samplePlatform.handleCollision (sampleBall "heavy" 0 5)).1.checkCollision
      (samplePlatform.handleCollision (sampleBall "heavy" 0 5)).2 = false :=
  have hc : samplePlatform.checkCollision (sampleBall "heavy" 0 5) = true := by decide!
  ⟨hc, (handleCollision_ends samplePlatform (sampleBall "heavy" 0 5)
    (Or.inr (Or.inr rfl)) hc).2⟩

/-! ## The ball stays in the play area (C25) -/

/-- An unbroken platform puts the ball on its top edge and keeps the radius. -/
theorem handleCollision_y_radius (p : Platform) (b : Ball) (hp : p.broken = false) :
    (p.handleCollision b).2.y = p.y - b.radius ∧ (p.handleCollision b).2.radius = b.radius := by
  unfold Platform.handleCollision
  simp only [hp, Bool.false_eq_true, if_false]
  split_ifs <;> exact ⟨rfl, rfl⟩

/-- A loop over platforms whose unbroken members have their top edge at most `f` keeps the
lowest point of the ball at most `f`. -/
theorem checkPlatformCollisions_bottom (f : ℚ) (ps : List Platform)
    (hps : ∀ p ∈ ps, p.broken = false → p.y ≤ f) :
    ∀ b : Ball, b.y + b.radius ≤ f →
      (b.checkPlatformCollisions ps).1.y + (b.checkPlatformCollisions ps).1.radius ≤ f := by
  induction ps with
  | nil => intro b hb; exact hb
  | cons p ps ih =>
    intro b hb
    have ih' := ih (fun q hq => hps q (List.mem_cons_of_mem _ hq))
    by_cases hc : p.checkCollision b = true
    · have hp : p.broken = false := by
        cases hbr : p.broken with
        | false => rfl
        | true => simp [checkCollision_of_broken p b hbr] at hc
      obtain ⟨h1, h2⟩ := handleCollision_y_radius p b hp
      have := ih' (p.handleCollision b).2
        (by rw [h1, h2]; linarith [hps p (List.mem_cons_self _ _) hp])
      simpa [Ball.checkPlatformCollisions, hc] using this
    · simp only [Bool.not_eq_true] at hc
      simpa [Ball.checkPlatformCollisions, hc] using ih' b hb

/-- The floor block leaves the lowest point of the ball at most on the floor line, and
keeps the radius. -/
theorem floorCollision_bottom (env : Env) (w : Ball) (s : Sim) :
    (w.floorCollision env s).1.y + (w.floorCollision env s).1.radius
      ≤ env.canvas.height - 35 := by
  by_cases hf : w.y + w.radius > env.canvas.height - 35
  · rw [floorCollision_of_floor env w s hf]
    simp only
    rw [floorResponse_eq]
    simp
  · rw [floorCollision_of_above env w s hf]
    exact not_lt.mp hf

/-- C25. After an `update` of an active ball on a canvas with
`canvas.width ≥ 2 * radius`, `radius ≤ x ≤ canvas.width - radius`; and when every unbroken
platform has its top edge `y` at most `canvas.height - 35`, then after the update
`y + radius ≤ canvas.height - 35`. -/
theorem update_in_play_area (env : Env) (b : Ball) (s : Sim) (ha : b.active = true)
    (hW : env.canvas.width ≥ 2 * b.radius) :
    (b.radius ≤ (b.update env s).1.x ∧ (b.update env s).1.x ≤ env.canvas.width - b.radius) ∧
    ((∀ p ∈ s.platforms, p.broken = false → p.y ≤ env.canvas.height - 35) →
      (b.update env s).1.y + b.radius ≤ env.canvas.height - 35 ∧
      (b.update env s).1.radius = b.radius) := by
  constructor
  · have hx : (b.update env s).1.x = (b.integrate.wallCollisions env.canvas).x := by
      simp only [update_of_active env b s ha, checkPlatformCollisions_x, Ball.beforePlatforms,
        Ball.updateTrail, floorCollision_x]
    rw [hx, wallCollisions_x]
    have hr : b.integrate.radius = b.radius := rfl
    rw [hr]
    split_ifs <;> constructor <;> linarith
  · intro hps
    have hr : ∀ (ps : List Platform) (c : Ball),
        (c.checkPlatformCollisions ps).1.radius = c.radius := by
      intro ps
      induction ps with
      | nil => intro c; rfl
      | cons p ps ih =>
        intro c
        by_cases hc : p.checkCollision c = true
        · have hp : p.broken = false := by
            cases hbr : p.broken with
            | false => rfl
            | true => simp [checkCollision_of_broken p c hbr] at hc
          simp [Ball.checkPlatformCollisions, hc, ih, (handleCollision_y_radius p c hp).2]
        · simp only [Bool.not_eq_true] at hc
          simp [Ball.checkPlatformCollisions, hc, ih]
    have hbr : (b.beforePlatforms env s).1.radius = b.radius := by
      simp only [Ball.beforePlatforms, Ball.updateTrail]
      by_cases hf : (b.integrate.wallCollisions env.canvas).y
          + (b.integrate.wallCollisions env.canvas).radius > env.canvas.height - 35
      · rw [floorCollision_of_floor env _ s hf]
        simp only
        rw [floorResponse_eq, wallCollisions_eq]
        rfl
      · rw [floorCollision_of_above env _ s hf, wallCollisions_eq]
        rfl
    have hbot := checkPlatformCollisions_bottom (env.canvas.height - 35)
      (b.beforePlatforms env s).2.platforms
      (by rw [beforePlatforms_platforms]; exact hps) (b.beforePlatforms env s).1
      (floorCollision_bottom env _ s)
    have hrad : (b.update env s).1.radius = b.radius := by
      rw [update_of_active env b s ha]
      simp only
      rw [hr, hbr]
    refine ⟨?_, hrad⟩
    rw [← hrad]
    rw [update_of_active env b s ha]
    exact hbot

/-- Witness of C25: the light ball at `x = 20` moving left on the canvas of 800 by 600 is
back between the walls after its update. -/
theorem update_in_play_area_witness :
    sampleEnv.canvas.width ≥ 2 * ({ sampleBall "light" (-4) 0 with x := 20 } : Ball).radius ∧
    ({ sampleBall "light" (-4) 0 with x := 20 } : Ball).radius
      ≤ ({ sampleBall "light" (-4) 0 with x := 20 }.update sampleEnv Sim.initial).1.x :=
  have hW : sampleEnv.canvas.width
      ≥ 2 * ({ sampleBall "light" (-4) 0 with x := 20 } : Ball).radius := by decide!
  ⟨hW, (update_in_play_area sampleEnv { sampleBall "light" (-4) 0 with x := 20 } Sim.initial
    rfl hW).1.1⟩

/-! ## One tick of the scene of `createScene` -/

/-- The ball of a scene. -/
theorem scene_ball {env : Env} {w : String} {y vy : ℚ} {b1 b2 : Bool} {s : Sim}
    (hs : Scene env w y vy b1 b2 s) :
    ∃ b : Ball, s.balls = [b] ∧ b.y = y ∧ b.vy = vy ∧ b.vx = 0 ∧ b.radius = 30 ∧
      b.weight = w ∧ b.weightConfig = WEIGHT_SETTINGS w ∧ b.active = true := by
  obtain ⟨_, _, hb⟩ := hs
  match hbs : s.balls with
  | [] => rw [hbs] at hb; simp at hb
  | [b] =>
    rw [hbs] at hb
    simp only [List.map_cons, List.map_nil, Ball.summary, List.cons.injEq, Prod.mk.injEq,
      and_true] at hb
    exact ⟨b, rfl, hb.1, hb.2.1, hb.2.2.1, hb.2.2.2.1, hb.2.2.2.2.1, hb.2.2.2.2.2.1,
      hb.2.2.2.2.2.2⟩
  | b :: c :: rest => rw [hbs] at hb; simp at hb

/-- A tick of a running page with one ball. -/
theorem gameLoop_single (env : Env) (s : Sim) (b : Ball) (hr : s.isRunning = true)
    (hb : s.balls = [b]) :
    (gameLoop env s).isRunning = true ∧
    (gameLoop env s).balls = [(b.update env s).1] ∧
    (gameLoop env s).platforms = (b.update env s).2.platforms := by
  refine ⟨by rw [(gameLoop_frame env s).1, hr], ?_, ?_⟩ <;>
    simp only [gameLoop, hr, Bool.not_true, Bool.false_eq_true, if_false, hb, updateBalls,
      requestAnimationFrame]

/-- The position left by the wall block is such that a platform as wide as the canvas is
under the ball. -/
theorem wallCollisions_x_bounds (c : Canvas) (b : Ball) (hW : 0 ≤ c.width)
    (hr : 0 ≤ b.radius) :
    0 ≤ (b.wallCollisions c).x + b.radius ∧ (b.wallCollisions c).x - b.radius ≤ c.width := by
  rw [wallCollisions_x]
  split_ifs <;> constructor <;> linarith

/-- The ball of an `update` when the loop over the platforms starts, for a ball without
horizontal velocity that stays above the floor line. -/
theorem beforePlatforms_summary (env : Env) (b : Ball) (s : Sim) (hW : 0 ≤ env.canvas.width)
    (hr : 0 ≤ b.radius) (hvx : b.vx = 0)
    (hf : ¬ b.y + (b.vy + b.effectiveGravity) + b.radius > env.canvas.height - 35) :
    (b.beforePlatforms env s).1.summary =
      (b.y + (b.vy + b.effectiveGravity), (b.vy + b.effectiveGravity) * 0.98, 0, b.radius,
       b.weight, b.weightConfig, b.active) ∧
    0 ≤ (b.beforePlatforms env s).1.x + (b.beforePlatforms env s).1.radius ∧
    (b.beforePlatforms env s).1.x - (b.beforePlatforms env s).1.radius ≤ env.canvas.width := by
  have hw := wallCollisions_eq env.canvas b.integrate
  have hvx' : (b.integrate.wallCollisions env.canvas).vx = 0 :=
    wallCollisions_vx_zero env.canvas b.integrate (by rw [integrate_eq]; simp [hvx])
  have hxb := wallCollisions_x_bounds env.canvas b.integrate hW hr
  have hbp : (b.beforePlatforms env s).1 =
      { b.integrate with
        x := (b.integrate.wallCollisions env.canvas).x, vx := 0 }.updateTrail := by
    unfold Ball.beforePlatforms
    simp only
    rw [hw, hvx', floorCollision_of_above env _ s hf]
  rw [hbp]
  exact ⟨rfl, hxb.1, hxb.2⟩

/-- The test of a platform of the scene on a ball that the wall block has placed. -/
theorem checkCollision_scene (W yp : ℚ) (br : Bool) (c : Ball) (h1 : 0 ≤ c.x + c.radius)
    (h2 : c.x - c.radius ≤ W) :
    ({ x := 0, y := yp, width := W, height := 14, broken := br } : Platform).checkCollision c
        = true ↔
      (br = false ∧ c.vy > 0 ∧ c.y + c.radius ≥ yp ∧ c.y - c.radius ≤ yp + 14) := by
  simp only [Platform.checkCollision, Bool.and_eq_true, Bool.not_eq_true', decide_eq_true_eq,
    ge_iff_le, gt_iff_lt, zero_add]
  tauto

/-- The loop over two platforms when the first answers and the second does not answer
afterwards. -/
theorem checkPlatformCollisions_first (c : Ball) (p q : Platform)
    (hp : p.checkCollision c = true) (hq : q.checkCollision (p.handleCollision c).2 = false) :
    c.checkPlatformCollisions [p, q] = ((p.handleCollision c).2, [(p.handleCollision c).1, q]) := by
  simp [Ball.checkPlatformCollisions, hp, hq]

/-- The loop over two platforms when only the second answers. -/
theorem checkPlatformCollisions_second (c : Ball) (p q : Platform)
    (hp : p.checkCollision c = false) (hq : q.checkCollision c = true) :
    c.checkPlatformCollisions [p, q] = ((q.handleCollision c).2, [p, (q.handleCollision c).1]) := by
  simp [Ball.checkPlatformCollisions, hp, hq]

/-- The loop over two platforms when none answers. -/
theorem checkPlatformCollisions_none (c : Ball) (p q : Platform)
    (hp : p.checkCollision c = false) (hq : q.checkCollision c = false) :
    c.checkPlatformCollisions [p, q] = (c, [p, q]) := by
  simp [Ball.checkPlatformCollisions, hp, hq]

/-- A tick of a scene in which the ball stays above the floor line: the ball `c` that
enters the loop over the platforms, and the page after the loop. -/
theorem scene_tick {env : Env} {w : String} {y v : ℚ} {b1 b2 : Bool} {s : Sim}
    (hW : 0 ≤ env.canvas.width) (hs : Scene env w y v b1 b2 s) (g : ℚ)
    (hg : ∀ b : Ball, b.weightConfig = WEIGHT_SETTINGS w → b.effectiveGravity = g)
    (hf : ¬ y + (v + g) + 30 > env.canvas.height - 35) :
    ∃ c : Ball,
      c.summary = (y + (v + g), (v + g) * 0.98, 0, 30, w, WEIGHT_SETTINGS w, true) ∧
      0 ≤ c.x + c.radius ∧ c.x - c.radius ≤ env.canvas.width ∧
      (∀ b ∈ s.balls, (b.beforePlatforms env s).1 = c) ∧
      (gameLoop env s).isRunning = true ∧
      (gameLoop env s).balls = [(c.checkPlatformCollisions (scenePlatforms env b1 b2)).1] ∧
      (gameLoop env s).platforms = (c.checkPlatformCollisions (scenePlatforms env b1 b2)).2 := by
  obtain ⟨b, hb, hy, hv, hvx, hr, hw, hcfg, ha⟩ := scene_ball hs
  have hgb := hg b hcfg
  have hsum := beforePlatforms_summary env b s hW (by rw [hr]; norm_num) hvx
    (by rw [hy, hv, hgb, hr]; exact hf)
  obtain ⟨h1, h2, h3⟩ := gameLoop_single env s b hs.1 hb
  refine ⟨(b.beforePlatforms env s).1, ?_, hsum.2.1, hsum.2.2, ?_, h1, ?_, ?_⟩
  · rw [hsum.1, hy, hv, hgb, hr, hw, hcfg, ha]
  · intro b' hb'
    rw [hb] at hb'
    rw [List.mem_singleton.mp hb']
  · rw [h2, update_of_active env b s ha]
    simp only
    rw [beforePlatforms_platforms, hs.2.1]
  · rw [h3, update_of_active env b s ha]
    simp only
    rw [beforePlatforms_platforms, hs.2.1]

/-- The fields of a ball with a given summary. -/
theorem summary_fields {c : Ball} {y v vx r : ℚ} {w : String} {cfg : Option WeightConfig}
    {a : Bool} (h : c.summary = (y, v, vx, r, w, cfg, a)) :
    c.y = y ∧ c.vy = v ∧ c.vx = vx ∧ c.radius = r ∧ c.weight = w ∧ c.weightConfig = cfg ∧
      c.active = a := by
  simpa only [Ball.summary, Prod.mk.injEq] using h

/-- The effective gravity of a light ball built by the constructor. -/
theorem effectiveGravity_light (b : Ball) (hcfg : b.weightConfig = WEIGHT_SETTINGS "light") :
    b.effectiveGravity = 0.15 := by
  simp only [Ball.effectiveGravity, hcfg, WEIGHT_SETTINGS, PHYSICS_CONSTANTS]
  simp
  norm_num

/-- The effective gravity of a medium ball built by the constructor. -/
theorem effectiveGravity_medium (b : Ball) (hcfg : b.weightConfig = WEIGHT_SETTINGS "medium") :
    b.effectiveGravity = 0.3 := by
  simp only [Ball.effectiveGravity, hcfg, WEIGHT_SETTINGS, PHYSICS_CONSTANTS]
  simp
  norm_num

/-- The effective gravity of a heavy ball built by the constructor. -/
theorem effectiveGravity_heavy_cfg (b : Ball) (hcfg : b.weightConfig = WEIGHT_SETTINGS "heavy") :
    b.effectiveGravity = 0.45 := by
  simp only [Ball.effectiveGravity, hcfg, WEIGHT_SETTINGS, PHYSICS_CONSTANTS]
  simp
  norm_num

/-- A tick of a scene in which the ball stays above the floor line and no platform
answers: the ball is just integrated. -/
theorem scene_tick_free {env : Env} {w : String} {y v : ℚ} {b1 b2 : Bool} {s : Sim}
    (hW : 0 ≤ env.canvas.width) (hs : Scene env w y v b1 b2 s) (g : ℚ)
    (hg : ∀ b : Ball, b.weightConfig = WEIGHT_SETTINGS w → b.effectiveGravity = g)
    (hf : ¬ y + (v + g) + 30 > env.canvas.height - 35)
    (h1 : b1 = true ∨ (v + g) * 0.98 ≤ 0 ∨ y + (v + g) + 30 < 200 ∨ y + (v + g) - 30 > 214)
    (h2 : b2 = true ∨ (v + g) * 0.98 ≤ 0 ∨ y + (v + g) + 30 < 400 ∨ y + (v + g) - 30 > 414) :
    Scene env w (y + (v + g)) ((v + g) * 0.98) b1 b2 (gameLoop env s) ∧
    (∀ b ∈ s.balls, (b.beforePlatforms env s).1.collisionFires s.platforms = false) ∧
    (∀ b ∈ s.balls, (b.beforePlatforms env s).1.collisionsBreak s.platforms = true) := by
  obtain ⟨c, hsum, hx1, hx2, hc, hr, hb, hp⟩ := scene_tick hW hs g hg hf
  obtain ⟨cy, cvy, _, cr, _, _, _⟩ := summary_fields hsum
  have hp1 : ({ x := 0, y := 200, width := env.canvas.width, height := 14, broken := b1 }
      : Platform).checkCollision c = false := by
    rw [Bool.eq_false_iff]
    intro h
    have := (checkCollision_scene _ _ _ c hx1 hx2).mp h
    rw [cy, cvy, cr] at this
    rcases h1 with h | h | h | h
    · rw [h] at this; exact absurd this.1 (by decide)
    · linarith [this.2.1]
    · linarith [this.2.2.1]
    · linarith [this.2.2.2]
  have hp2 : ({ x := 0, y := 400, width := env.canvas.width, height := 14, broken := b2 }
      : Platform).checkCollision c = false := by
    rw [Bool.eq_false_iff]
    intro h
    have := (checkCollision_scene _ _ _ c hx1 hx2).mp h
    rw [cy, cvy, cr] at this
    rcases h2 with h | h | h | h
    · rw [h] at this; exact absurd this.1 (by decide)
    · linarith [this.2.1]
    · linarith [this.2.2.1]
    · linarith [this.2.2.2]
  have hloop := checkPlatformCollisions_none c _ _ hp1 hp2
  refine ⟨⟨hr, ?_, ?_⟩, fun b hbm => ?_, fun b hbm => ?_⟩
  · rw [hp]; simp only [scenePlatforms]; rw [hloop]
  · rw [hb]; simp only [scenePlatforms]; rw [hloop]
    simp only [List.map_cons, List.map_nil, hsum]
  · rw [hc b hbm, hs.2.1]
    simp [scenePlatforms, Ball.collisionFires, hp1, hp2]
  · rw [hc b hbm, hs.2.1]
    simp [scenePlatforms, Ball.collisionsBreak, hp1, hp2]

/-- A platform whose top edge is below the lowest point of the ball does not answer. -/
theorem checkCollision_of_above (p : Platform) (b : Ball) (h : b.y + b.radius < p.y) :
    p.checkCollision b = false := by
  have h' : ¬ (p.y ≤ b.y + b.radius) := not_le.mpr h
  simp [Platform.checkCollision, h']

/-- A tick of a scene in which the ball stays above the floor line and reaches the first
platform, unbroken, while moving down: the first platform handles the ball `c` that enters
the loop, and the second does not answer afterwards. -/
theorem scene_tick_hit1 {env : Env} {w : String} {y v : ℚ} {b2 : Bool} {s : Sim}
    (hW : 0 ≤ env.canvas.width) (hs : Scene env w y v false b2 s) (g : ℚ)
    (hg : ∀ b : Ball, b.weightConfig = WEIGHT_SETTINGS w → b.effectiveGravity = g)
    (hf : ¬ y + (v + g) + 30 > env.canvas.height - 35)
    (hv : (v + g) * 0.98 > 0) (h1 : y + (v + g) + 30 ≥ 200) (h2 : y + (v + g) - 30 ≤ 214) :
    ∃ c : Ball,
      c.summary = (y + (v + g), (v + g) * 0.98, 0, 30, w, WEIGHT_SETTINGS w, true) ∧
      (∀ b ∈ s.balls, (b.beforePlatforms env s).1 = c) ∧
      (gameLoop env s).isRunning = true ∧
      (gameLoop env s).balls =
        [(({ x := 0, y := 200, width := env.canvas.width, height := 14, broken := false }
            : Platform).handleCollision c).2] ∧
      (gameLoop env s).platforms =
        [(({ x := 0, y := 200, width := env.canvas.width, height := 14, broken := false }
            : Platform).handleCollision c).1,
         { x := 0, y := 400, width := env.canvas.width, height := 14, broken := b2 }] ∧
      c.collisionsBreak (scenePlatforms env false b2) = decide (|c.vy| * c.mass > 3.0) := by
  obtain ⟨c, hsum, hx1, hx2, hc, hr, hb, hp⟩ := scene_tick hW hs g hg hf
  obtain ⟨cy, cvy, _, cr, _, _, _⟩ := summary_fields hsum
  have hp1 : ({ x := 0, y := 200, width := env.canvas.width, height := 14, broken := false }
      : Platform).checkCollision c = true := by
    rw [checkCollision_scene _ _ _ c hx1 hx2, cy, cvy, cr]
    exact ⟨rfl, hv, h1, by linarith⟩
  have hyr := handleCollision_y_radius
    ({ x := 0, y := 200, width := env.canvas.width, height := 14, broken := false } : Platform)
    c rfl
  have hp2 : ({ x := 0, y := 400, width := env.canvas.width, height := 14, broken := b2 }
      : Platform).checkCollision
      (({ x := 0, y := 200, width := env.canvas.width, height := 14, broken := false }
        : Platform).handleCollision c).2 = false := by
    apply checkCollision_of_above
    rw [hyr.1, hyr.2, cr]
    norm_num
  have hloop := checkPlatformCollisions_first c _ _ hp1 hp2
  refine ⟨c, hsum, hc, hr, ?_, ?_, ?_⟩
  · rw [hb]; simp only [scenePlatforms]; rw [hloop]
  · rw [hp]; simp only [scenePlatforms]; rw [hloop]
  · simp [scenePlatforms, Ball.collisionsBreak, hp1, hp2]

/-- A tick of a scene in which the ball stays above the floor line, the first platform is
broken and the ball reaches the second platform, unbroken, while moving down. -/
theorem scene_tick_hit2 {env : Env} {w : String} {y v : ℚ} {s : Sim}
    (hW : 0 ≤ env.canvas.width) (hs : Scene env w y v true false s) (g : ℚ)
    (hg : ∀ b : Ball, b.weightConfig = WEIGHT_SETTINGS w → b.effectiveGravity = g)
    (hf : ¬ y + (v + g) + 30 > env.canvas.height - 35)
    (hv : (v + g) * 0.98 > 0) (h1 : y + (v + g) + 30 ≥ 400) (h2 : y + (v + g) - 30 ≤ 414) :
    ∃ c : Ball,
      c.summary = (y + (v + g), (v + g) * 0.98, 0, 30, w, WEIGHT_SETTINGS w, true) ∧
      (∀ b ∈ s.balls, (b.beforePlatforms env s).1 = c) ∧
      (gameLoop env s).isRunning = true ∧
      (gameLoop env s).balls =
        [(({ x := 0, y := 400, width := env.canvas.width, height := 14, broken := false }
            : Platform).handleCollision c).2] ∧
      (gameLoop env s).platforms =
        [{ x := 0, y := 200, width := env.canvas.width, height := 14, broken := true },
         (({ x := 0, y := 400, width := env.canvas.width, height := 14, broken := false }
            : Platform).handleCollision c).1] ∧
      c.collisionsBreak (scenePlatforms env true false) = decide (|c.vy| * c.mass > 3.0) := by
  obtain ⟨c, hsum, hx1, hx2, hc, hr, hb, hp⟩ := scene_tick hW hs g hg hf
  obtain ⟨cy, cvy, _, cr, _, _, _⟩ := summary_fields hsum
  have hp1 : ({ x := 0, y := 200, width := env.canvas.width, height := 14, broken := true }
      : Platform).checkCollision c = false := checkCollision_of_broken _ _ rfl
  have hp2 : ({ x := 0, y := 400, width := env.canvas.width, height := 14, broken := false }
      : Platform).checkCollision c = true := by
    rw [checkCollision_scene _ _ _ c hx1 hx2, cy, cvy, cr]
    exact ⟨rfl, hv, h1, by linarith⟩
  have hloop := checkPlatformCollisions_second c _ _ hp1 hp2
  refine ⟨c, hsum, hc, hr, ?_, ?_, ?_⟩
  · rw [hb]; simp only [scenePlatforms]; rw [hloop]
  · rw [hp]; simp only [scenePlatforms]; rw [hloop]
  · simp [scenePlatforms, Ball.collisionsBreak, hp1, hp2]

/-- A ball that is not moving down meets no `handleCollision` call. -/
theorem collisionsBreak_of_vy_nonpos (b : Ball) (h : b.vy ≤ 0) (ps : List Platform) :
    b.collisionsBreak ps = true := by
  induction ps with
  | nil => rfl
  | cons p ps ih => simp [Ball.collisionsBreak, checkCollision_of_vy_nonpos p b h, ih]

/-- A tick of a scene with a heavy ball in which the floor test is true: the ball stops on
the floor and no platform answers. -/
theorem scene_tick_heavy_floor {env : Env} {y v : ℚ} {b1 b2 : Bool} {s : Sim}
    (hs : Scene env "heavy" y v b1 b2 s)
    (hf : y + (v + 0.45) + 30 > env.canvas.height - 35) :
    Scene env "heavy" (env.canvas.height - 35 - 30) 0 b1 b2 (gameLoop env s) ∧
    (∀ b ∈ s.balls, (b.beforePlatforms env s).1.collisionsBreak s.platforms = true) := by
  obtain ⟨b, hb, hy, hv, hvx, hr, hw, hcfg, ha⟩ := scene_ball hs
  have hg := effectiveGravity_heavy_cfg b hcfg
  have hfb : b.integrate.y + b.integrate.radius > env.canvas.height - 35 := by
    rw [integrate_eq]
    simp only [hy, hv, hg, hr]
    exact hf
  have hu := heavy_update_of_floor env b s hw ha hfb
  obtain ⟨h1, h2, h3⟩ := gameLoop_single env s b hs.1 hb
  refine ⟨⟨h1, ?_, ?_⟩, fun b' hb' => ?_⟩
  · rw [h3, hu]; exact hs.2.1
  · rw [h2, hu]
    simp only [List.map_cons, List.map_nil, Ball.summary, Ball.updateTrail, integrate_eq, hr, hw,
      hcfg, ha]
  · rw [hb] at hb'
    rw [List.mem_singleton.mp hb']
    apply collisionsBreak_of_vy_nonpos
    have hvy : (b.beforePlatforms env s).1.vy = 0 := by
      unfold Ball.beforePlatforms
      simp only
      rw [floorCollision_heavy env _ s (by rw [wallCollisions_eq]; exact hw)
        (by rw [wallCollisions_eq]; exact hfb)]
      rfl
    rw [hvy]

/-- A tick of a scene in which a heavy ball reaches the first platform fast enough: the
platform breaks and the ball goes on with `0.6` of its velocity. -/
theorem scene_tick_heavy_hit1 {env : Env} {y v : ℚ} {b2 : Bool} {s : Sim}
    (hW : 0 ≤ env.canvas.width) (hs : Scene env "heavy" y v false b2 s)
    (hf : ¬ y + (v + 0.45) + 30 > env.canvas.height - 35)
    (hv : (v + 0.45) * 0.98 > 0) (h1 : y + (v + 0.45) + 30 ≥ 200)
    (h2 : y + (v + 0.45) - 30 ≤ 214) (hi : (v + 0.45) * 0.98 * 2.2 > 3.0) :
    Scene env "heavy" 170 ((v + 0.45) * 0.98 * 0.6) true b2 (gameLoop env s) ∧
    (∀ b ∈ s.balls, (b.beforePlatforms env s).1.collisionsBreak s.platforms = true) := by
  obtain ⟨c, hsum, hc, hr, hb, hp, hcb⟩ := scene_tick_hit1 hW hs 0.45
    (fun b h => effectiveGravity_heavy_cfg b h) hf hv h1 h2
  obtain ⟨cy, cvy, cvx, cr, cw, ccfg, ca⟩ := summary_fields hsum
  have habs : |c.vy| * 2.2 > 3.0 := by rw [cvy, abs_of_pos hv]; exact hi
  have hh := heavy_handleCollision_break
    ({ x := 0, y := 200, width := env.canvas.width, height := 14, broken := false } : Platform)
    c cw ccfg rfl habs
  rw [hh] at hb hp
  refine ⟨⟨hr, ?_, ?_⟩, fun b hbm => ?_⟩
  · rw [hp]; rfl
  · rw [hb]
    simp only [List.map_cons, List.map_nil, Ball.summary, cvy, cvx, cr, cw, ccfg, ca]
    norm_num
  · rw [hc b hbm, hs.2.1, hcb]
    have hm : c.mass = 2.2 := by
      simp only [Ball.mass, ccfg, WEIGHT_SETTINGS]
      simp
    rw [hm]
    exact decide_eq_true habs

/-- A tick of a scene in which a heavy ball reaches the second platform fast enough. -/
theorem scene_tick_heavy_hit2 {env : Env} {y v : ℚ} {s : Sim}
    (hW : 0 ≤ env.canvas.width) (hs : Scene env "heavy" y v true false s)
    (hf : ¬ y + (v + 0.45) + 30 > env.canvas.height - 35)
    (hv : (v + 0.45) * 0.98 > 0) (h1 : y + (v + 0.45) + 30 ≥ 400)
    (h2 : y + (v + 0.45) - 30 ≤ 414) (hi : (v + 0.45) * 0.98 * 2.2 > 3.0) :
    Scene env "heavy" 370 ((v + 0.45) * 0.98 * 0.6) true true (gameLoop env s) ∧
    (∀ b ∈ s.balls, (b.beforePlatforms env s).1.collisionsBreak s.platforms = true) := by
  obtain ⟨c, hsum, hc, hr, hb, hp, hcb⟩ := scene_tick_hit2 hW hs 0.45
    (fun b h => effectiveGravity_heavy_cfg b h) hf hv h1 h2
  obtain ⟨cy, cvy, cvx, cr, cw, ccfg, ca⟩ := summary_fields hsum
  have habs : |c.vy| * 2.2 > 3.0 := by rw [cvy, abs_of_pos hv]; exact hi
  have hh := heavy_handleCollision_break
    ({ x := 0, y := 400, width := env.canvas.width, height := 14, broken := false } : Platform)
    c cw ccfg rfl habs
  rw [hh] at hb hp
  refine ⟨⟨hr, ?_, ?_⟩, fun b hbm => ?_⟩
  · rw [hp]; rfl
  · rw [hb]
    simp only [List.map_cons, List.map_nil, Ball.summary, cvy, cvx, cr, cw, ccfg, ca]
    norm_num
  · rw [hc b hbm, hs.2.1, hcb]
    have hm : c.mass = 2.2 := by
      simp only [Ball.mass, ccfg, WEIGHT_SETTINGS]
      simp
    rw [hm]
    exact decide_eq_true habs

/-! ## The run of the heavy ball -/

/-- One tick of a falling heavy ball: every `handleCollision` call of the tick breaks its
platform; either the floor test is true and the ball comes to rest on the floor, or the
ball is still falling afterwards, and its distance to the floor plus `0.45` for each
unbroken platform has gone down by at least `0.45`. -/
theorem heavy_step {env : Env} {y v : ℚ} {b1 b2 : Bool} {s : Sim}
    (hW : 0 ≤ env.canvas.width) (hs : Scene env "heavy" y v b1 b2 s)
    (hfall : heavyFalling y v b1 b2) :
    (∀ b ∈ s.balls, (b.beforePlatforms env s).1.collisionsBreak s.platforms = true) ∧
    ((Scene env "heavy" (env.canvas.height - 35 - 30) 0 b1 b2 (gameLoop env s) ∧
        heavyResting env (env.canvas.height - 35 - 30) 0 b1 b2) ∨
     (∃ (y' v' : ℚ) (b1' b2' : Bool),
        Scene env "heavy" y' v' b1' b2' (gameLoop env s) ∧ heavyFalling y' v' b1' b2' ∧
        (env.canvas.height - 35 - 30 - y') + 0.45 * ((if b1' then 0 else 1) + (if b2' then 0 else 1))
          ≤ (env.canvas.height - 35 - 30 - y) + 0.45 * ((if b1 then 0 else 1) + (if b2 then 0 else 1))
            - 0.45 ∧
        y' ≤ env.canvas.height - 35 - 30 ∧
        (b1 = true → b1' = true) ∧ (b2 = true → b2' = true))) := by
  obtain ⟨hv1, hv2, hA, hB⟩ := hfall
  have hvf1 : (v + 0.45) * 0.98 ≥ 0.2 := by linarith
  have hvf2 : (v + 0.45) * 0.98 ≤ 22.05 := by linarith
  have hvpos : (v + 0.45) * 0.98 > 0 := by linarith
  have hgh : ∀ b : Ball, b.weightConfig = WEIGHT_SETTINGS "heavy" → b.effectiveGravity = 0.45 :=
    fun b h => effectiveGravity_heavy_cfg b h
  by_cases hf : y + (v + 0.45) + 30 > env.canvas.height - 35
  · -- the floor test is true
    obtain ⟨h1, h2⟩ := scene_tick_heavy_floor hs hf
    refine ⟨h2, Or.inl ⟨h1, rfl, rfl, fun hb1 => ?_, fun hb2 => ?_⟩⟩
    · have := (hA hb1).2.1
      linarith
    · cases hb : b1 with
      | false =>
        have := (hA hb).2.1
        linarith
      | true =>
        have := (hB hb hb2).1
        linarith
  · cases hb1 : b1 with
    | false =>
      obtain ⟨hb2, hy, hd⟩ := hA hb1
      subst hb1 hb2
      by_cases hc : y + (v + 0.45) + 30 ≥ 200
      · -- contact with the first platform
        have hv : 1 ≤ v := by
          rcases hd with hd | hd
          · exact hd
          · by_contra hlt
            push_neg at hlt
            linarith
        obtain ⟨h1, h2⟩ := scene_tick_heavy_hit1 hW hs hf hvpos hc (by linarith) (by linarith)
        refine ⟨h2, Or.inr ⟨170, (v + 0.45) * 0.98 * 0.6, true, false, h1,
          ⟨by linarith, by linarith, fun h => absurd h (by decide),
            fun _ _ => ⟨by norm_num, Or.inr (by linarith)⟩⟩, ?_, by linarith,
          fun h => absurd h (by decide), fun h => absurd h (by decide)⟩⟩
        simp only [if_true, Bool.false_eq_true, if_false]
        linarith
      · -- free fall above the first platform
        push_neg at hc
        obtain ⟨h1, _, h3⟩ := scene_tick_free hW hs 0.45 hgh hf
          (Or.inr (Or.inr (Or.inl hc))) (Or.inr (Or.inr (Or.inl (by linarith))))
        refine ⟨h3, Or.inr ⟨y + (v + 0.45), (v + 0.45) * 0.98, false, false, h1,
          ⟨hvf1, hvf2, fun _ => ⟨rfl, by linarith, ?_⟩, fun h => absurd h (by decide)⟩, ?_,
          by linarith, fun h => absurd h (by decide), fun h => absurd h (by decide)⟩⟩
        · rcases hd with hd | hd
          · exact Or.inl (by linarith)
          · by_cases hv : 1 ≤ v
            · exact Or.inl (by linarith)
            · push_neg at hv
              exact Or.inr (by linarith)
        · simp only [Bool.false_eq_true, if_false]
          linarith
    | true =>
      cases hb2 : b2 with
      | false =>
        obtain ⟨hy, hd⟩ := hB hb1 hb2
        subst hb1 hb2
        by_cases hc : y + (v + 0.45) + 30 ≥ 400
        · -- contact with the second platform
          have hv : 1 ≤ v := by
            rcases hd with hd | hd
            · exact hd
            · by_contra hlt
              push_neg at hlt
              linarith
          obtain ⟨h1, h2⟩ := scene_tick_heavy_hit2 hW hs hf hvpos hc (by linarith) (by linarith)
          refine ⟨h2, Or.inr ⟨370, (v + 0.45) * 0.98 * 0.6, true, true, h1,
            ⟨by linarith, by linarith, fun h => absurd h (by decide),
              fun _ h => absurd h (by decide)⟩, ?_, by linarith, fun _ => rfl,
            fun h => absurd h (by decide)⟩⟩
          simp only [if_true, Bool.false_eq_true, if_false]
          linarith
        · -- free fall between the platforms
          push_neg at hc
          obtain ⟨h1, _, h3⟩ := scene_tick_free hW hs 0.45 hgh hf
            (Or.inl rfl) (Or.inr (Or.inr (Or.inl hc)))
          refine ⟨h3, Or.inr ⟨y + (v + 0.45), (v + 0.45) * 0.98, true, false, h1,
            ⟨hvf1, hvf2, fun h => absurd h (by decide), fun _ _ => ⟨by linarith, ?_⟩⟩, ?_,
            by linarith, fun _ => rfl, fun h => absurd h (by decide)⟩⟩
          · rcases hd with hd | hd
            · exact Or.inl (by linarith)
            · by_cases hv : 1 ≤ v
              · exact Or.inl (by linarith)
              · push_neg at hv
                exact Or.inr (by linarith)
          · simp only [if_true, Bool.false_eq_true, if_false]
            linarith
      | true =>
        subst hb1 hb2
        -- free fall below both platforms
        obtain ⟨h1, _, h3⟩ := scene_tick_free hW hs 0.45 hgh hf (Or.inl rfl) (Or.inl rfl)
        refine ⟨h3, Or.inr ⟨y + (v + 0.45), (v + 0.45) * 0.98, true, true, h1,
          ⟨hvf1, hvf2, fun h => absurd h (by decide), fun _ h => absurd h (by decide)⟩, ?_,
          by linarith, fun _ => rfl, fun _ => rfl⟩⟩
        simp only [if_true]
        linarith

/-- One tick of a heavy ball at rest on the floor: it stays at rest, and no
`handleCollision` call is made. -/
theorem heavy_rest_step {env : Env} {y v : ℚ} {b1 b2 : Bool} {s : Sim}
    (hs : Scene env "heavy" y v b1 b2 s) (hrest : heavyResting env y v b1 b2) :
    (∀ b ∈ s.balls, (b.beforePlatforms env s).1.collisionsBreak s.platforms = true) ∧
    Scene env "heavy" (env.canvas.height - 35 - 30) 0 b1 b2 (gameLoop env s) ∧
    heavyResting env (env.canvas.height - 35 - 30) 0 b1 b2 := by
  obtain ⟨hy, hv, h1, h2⟩ := hrest
  obtain ⟨a1, a2⟩ := scene_tick_heavy_floor hs (by rw [hy, hv]; linarith)
  exact ⟨a2, a1, rfl, rfl, h1, h2⟩

/-- The run of the heavy ball goes on with every tick, and every `handleCollision` call of
a tick breaks its platform. -/
theorem heavyRun_step {env : Env} {s : Sim} (hW : 0 ≤ env.canvas.width)
    (h : HeavyRun env s) :
    HeavyRun env (gameLoop env s) ∧
    (∀ b ∈ s.balls, (b.beforePlatforms env s).1.collisionsBreak s.platforms = true) := by
  obtain ⟨y, v, b1, b2, hs, hfall | hrest⟩ := h
  · obtain ⟨hc, h | ⟨y', v', b1', b2', h1, h2, _⟩⟩ := heavy_step hW hs hfall
    · exact ⟨⟨_, _, _, _, h.1, Or.inr h.2⟩, hc⟩
    · exact ⟨⟨_, _, _, _, h1, Or.inl h2⟩, hc⟩
  · obtain ⟨hc, h1, h2⟩ := heavy_rest_step hs hrest
    exact ⟨⟨_, _, _, _, h1, Or.inr h2⟩, hc⟩

/-- The run of the heavy ball goes on for any number of ticks. -/
theorem heavyRun_ticks {env : Env} (hW : 0 ≤ env.canvas.width) (n : Nat) :
    ∀ s : Sim, HeavyRun env s → HeavyRun env (ticks env n s) := by
  induction n with
  | zero => intro s h; exact h
  | succ n ih => intro s h; exact ih _ (heavyRun_step hW h).1

/-- A falling heavy ball is at rest on the floor after finitely many ticks. -/
theorem heavy_reaches_floor {env : Env} (hW : 0 ≤ env.canvas.width) (m : Nat) :
    ∀ (s : Sim) (y v : ℚ) (b1 b2 : Bool), Scene env "heavy" y v b1 b2 s →
      heavyFalling y v b1 b2 →
      (env.canvas.height - 35 - 30 - y) + 0.45 * ((if b1 then 0 else 1) + (if b2 then 0 else 1))
        ≤ 0.45 * m →
      ∃ (n : Nat) (b1' b2' : Bool),
        Scene env "heavy" (env.canvas.height - 35 - 30) 0 b1' b2' (ticks env (n + 1) s) ∧
        heavyResting env (env.canvas.height - 35 - 30) 0 b1' b2' := by
  induction m with
  | zero =>
    intro s y v b1 b2 hs hfall hm
    obtain ⟨_, h | ⟨y', v', b1', b2', _, _, hpot, hy', _⟩⟩ := heavy_step hW hs hfall
    · exact ⟨0, b1, b2, h.1, h.2⟩
    · exfalso
      have h0 : (0 : ℚ) ≤ 0.45 * ((if b1' then 0 else 1) + (if b2' then 0 else 1)) := by
        cases b1' <;> cases b2' <;> norm_num
      simp only [Nat.cast_zero, mul_zero] at hm
      linarith
  | succ m ih =>
    intro s y v b1 b2 hs hfall hm
    obtain ⟨_, h | ⟨y', v', b1', b2', hs', hfall', hpot, _, _⟩⟩ := heavy_step hW hs hfall
    · exact ⟨0, b1, b2, h.1, h.2⟩
    · have hm' : (env.canvas.height - 35 - 30 - y')
          + 0.45 * ((if b1' then 0 else 1) + (if b2' then 0 else 1)) ≤ 0.45 * m := by
        push_cast at hm
        linarith
      obtain ⟨n, c1, c2, hn, hr⟩ := ih _ y' v' b1' b2' hs' hfall' hm'
      exact ⟨n + 1, c1, c2, hn, hr⟩

/-! ## The run of the light and of the medium ball -/

/-- A tick of a scene in which a medium ball reaches the first platform: it stops there. -/
theorem scene_tick_medium_hit1 {env : Env} {y v : ℚ} {b2 : Bool} {s : Sim}
    (hW : 0 ≤ env.canvas.width) (hs : Scene env "medium" y v false b2 s)
    (hf : ¬ y + (v + 0.3) + 30 > env.canvas.height - 35)
    (hv : (v + 0.3) * 0.98 > 0) (h1 : y + (v + 0.3) + 30 ≥ 200)
    (h2 : y + (v + 0.3) - 30 ≤ 214) :
    Scene env "medium" 170 0 false b2 (gameLoop env s) := by
  obtain ⟨c, hsum, _, hr, hb, hp, _⟩ := scene_tick_hit1 hW hs 0.3
    (fun b h => effectiveGravity_medium b h) hf hv h1 h2
  obtain ⟨cy, cvy, cvx, cr, cw, ccfg, ca⟩ := summary_fields hsum
  rw [medium_handleCollision_eq _ c cw rfl] at hb hp
  refine ⟨hr, ?_, ?_⟩
  · rw [hp]; rfl
  · rw [hb]
    simp only [List.map_cons, List.map_nil, Ball.summary, cr, cw, ccfg, ca]
    norm_num

/-- A tick of a scene in which a light ball reaches the first platform: it bounces back
with `0.7` of its velocity, or stops when that is less than `1`. -/
theorem scene_tick_light_hit1 {env : Env} {y v : ℚ} {b2 : Bool} {s : Sim}
    (hW : 0 ≤ env.canvas.width) (hs : Scene env "light" y v false b2 s)
    (hf : ¬ y + (v + 0.15) + 30 > env.canvas.height - 35)
    (hv : (v + 0.15) * 0.98 > 0) (h1 : y + (v + 0.15) + 30 ≥ 200)
    (h2 : y + (v + 0.15) - 30 ≤ 214) :
    Scene env "light" 170
      (if |(v + 0.15) * 0.98 * -0.7| < 1.0 then 0 else (v + 0.15) * 0.98 * -0.7)
      false b2 (gameLoop env s) := by
  obtain ⟨c, hsum, _, hr, hb, hp, _⟩ := scene_tick_hit1 hW hs 0.15
    (fun b h => effectiveGravity_light b h) hf hv h1 h2
  obtain ⟨cy, cvy, cvx, cr, cw, ccfg, ca⟩ := summary_fields hsum
  rw [light_handleCollision_eq _ c cw rfl] at hb hp
  refine ⟨hr, ?_, ?_⟩
  · rw [hp]; rfl
  · rw [hb, cvy]
    split_ifs <;>
      (simp only [List.map_cons, List.map_nil, Ball.summary, cvx, cr, cw, ccfg, ca]; norm_num)

/-- The run of a light or medium ball goes on with every tick, when the floor line is at
`209` or lower. -/
theorem gentleRun_step {env : Env} {w : String} {g : ℚ} {s : Sim}
    (hW : 0 ≤ env.canvas.width) (hF : 209 ≤ env.canvas.height - 35)
    (hwg : (w = "light" ∧ g = 0.15) ∨ (w = "medium" ∧ g = 0.3))
    (h : GentleRun env w g s) : GentleRun env w g (gameLoop env s) := by
  obtain ⟨y, v, hs, hy, hE⟩ := h
  have hg1 : 0.15 ≤ g := by rcases hwg with h | h <;> norm_num [h.2]
  have hg2 : g ≤ 0.3 := by rcases hwg with h | h <;> norm_num [h.2]
  have hgw : ∀ b : Ball, b.weightConfig = WEIGHT_SETTINGS w → b.effectiveGravity = g := by
    rcases hwg with h | h
    · rw [h.1, h.2]; exact fun b hb => effectiveGravity_light b hb
    · rw [h.1, h.2]; exact fun b hb => effectiveGravity_medium b hb
  -- the velocity is bounded
  have hv2 : v ^ 2 ≤ 60.04 := by nlinarith
  have hvu : v ≤ 7.75 := by nlinarith
  have hvl : -7.75 ≤ v := by nlinarith
  have hf : ¬ y + (v + g) + 30 > env.canvas.height - 35 := by
    push_neg
    linarith
  -- the bound on the velocity goes over to the integrated ball
  have hE' : ((v + g) * 0.98) ^ 2 ≤ 2 * g * (y + (v + g) - 70) + 0.04 := by
    nlinarith [sq_nonneg (v + g), sq_nonneg g]
  by_cases hc : (v + g) * 0.98 > 0 ∧ y + (v + g) + 30 ≥ 200
  · -- contact with the first platform
    obtain ⟨hv, h1⟩ := hc
    rcases hwg with h | h
    · obtain ⟨rfl, rfl⟩ := h
      have h170 : v ^ 2 ≤ 30.04 := by nlinarith
      have hu : v ≤ 5.49 := by nlinarith
      refine ⟨170, _, scene_tick_light_hit1 hW hs hf hv h1 (by linarith), le_refl _, ?_⟩
      split_ifs
      · norm_num
      · nlinarith
    · obtain ⟨rfl, rfl⟩ := h
      exact ⟨170, 0, scene_tick_medium_hit1 hW hs hf hv h1 (by linarith), le_refl _,
        by norm_num⟩
  · -- no platform answers
    have hc' : (v + g) * 0.98 ≤ 0 ∨ y + (v + g) + 30 < 200 := by
      by_contra hn
      push_neg at hn
      exact hc ⟨hn.1, hn.2⟩
    have h1 := (scene_tick_free hW hs g hgw hf
      (by rcases hc' with h | h
          · exact Or.inr (Or.inl h)
          · exact Or.inr (Or.inr (Or.inl h)))
      (Or.inr (Or.inr (Or.inl (by linarith))))).1
    refine ⟨_, _, h1, ?_, hE'⟩
    rcases hc' with h | h
    · have : v + g ≤ 0 := by
        by_contra hn
        push_neg at hn
        nlinarith
      linarith
    · linarith

/-- The run of a light or medium ball goes on for any number of ticks. -/
theorem gentleRun_ticks {env : Env} {w : String} {g : ℚ}
    (hW : 0 ≤ env.canvas.width) (hF : 209 ≤ env.canvas.height - 35)
    (hwg : (w = "light" ∧ g = 0.15) ∨ (w = "medium" ∧ g = 0.3)) (n : Nat) :
    ∀ s : Sim, GentleRun env w g s → GentleRun env w g (ticks env n s) := by
  induction n with
  | zero => intro s h; exact h
  | succ n ih => intro s h; exact ih _ (gentleRun_step hW hF hwg h)

/-- The page on return from `startSequence` on the scene `createScene` has just built is
one tick after the scene with the ball at `y = 70`, `vy = 0.2`, both platforms unbroken. -/
theorem startSequence_createScene (env : Env) (s0 : Sim) (w : String)
    (hr : s0.isRunning = false) (hw : s0.currentWeight = w) :
    ∃ s1 : Sim, Scene env w 70 0.2 false false s1 ∧
      afterCall (startSequence env (createScene env s0)) = gameLoop env s1 := by
  refine ⟨{ createScene env s0 with
      isRunning := true,
      balls := [{ Ball.new (env.canvas.width * 0.5) 70 30 "granite" w with vy := 0.2 }] },
    ⟨rfl, rfl, rfl⟩, ?_⟩
  simp only [startSequence, createScene, hr, hw, Bool.false_eq_true, if_false, afterCall,
    List.map_cons, List.map_nil, Platform.new, Ball.new]

/-! ## Whole runs from `startSequence` -/

/-- Ticks after ticks. -/
theorem ticks_add (env : Env) (n k : Nat) :
    ∀ s : Sim, ticks env (n + k) s = ticks env k (ticks env n s) := by
  induction n with
  | zero => intro s; simp [ticks]
  | succ n ih =>
    intro s
    rw [Nat.succ_add]
    simp only [ticks]
    exact ih _

/-- The position and the velocity of the ball of a scene. -/
theorem scene_position {env : Env} {w : String} {y v : ℚ} {b1 b2 : Bool} {s : Sim}
    (hs : Scene env w y v b1 b2 s) :
    s.balls.map (fun b => (b.y, b.vx, b.vy)) = [(y, 0, v)] := by
  obtain ⟨b, hb, hy, hv, hvx, _⟩ := scene_ball hs
  rw [hb]
  simp only [List.map_cons, List.map_nil, hy, hv, hvx]

/-- A heavy ball at rest on the floor stays there for any number of ticks. -/
theorem heavy_rest_ticks {env : Env} {b1 b2 : Bool} (k : Nat) :
    ∀ s : Sim, Scene env "heavy" (env.canvas.height - 35 - 30) 0 b1 b2 s →
      heavyResting env (env.canvas.height - 35 - 30) 0 b1 b2 →
      Scene env "heavy" (env.canvas.height - 35 - 30) 0 b1 b2 (ticks env k s) := by
  induction k with
  | zero => intro s hs _; exact hs
  | succ k ih =>
    intro s hs hr
    exact ih _ (heavy_rest_step hs hr).2.1 hr

/-- The scene that `startSequence` starts is the start of a run of the heavy ball. -/
theorem heavyRun_start {env : Env} {s1 : Sim} (hs : Scene env "heavy" 70 0.2 false false s1) :
    heavyFalling 70 0.2 false false ∧ HeavyRun env s1 := by
  have hf : heavyFalling 70 0.2 false false :=
    ⟨le_refl _, by norm_num, fun _ => ⟨rfl, by norm_num, Or.inr (by norm_num)⟩,
      fun h => absurd h (by decide)⟩
  exact ⟨hf, 70, 0.2, false, false, hs, Or.inl hf⟩

/-- The velocity of the ball is never negative in a run of the heavy ball. -/
theorem heavyRun_vy {env : Env} {s : Sim} (h : HeavyRun env s) : ∀ b ∈ s.balls, 0 ≤ b.vy := by
  obtain ⟨y, v, b1, b2, hs, hc⟩ := h
  obtain ⟨b, hb, _, hv, _⟩ := scene_ball hs
  intro b' hb'
  rw [hb] at hb'
  rw [List.mem_singleton.mp hb', hv]
  rcases hc with hc | hc
  · linarith [hc.1]
  · rw [hc.2.1]

/-! ## The light and the medium ball, tick by tick -/

/-- Ticks, the last one apart. -/
theorem ticks_succ_last (env : Env) (n : Nat) (s : Sim) :
    ticks env (n + 1) s = gameLoop env (ticks env n s) := by
  rw [ticks_add]
  rfl

/-- What `staysAbove` says about each of the ticks it looks at. -/
theorem staysAbove_ticks (env : Env) (g bound : ℚ) (N : Nat) :
    ∀ s : Sim, staysAbove env g bound N s = true → ∀ n : Nat, n < N →
      (ticks env n s).balls.all (fun b => decide (b.y + (b.vy + g) + b.radius ≤ bound))
        = true := by
  induction N with
  | zero => intro s _ n hn; exact absurd hn (Nat.not_lt_zero n)
  | succ N ih =>
    intro s h n hn
    simp only [staysAbove, Bool.and_eq_true] at h
    cases n with
    | zero => exact h.1
    | succ k =>
      simp only [ticks]
      exact ih _ h.2 k (Nat.lt_of_succ_lt_succ hn)

/-- The bound that `staysAbove` checks, for the ball of a scene. -/
theorem scene_below {env : Env} {w : String} {y v : ℚ} {b1 b2 : Bool} {s : Sim}
    (hs : Scene env w y v b1 b2 s) (g bound : ℚ)
    (h : s.balls.all (fun b => decide (b.y + (b.vy + g) + b.radius ≤ bound)) = true) :
    y + (v + g) + 30 ≤ bound := by
  obtain ⟨b, hb, hy, hv, _, hr, _⟩ := scene_ball hs
  rw [hb] at h
  simp only [List.all_cons, List.all_nil, Bool.and_true, decide_eq_true_eq] at h
  rw [hy, hv, hr] at h
  exact h

/-- The numbers of a scene are determined by the page. -/
theorem scene_unique {env : Env} {w : String} {y v y' v' : ℚ} {b1 b2 c1 c2 : Bool} {s : Sim}
    (h : Scene env w y v b1 b2 s) (h' : Scene env w y' v' c1 c2 s) : y = y' ∧ v = v' := by
  have e := h.2.2.symm.trans h'.2.2
  simp only [List.cons.injEq, Prod.mk.injEq, and_true] at e
  exact ⟨e.1, e.2⟩

/-- A tick of a light or medium ball above two unbroken platforms, when the floor test is
false and the ball is not beyond the first platform: either the platform answers, and the
ball is put on it with the velocity of the light or medium branch, or the ball is just
integrated. -/
theorem gentle_tick {env : Env} {w : String} {g y v : ℚ} {s : Sim}
    (hW : 0 ≤ env.canvas.width)
    (hwg : (w = "light" ∧ g = 0.15) ∨ (w = "medium" ∧ g = 0.3))
    (hs : Scene env w y v false false s)
    (hF : y + (v + g) + 30 ≤ env.canvas.height - 35) (hB : y + (v + g) + 30 ≤ 244) :
    Scene env w
      (if (v + g) * 0.98 > 0 ∧ y + (v + g) + 30 ≥ 200 then 170 else y + (v + g))
      (if (v + g) * 0.98 > 0 ∧ y + (v + g) + 30 ≥ 200 then
        (if w = "light" then
          (if |(v + g) * 0.98 * -0.7| < 1.0 then 0 else (v + g) * 0.98 * -0.7)
        else 0)
      else (v + g) * 0.98)
      false false (gameLoop env s) := by
  have hf : ¬ y + (v + g) + 30 > env.canvas.height - 35 := not_lt.mpr hF
  by_cases hc : (v + g) * 0.98 > 0 ∧ y + (v + g) + 30 ≥ 200
  · rw [if_pos hc, if_pos hc]
    rcases hwg with h | h
    · obtain ⟨rfl, rfl⟩ := h
      rw [if_pos rfl]
      exact scene_tick_light_hit1 hW hs hf hc.1 hc.2 (by linarith)
    · obtain ⟨rfl, rfl⟩ := h
      rw [if_neg (by decide)]
      exact scene_tick_medium_hit1 hW hs hf hc.1 hc.2 (by linarith)
  · rw [if_neg hc, if_neg hc]
    have hc' : (v + g) * 0.98 ≤ 0 ∨ y + (v + g) + 30 < 200 := by
      by_contra hn
      push_neg at hn
      exact hc ⟨hn.1, hn.2⟩
    have hgw : ∀ b : Ball, b.weightConfig = WEIGHT_SETTINGS w → b.effectiveGravity = g := by
      rcases hwg with h | h
      · rw [h.1, h.2]; exact fun b hb => effectiveGravity_light b hb
      · rw [h.1, h.2]; exact fun b hb => effectiveGravity_medium b hb
    exact (scene_tick_free hW hs g hgw hf
      (by rcases hc' with h | h
          · exact Or.inr (Or.inl h)
          · exact Or.inr (Or.inr (Or.inl h)))
      (Or.inr (Or.inr (Or.inl (by linarith))))).1

/-- The height that `gentle_tick` leaves is at most `170` when it was so before. -/
theorem gentle_tick_height (g y v : ℚ) (hy : y ≤ 170) :
    (if (v + g) * 0.98 > 0 ∧ y + (v + g) + 30 ≥ 200 then 170 else y + (v + g)) ≤ 170 := by
  split_ifs with hc
  · exact le_refl _
  · by_cases h1 : (v + g) * 0.98 > 0
    · have : ¬ y + (v + g) + 30 ≥ 200 := fun h2 => hc ⟨h1, h2⟩
      push_neg at this
      linarith
    · push_neg at h1
      have : v + g ≤ 0 := by
        by_contra hn
        push_neg at hn
        nlinarith
      linarith

/-- A light or medium ball at rest on the first platform is put back there by every tick,
when the floor test stays false. -/
theorem gentle_fixed {env : Env} {w : String} {g : ℚ} {s : Sim}
    (hW : 0 ≤ env.canvas.width)
    (hwg : (w = "light" ∧ g = 0.15) ∨ (w = "medium" ∧ g = 0.3))
    (hF : 200 + g ≤ env.canvas.height - 35)
    (hs : Scene env w 170 0 false false s) :
    Scene env w 170 0 false false (gameLoop env s) := by
  have hg1 : 0.15 ≤ g := by rcases hwg with h | h <;> norm_num [h.2]
  have hg2 : g ≤ 0.3 := by rcases hwg with h | h <;> norm_num [h.2]
  have h := gentle_tick hW hwg hs (by linarith) (by linarith)
  have hc : (0 + g) * 0.98 > 0 ∧ 170 + (0 + g) + 30 ≥ 200 := ⟨by linarith, by linarith⟩
  rw [if_pos hc, if_pos hc] at h
  have hv : (if w = "light" then
      (if |(0 + g) * 0.98 * -0.7| < 1.0 then 0 else (0 + g) * 0.98 * -0.7) else (0 : ℚ)) = 0 := by
    split_ifs with h1 h2
    · rfl
    · exfalso
      apply h2
      rw [abs_lt]
      constructor <;> linarith
    · rfl
  rw [hv] at h
  exact h

/-- A light or medium ball at rest on the first platform stays there for any number of
ticks. -/
theorem gentle_fixed_ticks {env : Env} {w : String} {g : ℚ}
    (hW : 0 ≤ env.canvas.width)
    (hwg : (w = "light" ∧ g = 0.15) ∨ (w = "medium" ∧ g = 0.3))
    (hF : 200 + g ≤ env.canvas.height - 35) (k : Nat) :
    ∀ s : Sim, Scene env w 170 0 false false s →
      Scene env w 170 0 false false (ticks env k s) := by
  induction k with
  | zero => intro s hs; exact hs
  | succ k ih => intro s hs; exact ih _ (gentle_fixed hW hwg hF hs)

/-- The scene right before the first tick, on the canvas of 800 by 600. -/
theorem readyScene_scene (w : String) :
    Scene sampleEnv w 70 0.2 false false (readyScene sampleEnv w) :=
  ⟨rfl, rfl, rfl⟩

/-- On a canvas whose floor line is at `bound` or lower, the run of a light or medium ball
goes tick by tick through the heights and velocities of the run on the canvas of 800 by
600, for as long as that run stays above `bound`. -/
theorem gentle_run_coupled {env : Env} {w : String} {g : ℚ}
    (hW : 0 ≤ env.canvas.width)
    (hwg : (w = "light" ∧ g = 0.15) ∨ (w = "medium" ∧ g = 0.3))
    (bound : ℚ) (hbF : bound ≤ env.canvas.height - 35) (hb : bound ≤ 244) (N : Nat)
    (href : staysAbove sampleEnv g bound N (readyScene sampleEnv w) = true)
    (s1 : Sim) (hs1 : Scene env w 70 0.2 false false s1) :
    ∀ n : Nat, n ≤ N → ∃ y v : ℚ,
      Scene sampleEnv w y v false false (ticks sampleEnv n (readyScene sampleEnv w)) ∧
      Scene env w y v false false (ticks env n s1) ∧ y ≤ 170 := by
  have hWs : (0 : ℚ) ≤ sampleEnv.canvas.width := by simp only [sampleEnv]; norm_num
  intro n
  induction n with
  | zero => intro _; exact ⟨70, 0.2, readyScene_scene w, hs1, by norm_num⟩
  | succ n ih =>
    intro hn
    obtain ⟨y, v, hr, he, hy⟩ := ih (Nat.le_of_succ_le hn)
    have hbd := scene_below hr g bound
      (staysAbove_ticks sampleEnv g bound N _ href n (Nat.lt_of_succ_le hn))
    have hr' := gentle_tick hWs hwg hr (by simp only [sampleEnv]; linarith) (by linarith)
    have he' := gentle_tick hW hwg he (by linarith) (by linarith)
    rw [← ticks_succ_last] at hr' he'
    exact ⟨_, _, hr', he', gentle_tick_height g y v hy⟩

/-- The floor response of a light or medium ball that was not moving up and has no
horizontal velocity: it does not move down afterwards. -/
theorem floorResponse_gentle (u : Ball) (hw : u.weight = "light" ∨ u.weight = "medium")
    (hvx : u.vx = 0) (hvy : 0 ≤ u.vy) :
    u.floorResponse.vy ≤ 0 ∧ u.floorResponse.vx = 0 := by
  rcases hw with hw | hw
  · rw [floorResponse_light u hw]
    split_ifs
    · exact ⟨le_refl _, by simp [hvx]⟩
    · exact ⟨by show -0.6 * u.vy ≤ 0; linarith, by simp [hvx]⟩
  · rw [floorResponse_medium u hw]
    split_ifs
    · exact ⟨le_refl _, by simp [hvx]⟩
    · exact ⟨by show -0.3 * u.vy ≤ 0; linarith, by simp [hvx]⟩

/-- A tick of a scene with a light or medium ball in which the floor test is true, the ball
not moving up: the ball is put on the floor line, does not move down afterwards, and no
platform answers. -/
theorem scene_tick_gentle_floor {env : Env} {w : String} {g y v : ℚ} {b1 b2 : Bool} {s : Sim}
    (hwg : (w = "light" ∧ g = 0.15) ∨ (w = "medium" ∧ g = 0.3))
    (hs : Scene env w y v b1 b2 s)
    (hf : y + (v + g) + 30 > env.canvas.height - 35) (hv : 0 ≤ v + g) :
    ∃ v' : ℚ, v' ≤ 0 ∧
      Scene env w (env.canvas.height - 35 - 30) v' b1 b2 (gameLoop env s) := by
  obtain ⟨b, hb, hy, hbv, hvx, hr, hw, hcfg, ha⟩ := scene_ball hs
  have hgb : b.effectiveGravity = g := by
    rcases hwg with h | h
    · rw [h.2]; exact effectiveGravity_light b (by rw [hcfg, h.1])
    · rw [h.2]; exact effectiveGravity_medium b (by rw [hcfg, h.1])
  have hwl : b.weight = "light" ∨ b.weight = "medium" := by
    rcases hwg with h | h
    · exact Or.inl (hw.trans h.1)
    · exact Or.inr (hw.trans h.1)
  have hi : b.integrate = { b with
      x := b.x + b.vx, y := b.y + (b.vy + b.effectiveGravity),
      vx := b.vx * PHYSICS_CONSTANTS.friction,
      vy := (b.vy + b.effectiveGravity) * PHYSICS_CONSTANTS.friction } := integrate_eq b
  have hw0 := wallCollisions_eq env.canvas b.integrate
  have hvx0 : (b.integrate.wallCollisions env.canvas).vx = 0 :=
    wallCollisions_vx_zero env.canvas b.integrate (by rw [hi]; simp [hvx])
  have e_y : (b.integrate.wallCollisions env.canvas).y = y + (v + g) := by
    rw [hw0, hi]; simp only [hy, hbv, hgb]
  have e_vy : (b.integrate.wallCollisions env.canvas).vy = (v + g) * 0.98 := by
    rw [hw0, hi]; simp only [hbv, hgb, PHYSICS_CONSTANTS]
  have e_r : (b.integrate.wallCollisions env.canvas).radius = 30 := by
    rw [hw0, hi]; exact hr
  have e_w : (b.integrate.wallCollisions env.canvas).weight = w := by
    rw [hw0, hi]; exact hw
  have e_c : (b.integrate.wallCollisions env.canvas).weightConfig = WEIGHT_SETTINGS w := by
    rw [hw0, hi]; exact hcfg
  have e_a : (b.integrate.wallCollisions env.canvas).active = true := by
    rw [hw0, hi]; exact ha
  have hfb : (b.integrate.wallCollisions env.canvas).y +
      (b.integrate.wallCollisions env.canvas).radius > env.canvas.height - 35 := by
    rw [e_y, e_r]; exact hf
  have hfr := floorResponse_gentle
    { b.integrate.wallCollisions env.canvas with
      y := env.canvas.height - 35 - (b.integrate.wallCollisions env.canvas).radius }
    (by
      show (b.integrate.wallCollisions env.canvas).weight = "light" ∨
        (b.integrate.wallCollisions env.canvas).weight = "medium"
      rw [e_w]
      rcases hwg with h | h
      · exact Or.inl h.1
      · exact Or.inr h.1)
    hvx0
    (by
      show 0 ≤ (b.integrate.wallCollisions env.canvas).vy
      rw [e_vy]
      nlinarith)
  have hbp : (b.beforePlatforms env s).1 =
      ({ b.integrate.wallCollisions env.canvas with
        y := env.canvas.height - 35 - (b.integrate.wallCollisions env.canvas).radius
        }.floorResponse).updateTrail := by
    unfold Ball.beforePlatforms
    simp only
    rw [floorCollision_of_floor env _ s hfb]
  have hsum : (b.beforePlatforms env s).1.summary =
      (env.canvas.height - 35 - 30,
       ({ b.integrate.wallCollisions env.canvas with
          y := env.canvas.height - 35 - (b.integrate.wallCollisions env.canvas).radius
          }.floorResponse).vy,
       0, 30, w, WEIGHT_SETTINGS w, true) := by
    have h2 := hfr.2
    rw [hbp, floorResponse_eq]
    simp only [Ball.summary, Ball.updateTrail] at h2 ⊢
    rw [h2]
    simp only [e_r, e_w, e_c, e_a]
  have hvy' : (b.beforePlatforms env s).1.vy ≤ 0 := by
    rw [hbp]
    exact hfr.1
  obtain ⟨h1, h2, h3⟩ := gameLoop_single env s b hs.1 hb
  have hu := update_of_active env b s ha
  rw [checkPlatformCollisions_of_vy_nonpos _ hvy'] at hu
  refine ⟨_, hfr.1, h1, ?_, ?_⟩
  · rw [h3, hu]
    simp only
    rw [beforePlatforms_platforms]
    exact hs.2.1
  · rw [h2, hu]
    simp only [List.map_cons, List.map_nil, hsum]

/-- One tick on a canvas with `canvas.height - 35 ≤ 200`: the light or medium ball ends
with `y ≤ canvas.height - 35 - 30`, both platforms unbroken. -/
theorem low_step {env : Env} {w : String} {g y v : ℚ} {s : Sim}
    (hW : 0 ≤ env.canvas.width)
    (hwg : (w = "light" ∧ g = 0.15) ∨ (w = "medium" ∧ g = 0.3))
    (hF : env.canvas.height - 35 ≤ 200)
    (hs : Scene env w y v false false s)
    (hinv : y ≤ env.canvas.height - 35 - 30 ∨ 0 ≤ v + g) :
    ∃ y' v' : ℚ, Scene env w y' v' false false (gameLoop env s) ∧
      y' ≤ env.canvas.height - 35 - 30 := by
  by_cases hf : y + (v + g) + 30 > env.canvas.height - 35
  · have hv : 0 ≤ v + g := by
      rcases hinv with h | h
      · linarith
      · exact h
    obtain ⟨v', _, h⟩ := scene_tick_gentle_floor hwg hs hf hv
    exact ⟨_, v', h, le_refl _⟩
  · push_neg at hf
    refine ⟨_, _, gentle_tick hW hwg hs hf (by linarith), ?_⟩
    split_ifs with hc
    · linarith [hc.2]
    · linarith

/-- Any number of ticks, at least one, on a canvas with `canvas.height - 35 ≤ 200`. -/
theorem low_ticks {env : Env} {w : String} {g : ℚ}
    (hW : 0 ≤ env.canvas.width)
    (hwg : (w = "light" ∧ g = 0.15) ∨ (w = "medium" ∧ g = 0.3))
    (hF : env.canvas.height - 35 ≤ 200) (n : Nat) :
    ∀ (s : Sim) (y v : ℚ), Scene env w y v false false s →
      (y ≤ env.canvas.height - 35 - 30 ∨ 0 ≤ v + g) →
      ∃ y' v' : ℚ, Scene env w y' v' false false (ticks env (n + 1) s) ∧
        y' ≤ env.canvas.height - 35 - 30 := by
  induction n with
  | zero => intro s y v hs hinv; exact low_step hW hwg hF hs hinv
  | succ n ih =>
    intro s y v hs hinv
    obtain ⟨y', v', hs', hy'⟩ := low_step hW hwg hF hs hinv
    exact ih _ y' v' hs' (Or.inl hy')

/-- On a canvas with `bound ≤ canvas.height - 35`, where `200 + g ≤ bound`, the light or
medium ball stays at `y ≤ 170` above two unbroken platforms for any number of ticks, when
the run on the canvas of 800 by 600 never arrives beyond `bound` until it is at rest on the
first platform. -/
theorem gentle_stays {env : Env} {w : String} {g : ℚ}
    (hW : 0 ≤ env.canvas.width)
    (hwg : (w = "light" ∧ g = 0.15) ∨ (w = "medium" ∧ g = 0.3))
    (bound : ℚ) (hbF : bound ≤ env.canvas.height - 35) (hb : bound ≤ 244)
    (hb1 : 200 + g ≤ bound) (N : Nat)
    (href : staysAbove sampleEnv g bound N (readyScene sampleEnv w) = true)
    (hset : Scene sampleEnv w 170 0 false false (ticks sampleEnv N (readyScene sampleEnv w)))
    (s1 : Sim) (hs1 : Scene env w 70 0.2 false false s1) (n : Nat) :
    ∃ y v : ℚ, Scene env w y v false false (ticks env n s1) ∧ y ≤ 170 := by
  by_cases hn : n ≤ N
  · obtain ⟨y, v, _, he, hy⟩ := gentle_run_coupled hW hwg bound hbF hb N href s1 hs1 n hn
    exact ⟨y, v, he, hy⟩
  · push_neg at hn
    obtain ⟨y, v, hr, he, _⟩ :=
      gentle_run_coupled hW hwg bound hbF hb N href s1 hs1 N (le_refl N)
    obtain ⟨e1, e2⟩ := scene_unique hr hset
    rw [e1, e2] at he
    have hk := gentle_fixed_ticks hW hwg (by linarith) (n - N) _ he
    rw [← ticks_add, Nat.add_sub_cancel' (Nat.le_of_lt hn)] at hk
    exact ⟨170, 0, hk, le_refl _⟩

/-- On a canvas with `canvas.height - 35 ≤ limit`, the light or medium ball is on the floor
line after finitely many ticks, when the run on the canvas of 800 by 600 falls freely for
`N` ticks and arrives beyond `limit` in the next. -/
theorem gentle_reaches {env : Env} {w : String} {g : ℚ}
    (hW : 0 ≤ env.canvas.width)
    (hwg : (w = "light" ∧ g = 0.15) ∨ (w = "medium" ∧ g = 0.3))
    (limit : ℚ) (hlF : env.canvas.height - 35 ≤ limit) (N : Nat)
    (href : staysAbove sampleEnv g 199 N (readyScene sampleEnv w) = true)
    (hlast : (ticks sampleEnv N (readyScene sampleEnv w)).balls.all
      (fun b => decide (b.y + (b.vy + g) + b.radius > limit ∧ 0 ≤ b.vy + g)) = true)
    (s1 : Sim) (hs1 : Scene env w 70 0.2 false false s1) :
    ∃ (k : Nat) (v' : ℚ),
      Scene env w (env.canvas.height - 35 - 30) v' false false (ticks env (k + 1) s1) := by
  have hWs : (0 : ℚ) ≤ sampleEnv.canvas.width := by simp only [sampleEnv]; norm_num
  have hg0 : 0 ≤ g := by rcases hwg with h | h <;> norm_num [h.2]
  have key : ∀ n : Nat, n ≤ N →
      (∃ (k : Nat) (v' : ℚ),
        Scene env w (env.canvas.height - 35 - 30) v' false false (ticks env (k + 1) s1)) ∨
      (∃ y v : ℚ,
        Scene sampleEnv w y v false false (ticks sampleEnv n (readyScene sampleEnv w)) ∧
        Scene env w y v false false (ticks env n s1) ∧ 0 ≤ v + g) := by
    intro n
    induction n with
    | zero =>
      intro _
      exact Or.inr ⟨70, 0.2, readyScene_scene w, hs1, by linarith⟩
    | succ n ih =>
      intro hn
      rcases ih (Nat.le_of_succ_le hn) with h | ⟨y, v, hr, he, hv⟩
      · exact Or.inl h
      · have hbd := scene_below hr g 199
          (staysAbove_ticks sampleEnv g 199 N _ href n (Nat.lt_of_succ_le hn))
        by_cases hf : y + (v + g) + 30 > env.canvas.height - 35
        · obtain ⟨v', _, h⟩ := scene_tick_gentle_floor hwg he hf hv
          rw [← ticks_succ_last] at h
          exact Or.inl ⟨n, v', h⟩
        · push_neg at hf
          have hr' := gentle_tick hWs hwg hr (by simp only [sampleEnv]; linarith)
            (by linarith)
          have he' := gentle_tick hW hwg he hf (by linarith)
          have hc : ¬ ((v + g) * 0.98 > 0 ∧ y + (v + g) + 30 ≥ 200) := by
            intro h
            linarith [h.2]
          rw [if_neg hc, if_neg hc, ← ticks_succ_last] at hr' he'
          exact Or.inr ⟨_, _, hr', he', by nlinarith⟩
  rcases key N (le_refl N) with h | ⟨y, v, hr, he, _⟩
  · exact h
  · obtain ⟨b, hb, hy, hbv, _, hrad, _⟩ := scene_ball hr
    rw [hb] at hlast
    simp only [List.all_cons, List.all_nil, Bool.and_true, decide_eq_true_eq] at hlast
    rw [hy, hbv, hrad] at hlast
    obtain ⟨v', _, h⟩ := scene_tick_gentle_floor hwg he (by linarith [hlast.1]) hlast.2
    rw [← ticks_succ_last] at h
    exact ⟨N, v', h⟩

/-- On a canvas with `200 < canvas.height - 35 < limit`, the light or medium ball is on the
floor line after finitely many ticks, when the run on the canvas of 800 by 600 arrives at
`limit` or beyond after `N` ticks. -/
theorem gentle_reaches_below {env : Env} {w : String} {g : ℚ}
    (hW : 0 ≤ env.canvas.width)
    (hwg : (w = "light" ∧ g = 0.15) ∨ (w = "medium" ∧ g = 0.3))
    (hF : 200 < env.canvas.height - 35)
    (limit : ℚ) (hlF : env.canvas.height - 35 < limit) (N : Nat)
    (href : staysAbove sampleEnv g 244 N (readyScene sampleEnv w) = true)
    (hlast : (ticks sampleEnv N (readyScene sampleEnv w)).balls.all
      (fun b => decide (b.y + (b.vy + g) + b.radius ≥ limit)) = true)
    (s1 : Sim) (hs1 : Scene env w 70 0.2 false false s1) :
    ∃ (k : Nat) (v' : ℚ),
      Scene env w (env.canvas.height - 35 - 30) v' false false (ticks env (k + 1) s1) := by
  have hWs : (0 : ℚ) ≤ sampleEnv.canvas.width := by simp only [sampleEnv]; norm_num
  have key : ∀ n : Nat, n ≤ N →
      (∃ (k : Nat) (v' : ℚ),
        Scene env w (env.canvas.height - 35 - 30) v' false false (ticks env (k + 1) s1)) ∨
      (∃ y v : ℚ,
        Scene sampleEnv w y v false false (ticks sampleEnv n (readyScene sampleEnv w)) ∧
        Scene env w y v false false (ticks env n s1) ∧ y ≤ 170) := by
    intro n
    induction n with
    | zero =>
      intro _
      exact Or.inr ⟨70, 0.2, readyScene_scene w, hs1, by norm_num⟩
    | succ n ih =>
      intro hn
      rcases ih (Nat.le_of_succ_le hn) with h | ⟨y, v, hr, he, hy⟩
      · exact Or.inl h
      · have hbd := scene_below hr g 244
          (staysAbove_ticks sampleEnv g 244 N _ href n (Nat.lt_of_succ_le hn))
        by_cases hf : y + (v + g) + 30 > env.canvas.height - 35
        · obtain ⟨v', _, h⟩ := scene_tick_gentle_floor hwg he hf (by linarith)
          rw [← ticks_succ_last] at h
          exact Or.inl ⟨n, v', h⟩
        · push_neg at hf
          have hr' := gentle_tick hWs hwg hr (by simp only [sampleEnv]; linarith) hbd
          have he' := gentle_tick hW hwg he hf hbd
          rw [← ticks_succ_last] at hr' he'
          exact Or.inr ⟨_, _, hr', he', gentle_tick_height g y v hy⟩
  rcases key N (le_refl N) with h | ⟨y, v, hr, he, hy⟩
  · exact h
  · obtain ⟨b, hb, hby, hbv, _, hrad, _⟩ := scene_ball hr
    rw [hb] at hlast
    simp only [List.all_cons, List.all_nil, Bool.and_true, decide_eq_true_eq] at hlast
    rw [hby, hbv, hrad] at hlast
    obtain ⟨v', _, h⟩ := scene_tick_gentle_floor hwg he (by linarith) (by linarith)
    rw [← ticks_succ_last] at h
    exact ⟨N, v', h⟩

/-! ## The runs on the canvas of 800 by 600, by evaluation -/

/-- The light ball on the canvas of 800 by 600 never arrives with its lowest point beyond
`201.84` in its first 95 ticks. -/
theorem light_run_staysAbove :
    staysAbove sampleEnv 0.15 201.84 95 (readyScene sampleEnv "light") = true := by
  set_option maxRecDepth 100000 in decide!

/-- After 95 ticks the light ball on the canvas of 800 by 600 is at rest on the first
platform. -/
theorem light_run_settled :
    Scene sampleEnv "light" 170 0 false false
      (ticks sampleEnv 95 (readyScene sampleEnv "light")) := by
  refine ⟨?_, ?_, ?_⟩ <;>
    set_option maxRecDepth 100000 in set_option synthInstance.maxSize 1000 in decide!

/-- The medium ball on the canvas of 800 by 600 never arrives with its lowest point beyond
`200.3` in its first 30 ticks. -/
theorem medium_run_staysAbove :
    staysAbove sampleEnv 0.3 200.3 30 (readyScene sampleEnv "medium") = true := by
  set_option maxRecDepth 100000 in decide!

/-- After 30 ticks the medium ball on the canvas of 800 by 600 is at rest on the first
platform. -/
theorem medium_run_settled :
    Scene sampleEnv "medium" 170 0 false false
      (ticks sampleEnv 30 (readyScene sampleEnv "medium")) := by
  refine ⟨?_, ?_, ?_⟩ <;>
    set_option maxRecDepth 100000 in set_option synthInstance.maxSize 1000 in decide!

/-- In its first 39 ticks the light ball on the canvas of 800 by 600 arrives with its lowest
point at `199` at most, and in the next tick beyond `201`, moving down. -/
theorem light_run_fall :
    staysAbove sampleEnv 0.15 199 39 (readyScene sampleEnv "light") = true ∧
    (ticks sampleEnv 39 (readyScene sampleEnv "light")).balls.all
      (fun b => decide (b.y + (b.vy + 0.15) + b.radius > 201 ∧ 0 ≤ b.vy + 0.15)) = true := by
  constructor <;> set_option maxRecDepth 100000 in decide!

/-- In its first 26 ticks the medium ball on the canvas of 800 by 600 arrives with its
lowest point at `199` at most, and in the next tick beyond `200`, moving down. -/
theorem medium_run_fall :
    staysAbove sampleEnv 0.3 199 26 (readyScene sampleEnv "medium") = true ∧
    (ticks sampleEnv 26 (readyScene sampleEnv "medium")).balls.all
      (fun b => decide (b.y + (b.vy + 0.3) + b.radius > 200 ∧ 0 ≤ b.vy + 0.3)) = true := by
  constructor <;> set_option maxRecDepth 100000 in decide!

/-- After 39 ticks the light ball on the canvas of 800 by 600 arrives with its lowest point
at `201.8378` or beyond. -/
theorem light_run_arrival :
    staysAbove sampleEnv 0.15 244 39 (readyScene sampleEnv "light") = true ∧
    (ticks sampleEnv 39 (readyScene sampleEnv "light")).balls.all
      (fun b => decide (b.y + (b.vy + 0.15) + b.radius ≥ 201.8378)) = true := by
  constructor <;> set_option maxRecDepth 100000 in decide!

/-- After 27 ticks the medium ball on the canvas of 800 by 600, at rest on the first
platform, arrives with its lowest point at `200.3`. -/
theorem medium_run_arrival :
    staysAbove sampleEnv 0.3 244 27 (readyScene sampleEnv "medium") = true ∧
    (ticks sampleEnv 27 (readyScene sampleEnv "medium")).balls.all
      (fun b => decide (b.y + (b.vy + 0.3) + b.radius ≥ 200.3)) = true := by
  constructor <;> set_option maxRecDepth 100000 in decide!

/-! ## Reaching the floor (C18) -/

/-- C18 fails as stated: on a canvas of 800 by 600 the medium ball of the scene that
`createScene` builds and `startSequence` starts never reaches the floor height
`600 - 35 - 30`: it comes to rest on the first platform (the light ball stays above that
platform as well). -/
theorem reaches_floor_counterexample :
    ¬ ∃ n : Nat,
      (ticks sampleEnv n (afterCall (startSequence sampleEnv
        (createScene sampleEnv { Sim.initial with currentWeight := "medium" })))).balls.map
          (fun b => b.y) = [600 - 35 - 30] := by
  rintro ⟨n, hn⟩
  obtain ⟨s1, hs1, he⟩ := startSequence_createScene sampleEnv
    { Sim.initial with currentWeight := "medium" } "medium" rfl rfl
  have hrun : GentleRun sampleEnv "medium" 0.3 s1 := ⟨70, 0.2, hs1, by norm_num, by norm_num⟩
  have hW : (0 : ℚ) ≤ sampleEnv.canvas.width := by simp only [sampleEnv]; norm_num
  have hF : (209 : ℚ) ≤ sampleEnv.canvas.height - 35 := by simp only [sampleEnv]; norm_num
  obtain ⟨y, v, hs, hy, _⟩ := gentleRun_ticks hW hF (Or.inr ⟨rfl, rfl⟩) (n + 1) s1 hrun
  have hpos := scene_position hs
  simp only [ticks] at hpos
  rw [← he] at hpos
  have hy' : s1 = s1 → y = 600 - 35 - 30 := by
    intro _
    have h1 := congrArg (List.map (fun t : ℚ × ℚ × ℚ => t.1)) hpos
    simp only [List.map_map, List.map_cons, List.map_nil] at h1
    have h2 : (List.map ((fun t : ℚ × ℚ × ℚ => t.1) ∘ fun b : Ball => (b.y, b.vx, b.vy))
        (ticks sampleEnv n (afterCall (startSequence sampleEnv
          (createScene sampleEnv { Sim.initial with currentWeight := "medium" })))).balls)
        = [600 - 35 - 30] := hn
    rw [h2] at h1
    simpa using h1.symm
  have := hy' rfl
  rw [this] at hy
  norm_num at hy

/-- C18, amended. On every canvas (of width at least `0`), in the scene that `createScene`
builds and `startSequence` starts: the heavy ball reaches the floor, there is a number `n`
of ticks after which the ball is at `y = canvas.height - 35 - 30` with `vx = 0` and
`vy = 0`, and it is still there, at rest, after any further number of ticks; the light ball
is at `y = canvas.height - 35 - 30` after some number of ticks when
`canvas.height - 35 < 201.8378`, and the medium ball when `canvas.height - 35 < 200.3`;
when `201.84 ≤ canvas.height - 35` the light ball is at `y = canvas.height - 35 - 30` after
no number of ticks, and when `200.3 ≤ canvas.height - 35` neither is the medium ball. -/
theorem ball_reaches_floor (env : Env) (s0 : Sim) (hW : 0 ≤ env.canvas.width)
    (hr : s0.isRunning = false) :
    (s0.currentWeight = "heavy" →
      ∃ n : Nat, ∀ k : Nat,
        (ticks env (n + k) (afterCall (startSequence env (createScene env s0)))).balls.map
          (fun b => (b.y, b.vx, b.vy)) = [(env.canvas.height - 35 - 30, 0, 0)]) ∧
    (s0.currentWeight = "light" → env.canvas.height - 35 < 201.8378 →
      ∃ n : Nat,
        (ticks env n (afterCall (startSequence env (createScene env s0)))).balls.map
          (fun b => b.y) = [env.canvas.height - 35 - 30]) ∧
    (s0.currentWeight = "medium" → env.canvas.height - 35 < 200.3 →
      ∃ n : Nat,
        (ticks env n (afterCall (startSequence env (createScene env s0)))).balls.map
          (fun b => b.y) = [env.canvas.height - 35 - 30]) ∧
    (s0.currentWeight = "light" → 201.84 ≤ env.canvas.height - 35 →
      ∀ n : Nat,
        (ticks env n (afterCall (startSequence env (createScene env s0)))).balls.map
          (fun b => b.y) ≠ [env.canvas.height - 35 - 30]) ∧
    (s0.currentWeight = "medium" → 200.3 ≤ env.canvas.height - 35 →
      ∀ n : Nat,
        (ticks env n (afterCall (startSequence env (createScene env s0)))).balls.map
          (fun b => b.y) ≠ [env.canvas.height - 35 - 30]) := by
  have reach : ∀ (w : String) (s1 : Sim),
      afterCall (startSequence env (createScene env s0)) = gameLoop env s1 →
      (∃ (k : Nat) (v' : ℚ),
        Scene env w (env.canvas.height - 35 - 30) v' false false (ticks env (k + 1) s1)) →
      ∃ n : Nat,
        (ticks env n (afterCall (startSequence env (createScene env s0)))).balls.map
          (fun b => b.y) = [env.canvas.height - 35 - 30] := by
    rintro w s1 he ⟨k, v', hs⟩
    simp only [ticks] at hs
    rw [← he] at hs
    obtain ⟨b, hb, hby, _⟩ := scene_ball hs
    exact ⟨k, by rw [hb]; simp only [List.map_cons, List.map_nil, hby]⟩
  have never : ∀ (w : String) (s1 : Sim),
      afterCall (startSequence env (createScene env s0)) = gameLoop env s1 →
      170 < env.canvas.height - 35 - 30 →
      (∀ n : Nat, ∃ y v : ℚ, Scene env w y v false false (ticks env n s1) ∧ y ≤ 170) →
      ∀ n : Nat,
        (ticks env n (afterCall (startSequence env (createScene env s0)))).balls.map
          (fun b => b.y) ≠ [env.canvas.height - 35 - 30] := by
    intro w s1 he hF hall n hn
    obtain ⟨y, v, hs, hy⟩ := hall (n + 1)
    simp only [ticks] at hs
    rw [← he] at hs
    obtain ⟨b, hb, hby, _⟩ := scene_ball hs
    rw [hb] at hn
    simp only [List.map_cons, List.map_nil, hby, List.cons.injEq, and_true] at hn
    linarith
  refine ⟨fun hw => ?_, fun hw hF => ?_, fun hw hF => ?_, fun hw hF => ?_, fun hw hF => ?_⟩
  · obtain ⟨s1, hs1, he⟩ := startSequence_createScene env s0 "heavy" hr hw
    obtain ⟨m, hm⟩ := exists_nat_ge
      (((env.canvas.height - 35 - 30 - 70) + 0.45 * ((if false then 0 else 1)
        + (if false then 0 else 1))) / 0.45)
    have hm' : (env.canvas.height - 35 - 30 - 70) + 0.45 * ((if false then 0 else 1)
        + (if false then 0 else 1)) ≤ 0.45 * (m : ℚ) := by
      rw [div_le_iff₀ (by norm_num)] at hm
      linarith
    obtain ⟨n, b1, b2, hn, hrest⟩ := heavy_reaches_floor hW m s1 70 0.2 false false hs1
      (heavyRun_start hs1).1 hm'
    refine ⟨n, fun k => ?_⟩
    have hk := heavy_rest_ticks k _ hn hrest
    rw [← ticks_add] at hk
    have hpos := scene_position hk
    rw [Nat.add_right_comm] at hpos
    simp only [ticks] at hpos
    rw [← he] at hpos
    exact hpos
  · obtain ⟨s1, hs1, he⟩ := startSequence_createScene env s0 "light" hr hw
    apply reach "light" s1 he
    by_cases h : env.canvas.height - 35 ≤ 201
    · exact gentle_reaches hW (Or.inl ⟨rfl, rfl⟩) 201 h 39 light_run_fall.1 light_run_fall.2
        s1 hs1
    · push_neg at h
      exact gentle_reaches_below hW (Or.inl ⟨rfl, rfl⟩) (by linarith) 201.8378 hF 39
        light_run_arrival.1 light_run_arrival.2 s1 hs1
  · obtain ⟨s1, hs1, he⟩ := startSequence_createScene env s0 "medium" hr hw
    apply reach "medium" s1 he
    by_cases h : env.canvas.height - 35 ≤ 200
    · exact gentle_reaches hW (Or.inr ⟨rfl, rfl⟩) 200 h 26 medium_run_fall.1
        medium_run_fall.2 s1 hs1
    · push_neg at h
      exact gentle_reaches_below hW (Or.inr ⟨rfl, rfl⟩) h 200.3 hF 27
        medium_run_arrival.1 medium_run_arrival.2 s1 hs1
  · obtain ⟨s1, hs1, he⟩ := startSequence_createScene env s0 "light" hr hw
    exact never "light" s1 he (by linarith)
      (gentle_stays hW (Or.inl ⟨rfl, rfl⟩) 201.84 hF (by norm_num) (by norm_num) 95
        light_run_staysAbove light_run_settled s1 hs1)
  · obtain ⟨s1, hs1, he⟩ := startSequence_createScene env s0 "medium" hr hw
    exact never "medium" s1 he (by linarith)
      (gentle_stays hW (Or.inr ⟨rfl, rfl⟩) 200.3 hF (by norm_num) (by norm_num) 30
        medium_run_staysAbove medium_run_settled s1 hs1)

/-- Witness of C18 amended: the heavy ball on the canvas of 800 by 600. -/
theorem ball_reaches_floor_witness :
    (0 : ℚ) ≤ sampleEnv.canvas.width ∧
    ∃ n : Nat, ∀ k : Nat,
      (ticks sampleEnv (n + k) (afterCall (startSequence sampleEnv
        (createScene sampleEnv { Sim.initial with currentWeight := "heavy" })))).balls.map
        (fun b => (b.y, b.vx, b.vy)) = [(sampleEnv.canvas.height - 35 - 30, 0, 0)] :=
  have hW : (0 : ℚ) ≤ sampleEnv.canvas.width := by decide!
  ⟨hW, (ball_reaches_floor sampleEnv { Sim.initial with currentWeight := "heavy" } hW
    rfl).1 rfl⟩

/-! ## Light and medium balls stay on the first platform (C22) -/

/-- C22 fails as stated: on a canvas of 800 by 236 the floor line is at `201`, just below
the top edge of the first platform; the light ball arrives with its lowest point beyond
the floor line before the platform is asked, the floor block puts it at `y = 171`, and no
platform answers a ball that moves up: after 39 ticks `y` is `171`, not at most `170`. -/
theorem first_platform_counterexample :
    lowEnv.canvas.width ≥ 60 ∧
    (ticks lowEnv 39 (afterCall (startSequence lowEnv
      (createScene lowEnv Sim.initial)))).balls.map (fun b => b.y) = [171] := by
  set_option maxRecDepth 100000 in decide!

/-- C22, amended. On a canvas (of width at least `0`) whose floor line `canvas.height - 35`
is at most `200`, the top edge of the first platform, or at least `201.84` for the light
ball and at least `200.3` for the medium ball (among whole-number canvas heights this
leaves out only the light ball on height `236`), in the scene that `createScene` builds and
`startSequence` starts with weight light or medium, after every number of ticks the ball
has `y ≤ 170`, `vx = 0` and both platforms are unbroken; and when
`200 < canvas.height - 35` the lowest point `y + radius` of the ball is above the floor
line, `y + radius < canvas.height - 35`. -/
theorem gentle_ball_stays_on_first_platform (env : Env) (s0 : Sim) (w : String)
    (hW : 0 ≤ env.canvas.width)
    (hwF : (w = "light" ∧
        (env.canvas.height - 35 ≤ 200 ∨ 201.84 ≤ env.canvas.height - 35)) ∨
      (w = "medium" ∧
        (env.canvas.height - 35 ≤ 200 ∨ 200.3 ≤ env.canvas.height - 35)))
    (hr : s0.isRunning = false) (hcw : s0.currentWeight = w) (n : Nat) :
    (∃ b : Ball,
      (ticks env n (afterCall (startSequence env (createScene env s0)))).balls = [b] ∧
      b.y ≤ 170 ∧ b.vx = 0 ∧
      (200 < env.canvas.height - 35 → b.y + b.radius < env.canvas.height - 35)) ∧
    (ticks env n (afterCall (startSequence env (createScene env s0)))).platforms.map
      (fun p => p.broken) = [false, false] := by
  obtain ⟨s1, hs1, he⟩ := startSequence_createScene env s0 w hr hcw
  have hrun : ∃ y v : ℚ, Scene env w y v false false (ticks env (n + 1) s1) ∧ y ≤ 170 := by
    rcases hwF with ⟨hw, hF | hF⟩ | ⟨hw, hF | hF⟩
    · obtain ⟨y, v, hs, hy⟩ := low_ticks hW (Or.inl ⟨hw, rfl⟩) hF n s1 70 0.2 hs1
        (Or.inr (by norm_num))
      exact ⟨y, v, hs, by linarith⟩
    · rw [hw] at hs1 ⊢
      exact gentle_stays hW (Or.inl ⟨rfl, rfl⟩) 201.84 hF (by norm_num) (by norm_num) 95
        light_run_staysAbove light_run_settled s1 hs1 (n + 1)
    · obtain ⟨y, v, hs, hy⟩ := low_ticks hW (Or.inr ⟨hw, rfl⟩) hF n s1 70 0.2 hs1
        (Or.inr (by norm_num))
      exact ⟨y, v, hs, by linarith⟩
    · rw [hw] at hs1 ⊢
      exact gentle_stays hW (Or.inr ⟨rfl, rfl⟩) 200.3 hF (by norm_num) (by norm_num) 30
        medium_run_staysAbove medium_run_settled s1 hs1 (n + 1)
  obtain ⟨y, v, hs, hy⟩ := hrun
  simp only [ticks] at hs
  rw [← he] at hs
  obtain ⟨b, hb, hby, _, hbvx, hbr, _⟩ := scene_ball hs
  refine ⟨⟨b, hb, by rw [hby]; exact hy, hbvx, fun h => by rw [hby, hbr]; linarith⟩, ?_⟩
  rw [hs.2.1]
  rfl

/-- Witness of C22 amended: the light ball on the canvas of 800 by 600, after 100 ticks. -/
theorem gentle_ball_stays_on_first_platform_witness :
    (0 : ℚ) ≤ sampleEnv.canvas.width ∧ (201.84 : ℚ) ≤ sampleEnv.canvas.height - 35 ∧
    (ticks sampleEnv 100 (afterCall (startSequence sampleEnv
      (createScene sampleEnv Sim.initial)))).platforms.map (fun p => p.broken)
        = [false, false] :=
  have hW : (0 : ℚ) ≤ sampleEnv.canvas.width := by decide!
  have hF : (201.84 : ℚ) ≤ sampleEnv.canvas.height - 35 := by decide!
  ⟨hW, hF, (gentle_ball_stays_on_first_platform sampleEnv Sim.initial "light" hW
    (Or.inl ⟨rfl, Or.inr hF⟩) rfl rfl 100).2⟩

/-! ## The heavy ball breaks what it meets (C23) -/

/-- C23. On a canvas (of width at least `0`) whose floor line `canvas.height - 35` is at
`400` or lower, so below both platforms, in the scene that `createScene` builds and
`startSequence` starts with weight heavy: the page on return is one tick after the scene
with the ball at `y = 70`, `vy = 0.2`, and in that tick and in every later tick each
`handleCollision` call finds `|vy| * mass > 3.0`, the test on which the platform breaks; the
velocity of the ball is never negative, as the branch `vy *= -0.1` would leave it; and
after finitely many ticks the first platform is broken. -/
theorem heavy_collisions_break (env : Env) (s0 : Sim) (hW : 0 ≤ env.canvas.width)
    (hF : 400 ≤ env.canvas.height - 35)
    (hr : s0.isRunning = false) (hw : s0.currentWeight = "heavy") :
    (∃ s1 : Sim, Scene env "heavy" 70 0.2 false false s1 ∧
      afterCall (startSequence env (createScene env s0)) = gameLoop env s1 ∧
      ∀ b ∈ s1.balls, (b.beforePlatforms env s1).1.collisionsBreak s1.platforms = true) ∧
    (∀ n : Nat,
      ∀ b ∈ (ticks env n (afterCall (startSequence env (createScene env s0)))).balls,
        0 ≤ b.vy ∧
        (b.beforePlatforms env
            (ticks env n (afterCall (startSequence env (createScene env s0))))).1.collisionsBreak
          (ticks env n (afterCall (startSequence env (createScene env s0)))).platforms
            = true) ∧
    (∃ n : Nat,
      ((ticks env n (afterCall (startSequence env (createScene env s0)))).platforms.map
        (fun p => p.broken)).head? = some true) := by
  obtain ⟨s1, hs1, he⟩ := startSequence_createScene env s0 "heavy" hr hw
  obtain ⟨hfall, hrun⟩ := heavyRun_start hs1
  refine ⟨⟨s1, hs1, he, (heavyRun_step hW hrun).2⟩, fun n b hb => ?_, ?_⟩
  · have hn := heavyRun_ticks hW (n + 1) s1 hrun
    simp only [ticks] at hn
    rw [← he] at hn
    exact ⟨heavyRun_vy hn b hb, (heavyRun_step hW hn).2 b hb⟩
  · obtain ⟨m, hm⟩ := exists_nat_ge
      (((env.canvas.height - 35 - 30 - 70) + 0.45 * ((if false then 0 else 1)
        + (if false then 0 else 1))) / 0.45)
    have hm' : (env.canvas.height - 35 - 30 - 70) + 0.45 * ((if false then 0 else 1)
        + (if false then 0 else 1)) ≤ 0.45 * (m : ℚ) := by
      rw [div_le_iff₀ (by norm_num)] at hm
      linarith
    obtain ⟨n, b1, b2, hn, hrest⟩ := heavy_reaches_floor hW m s1 70 0.2 false false hs1
      hfall hm'
    simp only [ticks] at hn
    rw [← he] at hn
    refine ⟨n, ?_⟩
    rw [hn.2.1]
    cases hb1 : b1 with
    | true => rfl
    | false =>
      exfalso
      have := hrest.2.2.1 hb1
      linarith

/-- Witness of C23, on the canvas of 800 by 600. -/
theorem heavy_collisions_break_witness :
    (0 : ℚ) ≤ sampleEnv.canvas.width ∧ (400 : ℚ) ≤ sampleEnv.canvas.height - 35 ∧
    (∃ n : Nat,
      ((ticks sampleEnv n (afterCall (startSequence sampleEnv
        (createScene sampleEnv { Sim.initial with currentWeight := "heavy" })))).platforms.map
        (fun p => p.broken)).head? = some true) :=
  have hW : (0 : ℚ) ≤ sampleEnv.canvas.width := by decide!
  have hF : (400 : ℚ) ≤ sampleEnv.canvas.height - 35 := by decide!
  ⟨hW, hF, (heavy_collisions_break sampleEnv { Sim.initial with currentWeight := "heavy" }
    hW hF rfl rfl).2.2⟩

end DensitySim
